import Mathlib

/-!
# Themed colour palette (`modules/gui/qt/style/systempalette.cpp`)

A shallow embedding of the palette table, its key encoding, the fallback lookup,
the five static theme builders and the bridge to the external theme provider,
followed by the properties proved about them.

Conventions of the embedding:

* a value of an enumeration is a natural number (the integer behind the enumerator);
  the integer of each enumerator, the predefined colours and the status codes are
  declared in headers that are not part of the translated file, and are the fields
  of `ColorContext` / `Header`;
* `int` arithmetic is 32-bit two's complement (`wrapInt32`), `quint64` is `Nat`
  below `2 ^ 64`;
* the colour map `QMap<quint64, QColor>` is a function `Nat → Option QColor`;
* member functions take the object state and return the new state; emitted Qt
  signals are appended to the `emitted` log of the state;
* floating-point alpha values are kept as the decimal written in the source and
  are never rounded.
-/

/-! ## Colours -/

/-- The `float` handed to `QColor::setAlphaF`, kept exactly as the decimal of the
source literal, in hundredths. -/
structure AlphaF where
  hundredths : Nat
deriving DecidableEq, Repr

instance : OfScientific AlphaF where
  ofScientific m s e := ⟨if s then m * 100 / 10 ^ e else m * 100 * 10 ^ e⟩

/-- The alpha channel of a colour: given as an integer component (0..255) or
through `setAlphaF`. -/
inductive Alpha where
  | int (a : Nat)
  | real (f : AlphaF)
deriving DecidableEq, Repr

/-- The part of `QColor` the palette uses: validity, the three 8-bit colour
components and the alpha channel. -/
structure QColor where
  valid : Bool
  red : Nat
  green : Nat
  blue : Nat
  alpha : Alpha
deriving DecidableEq, Repr

/-- The invalid colour, as built by the default constructor or from a malformed
name. -/
def QColor.invalid : QColor := ⟨false, 0, 0, 0, .int 255⟩

/-- The constructor `QColor(int r, int g, int b, int a)`: components outside 0..255
give the invalid colour. -/
def QColor.fromRgba (r g b a : Int) : QColor :=
  if 0 ≤ r ∧ r ≤ 255 ∧ 0 ≤ g ∧ g ≤ 255 ∧ 0 ≤ b ∧ b ≤ 255 ∧ 0 ≤ a ∧ a ≤ 255 then
    ⟨true, r.toNat, g.toNat, b.toNat, .int a.toNat⟩
  else QColor.invalid

/-- Value of one hexadecimal digit. -/
def hexDigit (c : Char) : Option Nat :=
  if '0' ≤ c ∧ c ≤ '9' then some (c.toNat - '0'.toNat)
  else if 'a' ≤ c ∧ c ≤ 'f' then some (c.toNat - 'a'.toNat + 10)
  else if 'A' ≤ c ∧ c ≤ 'F' then some (c.toNat - 'A'.toNat + 10)
  else none

/-- The constructor `QColor(const char*)` on the names the palette uses: `#RRGGBB`
gives the opaque colour with these components, any other text of the source gives
the invalid colour. -/
def QColor.fromString (name : String) : QColor :=
  match name.toList with
  | ['#', r1, r0, g1, g0, b1, b0] =>
    match hexDigit r1, hexDigit r0, hexDigit g1, hexDigit g0, hexDigit b1, hexDigit b0 with
    | some r1, some r0, some g1, some g0, some b1, some b0 =>
      ⟨true, 16 * r1 + r0, 16 * g1 + g0, 16 * b1 + b0, .int 255⟩
    | _, _, _, _, _, _ => QColor.invalid
  | _ => QColor.invalid

/-- Qt global colour `Qt::white`. -/
def Qt.white : QColor := QColor.fromRgba 255 255 255 255

/-- Qt global colour `Qt::black`. -/
def Qt.black : QColor := QColor.fromRgba 0 0 0 255

/-- Qt global colour `Qt::transparent`. -/
def Qt.transparent : QColor := QColor.fromRgba 0 0 0 0

/-- Qt global colour `Qt::magenta`. -/
def Qt.magenta : QColor := QColor.fromRgba 255 0 255 255

/-- Source `setColorAlpha`: a copy of `c1` whose alpha is set with `setAlphaF`. -/
def setColorAlpha (c1 : QColor) (alpha : AlphaF) : QColor :=
  { c1 with alpha := .real alpha }

/-! ## Declarations of headers outside the translated file -/

/-- Enumerators of `ColorContext::ColorSet` named by the palette code. -/
inductive ColorSet where
  | View
  | Window
  | Badge
  | TabButton
  | ToolButton
  | MenuBar
  | Item
  | ButtonAccent
  | ButtonStandard
  | Tooltip
  | Slider
  | ComboBox
  | TextField
  | Switch
  | SpinBox
deriving DecidableEq, Repr, Fintype

/-- Enumerators of `ColorContext::ColorSection`. -/
inductive ColorSection where
  | Fg
  | Bg
  | Decoration
deriving DecidableEq, Repr, Fintype

/-- Enumerators of `ColorContext::ColorName` named by the palette code. -/
inductive ColorName where
  | Primary
  | Secondary
  | Highlight
  | Link
  | Positive
  | Neutral
  | Negative
  | VisualFocus
  | Border
  | Accent
  | Shadow
  | Separator
  | Indicator
deriving DecidableEq, Repr, Fintype

/-- Enumerators of `ColorContext::ColorState`. -/
inductive ColorState where
  | Normal
  | Disabled
  | Pressed
  | Hovered
  | Focused
deriving DecidableEq, Repr, Fintype

/-- The integer value of each enumerator of `ColorContext`; the values are declared
in a header that is not part of the translated file. -/
structure ColorContext where
  set : ColorSet → Nat
  section_ : ColorSection → Nat
  name : ColorName → Nat
  state : ColorState → Nat

/-- Everything the palette code takes from headers outside the translated file:
the enumerator values, the predefined colours of the palette class, the VLC status
codes, the image type of the window-decoration buttons and the three chroma codes
`getCSDImage` distinguishes. -/
structure Header extends ColorContext where
  lightGrey100 : QColor
  lightGrey200 : QColor
  lightGrey300 : QColor
  lightGrey400 : QColor
  lightGrey500 : QColor
  lightGrey600 : QColor
  darkGrey200 : QColor
  darkGrey300 : QColor
  darkGrey500 : QColor
  darkGrey800 : QColor
  orange500 : QColor
  orange800 : QColor
  VLC_SUCCESS : Int
  VLC_EGENERIC : Int
  VLC_QT_THEME_IMAGE_TYPE_CSD_BUTTON : Nat
  VLC_CODEC_ARGB : Nat
  VLC_CODEC_RGBA : Nat
  VLC_CODEC_RGB24 : Nat

/-- What the code relies on about the enumerators: within one enumeration different
enumerators have different values, and the values lie below the bounds `makeKey`
asserts statically (`SET_COUNT < 1<<16`, `SECTION_COUNT < 1<<4`, `NAME_COUNT < 1<<8`,
`STATE_COUNT < 1<<4`). -/
def ColorContext.WellFormed (C : ColorContext) : Prop :=
  (∀ a b, C.set a = C.set b → a = b) ∧ (∀ a b, C.section_ a = C.section_ b → a = b) ∧
  (∀ a b, C.name a = C.name b → a = b) ∧ (∀ a b, C.state a = C.state b → a = b) ∧
  (∀ a, C.set a < 65536) ∧ (∀ a, C.section_ a < 16) ∧
  (∀ a, C.name a < 256) ∧ (∀ a, C.state a < 16)

instance (C : ColorContext) : Decidable C.WellFormed := by
  unfold ColorContext.WellFormed; infer_instance

/-- The colour schemes `SystemPalette::updatePalette` switches on; `other` is any
further value of the enumeration (the `default` branch). -/
inductive ColorSchemeModel.ColorScheme where
  | System
  | Day
  | Night
  | Noir
  | Grindhouse
  | BubbleEra
  | other (value : Nat)
deriving DecidableEq, Repr

/-! ## Key encoding -/

/-- The value an `int` holds after an operation whose mathematical result is `z`
(32-bit two's complement). -/
def wrapInt32 (z : Int) : Int := (z + 2147483648) % 4294967296 - 2147483648

/-- Left shift of an `int`. -/
def shl32 (x : Int) (k : Nat) : Int := wrapInt32 (x * 2 ^ k)

/-- Sum of two `int`s. -/
def add32 (x y : Int) : Int := wrapInt32 (x + y)

/-- Conversion of an `int` to `quint64`. -/
def toQuint64 (z : Int) : Nat := (z % 18446744073709551616).toNat

/-- Source `makeKey`: the enumerators are promoted to `int`, shifted and added, and
the sum is converted to the `quint64` key. -/
def makeKey (colorSet section_ name state : Nat) : Nat :=
  toQuint64 (add32 (add32 (add32 (shl32 colorSet 16) (shl32 name 8)) (shl32 section_ 4)) state)

/-! ## Palette state -/

/-- The Qt signals of `SystemPalette`. -/
inductive Signal where
  | sourceChanged
  | ctxChanged
  | paletteChanged
  | hasCSDImageChanged
  | CSDMetricsChanged
deriving DecidableEq, Repr

/-- One call of a set-colour callback made by the theme provider during a palette
update. For `setColorF` the colour is the one `QColor::setRgbF` builds from the four
floating-point components. -/
inductive ThemeColorCall where
  | setColorInt (set section_ name state : Nat) (r g b a : Int)
  | setColorF (set section_ name state : Nat) (color : QColor)

/-- What the provider's `updatePalette` callback does when it is called: the
set-colour calls it makes, in order, and the status it returns. -/
structure PaletteUpdate where
  calls : List ThemeColorCall
  ret : Int

/-- The part of a `picture_t` that `getCSDImage` reads: the chroma, the visible size
(`unsigned`), the pitch of plane 0 and the address of its pixels. -/
structure picture_t where
  i_chroma : Nat
  i_visible_width : Nat
  i_visible_height : Nat
  i_pitch : Int
  p_pixels : Nat
deriving DecidableEq, Repr

/-- The settings `getCSDImage` hands to the provider (`vlc_qt_theme_image_setting` with
its `csdButton` member); the two scale factors are the exact values of the doubles. -/
structure vlc_qt_theme_image_setting where
  windowScaleFactor : ℚ
  userScaleFacor : ℚ
  buttonType : Nat
  state : Nat
  maximized : Bool
  active : Bool
  bannerHeight : Int
deriving DecidableEq

/-- The window-decoration member `u.csd` of `vlc_qt_theme_metrics`, as the provider's
`getThemeMetrics` callback leaves it when it starts from the zeroed structure. -/
structure vlc_qt_theme_metrics where
  interNavButtonSpacing : Int
  csdFrameMarginLeft : Int
  csdFrameMarginRight : Int
  csdFrameMarginTop : Int
  csdFrameMarginBottom : Int
deriving DecidableEq, Repr

/-- The callback table of `vlc_qt_theme_provider_t` filled by the provider module;
`none` is a null function pointer. The metrics callback gives, for an image type, the
boolean it returns and the metrics it wrote. -/
structure vlc_qt_theme_provider_t where
  isThemeDark : Option Bool := none
  supportThemeImage : Option (Nat → Bool) := none
  updatePalette : Option PaletteUpdate := none
  getThemeImage : Option (Nat → vlc_qt_theme_image_setting → Option picture_t) := none
  getThemeMetrics : Option (Nat → Bool × vlc_qt_theme_metrics) := none

/-- The main context, as far as the palette uses it: whether `vlc_object_create`
yields a provider object, and the callback table of the module `module_need` loads
(`none` when no theme-provider module loads), the device pixel ratio of the main window,
the user scale factor, and the address of the object, which is what a `MainCtx*` is
compared by. -/
structure MainCtx where
  objectCreate : Bool
  moduleNeed : Option vlc_qt_theme_provider_t
  devicePixelRatio : ℚ := 1
  getIntfUserScaleFactor : ℚ := 1
  ptr : Nat := 0

/-- The window-decoration metrics `CSDMetrics`. -/
structure CSDMetrics where
  interNavButtonSpacing : Int
  csdFrameMarginLeft : Int
  csdFrameMarginRight : Int
  csdFrameMarginTop : Int
  csdFrameMarginBottom : Int
deriving DecidableEq, Repr

/-- An `ExternalPaletteImpl` whose `init()` returned true: its context, the loaded
provider, the stored metrics (`none` is the null pointer) and the log of the signals
the object emitted. -/
structure ExternalPaletteImpl where
  m_ctx : MainCtx
  m_provider : vlc_qt_theme_provider_t
  m_csdMetrics : Option CSDMetrics := none
  emitted : List Signal := []

/-- The state of a `SystemPalette` object. -/
structure SystemPalette where
  m_source : ColorSchemeModel.ColorScheme
  m_ctx : Option MainCtx
  m_colorMap : Nat → Option QColor
  m_isDark : Bool
  m_hasCSDImage : Bool
  m_palettePriv : Option ExternalPaletteImpl
  emitted : List Signal

/-- Appends a signal to the log of emitted signals. -/
def SystemPalette.emit (self : SystemPalette) (s : Signal) : SystemPalette :=
  { self with emitted := self.emitted ++ [s] }

/-- Source `SystemPalette::source`. -/
def SystemPalette.source (self : SystemPalette) : ColorSchemeModel.ColorScheme :=
  self.m_source

/-- Source `SystemPalette::setColor`: `m_colorMap[key] = color`. -/
def SystemPalette.setColor (self : SystemPalette) (colorSet section_ name state : Nat)
    (color : QColor) : SystemPalette :=
  let key := makeKey colorSet section_ name state
  { self with m_colorMap := fun k => if k = key then some color else self.m_colorMap k }

/-- Source `SystemPalette::getColor`: the exact key, then the normal state, then the
same lookup in the `View` colour set, and magenta when nothing matches. -/
def SystemPalette.getColor (self : SystemPalette) (C : ColorContext)
    (colorSet section_ name state : Nat) : QColor :=
  match self.m_colorMap (makeKey colorSet section_ name state) with
  | some c => c
  | none =>
    match self.m_colorMap (makeKey colorSet section_ name (C.state .Normal)) with
    | some c => c
    | none =>
      if colorSet ≠ C.set .View then
        self.getColor C (C.set .View) section_ name state
      else
        Qt.magenta
termination_by (if colorSet = C.set .View then 0 else 1)
decreasing_by simp_all

/-- Source `m_colorMap.clear()`. -/
def SystemPalette.clearColorMap (self : SystemPalette) : SystemPalette :=
  { self with m_colorMap := fun _ => none }

/-! ## Static themes -/

/-- The arguments of one `setColor` call of a static builder: the four enumerators
and the colour. -/
structure SetColorCall where
  colorSet : ColorSet
  section_ : ColorSection
  name : ColorName
  state : ColorState
  color : QColor

/-- The four enumerators of a `setColor` call. -/
def SetColorCall.tuple (w : SetColorCall) : ColorSet × ColorSection × ColorName × ColorState :=
  (w.colorSet, w.section_, w.name, w.state)

/-- The key a `setColor` call writes. -/
def SetColorCall.key (C : ColorContext) (w : SetColorCall) : Nat :=
  makeKey (C.set w.colorSet) (C.section_ w.section_) (C.name w.name) (C.state w.state)

/-- Runs a sequence of `setColor` calls in order. -/
def SystemPalette.setColors (self : SystemPalette) (C : ColorContext)
    (calls : List SetColorCall) : SystemPalette :=
  calls.foldl
    (fun p w =>
      p.setColor (C.set w.colorSet) (C.section_ w.section_) (C.name w.name) (C.state w.state)
        w.color)
    self

/-- The `setColor` calls of `makeLightPalette`, in source order, one list per colour-set block. -/
def lightWrites (H : Header) : List SetColorCall :=
  -- View
  [
    ⟨.View, .Bg, .Primary, .Normal, H.lightGrey100⟩,
    ⟨.View, .Bg, .Secondary, .Normal, Qt.white⟩,
    ⟨.View, .Fg, .Primary, .Normal, H.darkGrey300⟩,
    ⟨.View, .Fg, .Primary, .Disabled, (setColorAlpha Qt.black 0.3)⟩,
    ⟨.View, .Fg, .Secondary, .Normal, (setColorAlpha Qt.black 0.7)⟩,
    ⟨.View, .Bg, .Negative, .Normal, (QColor.fromString "#fde7e9")⟩,
    ⟨.View, .Fg, .Negative, .Normal, Qt.black⟩,
    ⟨.View, .Bg, .Neutral, .Normal, (QColor.fromString "#e4dab8")⟩,
    ⟨.View, .Fg, .Neutral, .Normal, Qt.black⟩,
    ⟨.View, .Bg, .Positive, .Normal, (QColor.fromString "#dff6dd")⟩,
    ⟨.View, .Fg, .Positive, .Normal, Qt.black⟩,
    ⟨.View, .Decoration, .VisualFocus, .Normal, (setColorAlpha Qt.black 0.0)⟩,
    ⟨.View, .Decoration, .VisualFocus, .Focused, Qt.black⟩,
    ⟨.View, .Decoration, .Border, .Normal, (setColorAlpha Qt.black 0.4)⟩,
    ⟨.View, .Decoration, .Border, .Focused, (setColorAlpha Qt.black 0.7)⟩,
    ⟨.View, .Decoration, .Border, .Hovered, (setColorAlpha Qt.black 0.7)⟩,
    ⟨.View, .Decoration, .Border, .Disabled, (setColorAlpha Qt.black 0.0)⟩,
    ⟨.View, .Decoration, .Separator, .Normal, (QColor.fromString "#E0E0E0")⟩,
    ⟨.View, .Decoration, .Shadow, .Normal, (setColorAlpha Qt.black 0.22)⟩,
    ⟨.View, .Decoration, .Accent, .Normal, H.orange800⟩,
    ⟨.View, .Fg, .Link, .Normal, H.orange800⟩
  ] ++
  -- Window
  [
    ⟨.Window, .Bg, .Primary, .Normal, Qt.white⟩,
    ⟨.Window, .Bg, .Secondary, .Normal, H.lightGrey400⟩,
    ⟨.Window, .Decoration, .Border, .Normal, (QColor.fromString "#E0E0E0")⟩
  ] ++
  -- Badge
  [
    ⟨.Badge, .Bg, .Primary, .Normal, (setColorAlpha Qt.black 0.6)⟩,
    ⟨.Badge, .Fg, .Primary, .Normal, Qt.white⟩
  ] ++
  -- TabButton
  [
    ⟨.TabButton, .Bg, .Primary, .Normal, (setColorAlpha H.lightGrey300 0.0)⟩,
    ⟨.TabButton, .Bg, .Primary, .Focused, H.lightGrey300⟩,
    ⟨.TabButton, .Bg, .Primary, .Hovered, H.lightGrey300⟩,
    ⟨.TabButton, .Fg, .Primary, .Normal, (setColorAlpha Qt.black 0.6)⟩,
    ⟨.TabButton, .Fg, .Primary, .Focused, Qt.black⟩,
    ⟨.TabButton, .Fg, .Primary, .Hovered, Qt.black⟩,
    ⟨.TabButton, .Fg, .Primary, .Disabled, (setColorAlpha Qt.black 0.2)⟩,
    ⟨.TabButton, .Fg, .Secondary, .Normal, Qt.black⟩
  ] ++
  -- ToolButton
  [
    ⟨.ToolButton, .Bg, .Primary, .Normal, Qt.transparent⟩,
    ⟨.ToolButton, .Bg, .Secondary, .Normal, H.lightGrey400⟩,
    ⟨.ToolButton, .Fg, .Primary, .Normal, (setColorAlpha Qt.black 0.6)⟩,
    ⟨.ToolButton, .Fg, .Primary, .Focused, Qt.black⟩,
    ⟨.ToolButton, .Fg, .Primary, .Hovered, Qt.black⟩,
    ⟨.ToolButton, .Fg, .Primary, .Disabled, (setColorAlpha Qt.black 0.2)⟩,
    ⟨.ToolButton, .Fg, .Secondary, .Normal, Qt.black⟩,
    ⟨.ToolButton, .Decoration, .Border, .Normal, Qt.transparent⟩,
    ⟨.ToolButton, .Decoration, .Border, .Focused, Qt.transparent⟩,
    ⟨.ToolButton, .Decoration, .Border, .Hovered, Qt.transparent⟩,
    ⟨.ToolButton, .Decoration, .Border, .Disabled, Qt.transparent⟩
  ] ++
  -- MenuBar
  [
    ⟨.MenuBar, .Bg, .Primary, .Normal, (setColorAlpha H.lightGrey300 0.0)⟩,
    ⟨.MenuBar, .Bg, .Primary, .Focused, H.lightGrey300⟩,
    ⟨.MenuBar, .Bg, .Primary, .Hovered, H.lightGrey300⟩,
    ⟨.MenuBar, .Fg, .Primary, .Normal, Qt.black⟩,
    ⟨.MenuBar, .Fg, .Primary, .Disabled, (setColorAlpha Qt.black 0.2)⟩
  ] ++
  -- Item
  [
    ⟨.Item, .Bg, .Primary, .Normal, (setColorAlpha H.lightGrey600 0.0)⟩,
    ⟨.Item, .Bg, .Primary, .Focused, (setColorAlpha H.lightGrey600 0.5)⟩,
    ⟨.Item, .Bg, .Primary, .Hovered, (setColorAlpha H.lightGrey600 0.5)⟩,
    ⟨.Item, .Bg, .Highlight, .Normal, H.lightGrey600⟩,
    ⟨.Item, .Bg, .Highlight, .Focused, (setColorAlpha H.lightGrey600 0.8)⟩,
    ⟨.Item, .Bg, .Highlight, .Hovered, (setColorAlpha H.lightGrey600 0.8)⟩,
    ⟨.Item, .Fg, .Highlight, .Normal, Qt.black⟩,
    ⟨.Item, .Fg, .Primary, .Normal, Qt.black⟩,
    ⟨.Item, .Fg, .Secondary, .Normal, (setColorAlpha Qt.black 0.6)⟩,
    ⟨.Item, .Decoration, .Indicator, .Normal, (QColor.fromString "#9e9e9e")⟩
  ] ++
  -- ButtonAccent
  [
    ⟨.ButtonAccent, .Bg, .Primary, .Normal, H.orange800⟩,
    ⟨.ButtonAccent, .Bg, .Primary, .Pressed, (QColor.fromString "#e65609")⟩,
    ⟨.ButtonAccent, .Bg, .Primary, .Disabled, (setColorAlpha Qt.black 0.2)⟩,
    ⟨.ButtonAccent, .Fg, .Primary, .Normal, Qt.white⟩,
    ⟨.ButtonAccent, .Fg, .Primary, .Disabled, (setColorAlpha Qt.black 0.3)⟩,
    ⟨.ButtonAccent, .Decoration, .Border, .Normal, Qt.transparent⟩,
    ⟨.ButtonAccent, .Decoration, .Border, .Focused, Qt.transparent⟩,
    ⟨.ButtonAccent, .Decoration, .Border, .Hovered, Qt.transparent⟩,
    ⟨.ButtonAccent, .Decoration, .Border, .Disabled, Qt.transparent⟩
  ] ++
  -- ButtonStandard
  [
    ⟨.ButtonStandard, .Bg, .Primary, .Normal, Qt.transparent⟩,
    ⟨.ButtonStandard, .Fg, .Primary, .Normal, (setColorAlpha Qt.black 0.6)⟩,
    ⟨.ButtonStandard, .Fg, .Primary, .Focused, Qt.black⟩,
    ⟨.ButtonStandard, .Fg, .Primary, .Hovered, Qt.black⟩,
    ⟨.ButtonStandard, .Fg, .Primary, .Disabled, (setColorAlpha Qt.black 0.3)⟩,
    ⟨.ButtonStandard, .Decoration, .Border, .Normal, Qt.transparent⟩,
    ⟨.ButtonStandard, .Decoration, .Border, .Focused, Qt.transparent⟩,
    ⟨.ButtonStandard, .Decoration, .Border, .Hovered, Qt.transparent⟩,
    ⟨.ButtonStandard, .Decoration, .Border, .Disabled, Qt.transparent⟩
  ] ++
  -- Tooltip
  [
    ⟨.Tooltip, .Bg, .Primary, .Normal, H.lightGrey200⟩,
    ⟨.Tooltip, .Fg, .Primary, .Normal, Qt.black⟩
  ] ++
  -- Slider
  [
    ⟨.Slider, .Bg, .Primary, .Normal, H.lightGrey400⟩,
    ⟨.Slider, .Bg, .Secondary, .Normal, (setColorAlpha (QColor.fromString "#lightGrey400") 0.2)⟩,
    ⟨.Slider, .Fg, .Primary, .Normal, H.orange800⟩,
    ⟨.Slider, .Fg, .Positive, .Normal, (QColor.fromString "#0F7B0F")⟩,
    ⟨.Slider, .Fg, .Neutral, .Normal, (QColor.fromString "#9D5D00")⟩,
    ⟨.Slider, .Fg, .Negative, .Normal, (QColor.fromString "#C42B1C")⟩
  ] ++
  -- ComboBox
  [
    ⟨.ComboBox, .Fg, .Primary, .Normal, Qt.black⟩,
    ⟨.ComboBox, .Bg, .Primary, .Normal, (setColorAlpha Qt.white 0.8)⟩,
    ⟨.ComboBox, .Bg, .Secondary, .Normal, H.lightGrey500⟩
  ] ++
  -- TextField
  [
    ⟨.TextField, .Decoration, .Border, .Normal, (setColorAlpha Qt.black 0.4)⟩,
    ⟨.TextField, .Decoration, .Border, .Focused, H.orange800⟩,
    ⟨.TextField, .Decoration, .Border, .Hovered, (setColorAlpha Qt.black 0.7)⟩,
    ⟨.TextField, .Decoration, .Border, .Disabled, (setColorAlpha Qt.black 0.0)⟩,
    ⟨.TextField, .Bg, .Highlight, .Normal, H.darkGrey800⟩,
    ⟨.TextField, .Fg, .Highlight, .Normal, Qt.white⟩
  ] ++
  -- Switch
  [
    ⟨.Switch, .Bg, .Primary, .Normal, (setColorAlpha Qt.black 0.05)⟩,
    ⟨.Switch, .Fg, .Primary, .Normal, (setColorAlpha Qt.black 0.55)⟩,
    ⟨.Switch, .Decoration, .Border, .Normal, (setColorAlpha Qt.black 0.55)⟩,
    ⟨.Switch, .Bg, .Secondary, .Normal, H.orange800⟩,
    ⟨.Switch, .Fg, .Secondary, .Normal, Qt.white⟩
  ] ++
  -- SpinBox
  [
    ⟨.SpinBox, .Decoration, .Border, .Normal, (setColorAlpha Qt.black 0.4)⟩,
    ⟨.SpinBox, .Decoration, .Border, .Focused, H.orange800⟩,
    ⟨.SpinBox, .Decoration, .Border, .Hovered, (setColorAlpha Qt.black 0.7)⟩,
    ⟨.SpinBox, .Decoration, .Border, .Disabled, (setColorAlpha Qt.black 0.0)⟩,
    ⟨.SpinBox, .Bg, .Highlight, .Normal, H.darkGrey800⟩,
    ⟨.SpinBox, .Fg, .Highlight, .Normal, Qt.white⟩
  ]

/-- The `setColor` calls of `makeDarkPalette`, in source order, one list per colour-set block. -/
def darkWrites (H : Header) : List SetColorCall :=
  -- View
  [
    ⟨.View, .Bg, .Primary, .Normal, H.darkGrey300⟩,
    ⟨.View, .Bg, .Secondary, .Normal, Qt.black⟩,
    ⟨.View, .Fg, .Primary, .Normal, Qt.white⟩,
    ⟨.View, .Fg, .Primary, .Disabled, (setColorAlpha Qt.white 0.3)⟩,
    ⟨.View, .Fg, .Secondary, .Normal, (setColorAlpha Qt.white 0.6)⟩,
    ⟨.View, .Bg, .Negative, .Normal, (QColor.fromString "#D85566")⟩,
    ⟨.View, .Fg, .Negative, .Normal, Qt.white⟩,
    ⟨.View, .Bg, .Neutral, .Normal, (QColor.fromString "#FFD700")⟩,
    ⟨.View, .Fg, .Neutral, .Normal, Qt.black⟩,
    ⟨.View, .Bg, .Positive, .Normal, (QColor.fromString "#4CAF50")⟩,
    ⟨.View, .Fg, .Positive, .Normal, Qt.white⟩,
    ⟨.View, .Decoration, .VisualFocus, .Normal, (setColorAlpha Qt.white 0.0)⟩,
    ⟨.View, .Decoration, .VisualFocus, .Focused, Qt.white⟩,
    ⟨.View, .Decoration, .Border, .Normal, (setColorAlpha Qt.white 0.4)⟩,
    ⟨.View, .Decoration, .Border, .Focused, (setColorAlpha Qt.white 0.7)⟩,
    ⟨.View, .Decoration, .Border, .Hovered, (setColorAlpha Qt.white 0.7)⟩,
    ⟨.View, .Decoration, .Border, .Disabled, (setColorAlpha Qt.white 0.0)⟩,
    ⟨.View, .Decoration, .Shadow, .Normal, (setColorAlpha Qt.black 0.22)⟩,
    ⟨.View, .Decoration, .Separator, .Normal, H.darkGrey800⟩,
    ⟨.View, .Decoration, .Accent, .Normal, H.orange500⟩,
    ⟨.View, .Fg, .Link, .Normal, H.orange500⟩
  ] ++
  -- Window
  [
    ⟨.Window, .Bg, .Primary, .Normal, Qt.black⟩,
    ⟨.Window, .Bg, .Secondary, .Normal, Qt.black⟩,
    ⟨.Window, .Decoration, .Border, .Normal, H.darkGrey800⟩
  ] ++
  -- Badge
  [
    ⟨.Badge, .Bg, .Primary, .Normal, (setColorAlpha Qt.white 0.8)⟩,
    ⟨.Badge, .Fg, .Primary, .Normal, Qt.black⟩
  ] ++
  -- TabButton
  [
    ⟨.TabButton, .Bg, .Primary, .Normal, (setColorAlpha H.darkGrey800 0.0)⟩,
    ⟨.TabButton, .Bg, .Primary, .Focused, H.darkGrey800⟩,
    ⟨.TabButton, .Bg, .Primary, .Hovered, H.darkGrey800⟩,
    ⟨.TabButton, .Fg, .Primary, .Normal, (setColorAlpha Qt.white 0.6)⟩,
    ⟨.TabButton, .Fg, .Primary, .Focused, Qt.white⟩,
    ⟨.TabButton, .Fg, .Primary, .Hovered, Qt.white⟩,
    ⟨.TabButton, .Fg, .Primary, .Disabled, (setColorAlpha Qt.white 0.2)⟩,
    ⟨.TabButton, .Fg, .Secondary, .Normal, Qt.white⟩
  ] ++
  -- ToolButton
  [
    ⟨.ToolButton, .Bg, .Primary, .Normal, Qt.transparent⟩,
    ⟨.ToolButton, .Bg, .Secondary, .Normal, Qt.black⟩,
    ⟨.ToolButton, .Fg, .Primary, .Normal, (setColorAlpha Qt.white 0.6)⟩,
    ⟨.ToolButton, .Fg, .Primary, .Focused, Qt.white⟩,
    ⟨.ToolButton, .Fg, .Primary, .Hovered, Qt.white⟩,
    ⟨.ToolButton, .Fg, .Primary, .Disabled, (setColorAlpha Qt.white 0.2)⟩,
    ⟨.ToolButton, .Fg, .Secondary, .Normal, Qt.white⟩,
    ⟨.ToolButton, .Decoration, .Border, .Normal, Qt.transparent⟩,
    ⟨.ToolButton, .Decoration, .Border, .Focused, Qt.transparent⟩,
    ⟨.ToolButton, .Decoration, .Border, .Hovered, Qt.transparent⟩,
    ⟨.ToolButton, .Decoration, .Border, .Disabled, Qt.transparent⟩
  ] ++
  -- MenuBar
  [
    ⟨.MenuBar, .Bg, .Primary, .Normal, (setColorAlpha H.darkGrey800 0.0)⟩,
    ⟨.MenuBar, .Bg, .Primary, .Focused, H.darkGrey800⟩,
    ⟨.MenuBar, .Bg, .Primary, .Hovered, H.darkGrey800⟩,
    ⟨.MenuBar, .Fg, .Primary, .Normal, Qt.white⟩,
    ⟨.MenuBar, .Fg, .Primary, .Disabled, (setColorAlpha Qt.white 0.2)⟩
  ] ++
  -- Item
  [
    ⟨.Item, .Bg, .Primary, .Normal, (setColorAlpha H.darkGrey800 0.0)⟩,
    ⟨.Item, .Bg, .Primary, .Focused, (setColorAlpha H.darkGrey800 0.5)⟩,
    ⟨.Item, .Bg, .Primary, .Hovered, (setColorAlpha H.darkGrey800 0.5)⟩,
    ⟨.Item, .Bg, .Highlight, .Normal, H.darkGrey800⟩,
    ⟨.Item, .Bg, .Highlight, .Focused, (setColorAlpha H.darkGrey800 0.8)⟩,
    ⟨.Item, .Bg, .Highlight, .Hovered, (setColorAlpha H.darkGrey800 0.8)⟩,
    ⟨.Item, .Fg, .Highlight, .Normal, Qt.white⟩,
    ⟨.Item, .Fg, .Primary, .Normal, Qt.white⟩,
    ⟨.Item, .Fg, .Secondary, .Normal, (setColorAlpha Qt.white 0.6)⟩,
    ⟨.Item, .Decoration, .Indicator, .Normal, (QColor.fromString "#666666")⟩
  ] ++
  -- ButtonAccent
  [
    ⟨.ButtonAccent, .Bg, .Primary, .Normal, H.orange500⟩,
    ⟨.ButtonAccent, .Bg, .Primary, .Pressed, (QColor.fromString "#FF7D00")⟩,
    ⟨.ButtonAccent, .Bg, .Primary, .Disabled, (setColorAlpha Qt.white 0.2)⟩,
    ⟨.ButtonAccent, .Fg, .Primary, .Normal, Qt.white⟩,
    ⟨.ButtonAccent, .Fg, .Primary, .Disabled, (setColorAlpha Qt.white 0.3)⟩,
    ⟨.ButtonAccent, .Decoration, .Border, .Normal, Qt.transparent⟩,
    ⟨.ButtonAccent, .Decoration, .Border, .Focused, Qt.transparent⟩,
    ⟨.ButtonAccent, .Decoration, .Border, .Hovered, Qt.transparent⟩,
    ⟨.ButtonAccent, .Decoration, .Border, .Disabled, Qt.transparent⟩
  ] ++
  -- ButtonStandard
  [
    ⟨.ButtonStandard, .Bg, .Primary, .Normal, Qt.transparent⟩,
    ⟨.ButtonStandard, .Fg, .Primary, .Normal, (setColorAlpha Qt.white 0.6)⟩,
    ⟨.ButtonStandard, .Fg, .Primary, .Focused, Qt.white⟩,
    ⟨.ButtonStandard, .Fg, .Primary, .Hovered, Qt.white⟩,
    ⟨.ButtonStandard, .Fg, .Primary, .Disabled, (setColorAlpha Qt.white 0.3)⟩,
    ⟨.ButtonStandard, .Decoration, .Border, .Normal, Qt.transparent⟩,
    ⟨.ButtonStandard, .Decoration, .Border, .Focused, Qt.transparent⟩,
    ⟨.ButtonStandard, .Decoration, .Border, .Hovered, Qt.transparent⟩,
    ⟨.ButtonStandard, .Decoration, .Border, .Disabled, Qt.transparent⟩
  ] ++
  -- Tooltip
  [
    ⟨.Tooltip, .Bg, .Primary, .Normal, H.darkGrey200⟩,
    ⟨.Tooltip, .Fg, .Primary, .Normal, Qt.white⟩
  ] ++
  -- Slider
  [
    ⟨.Slider, .Bg, .Primary, .Normal, (setColorAlpha (QColor.fromString "#929292") 0.2)⟩,
    ⟨.Slider, .Bg, .Primary, .Focused, (setColorAlpha (QColor.fromString "#929292") 0.4)⟩,
    ⟨.Slider, .Bg, .Primary, .Hovered, (setColorAlpha (QColor.fromString "#929292") 0.4)⟩,
    ⟨.Slider, .Fg, .Primary, .Normal, H.orange500⟩,
    ⟨.Slider, .Fg, .Positive, .Normal, (QColor.fromString "#0F7B0F")⟩,
    ⟨.Slider, .Fg, .Neutral, .Normal, (QColor.fromString "#9D5D00")⟩,
    ⟨.Slider, .Fg, .Negative, .Normal, (QColor.fromString "#C42B1C")⟩
  ] ++
  -- ComboBox
  [
    ⟨.ComboBox, .Fg, .Primary, .Normal, Qt.white⟩,
    ⟨.ComboBox, .Bg, .Primary, .Normal, (setColorAlpha H.darkGrey300 0.8)⟩,
    ⟨.ComboBox, .Bg, .Secondary, .Normal, H.darkGrey500⟩
  ] ++
  -- TextField
  [
    ⟨.TextField, .Decoration, .Border, .Normal, (setColorAlpha Qt.white 0.4)⟩,
    ⟨.TextField, .Decoration, .Border, .Focused, H.orange500⟩,
    ⟨.TextField, .Decoration, .Border, .Hovered, (setColorAlpha Qt.white 0.7)⟩,
    ⟨.TextField, .Decoration, .Border, .Disabled, (setColorAlpha Qt.white 0.0)⟩,
    ⟨.TextField, .Bg, .Highlight, .Normal, H.lightGrey600⟩,
    ⟨.TextField, .Fg, .Highlight, .Normal, Qt.black⟩
  ] ++
  -- Switch
  [
    ⟨.Switch, .Bg, .Primary, .Normal, (setColorAlpha Qt.white 0.05)⟩,
    ⟨.Switch, .Fg, .Primary, .Normal, (setColorAlpha Qt.white 0.55)⟩,
    ⟨.Switch, .Decoration, .Border, .Normal, (setColorAlpha Qt.white 0.55)⟩,
    ⟨.Switch, .Bg, .Secondary, .Normal, H.orange500⟩,
    ⟨.Switch, .Fg, .Secondary, .Normal, Qt.black⟩
  ] ++
  -- SpinBox
  [
    ⟨.SpinBox, .Decoration, .Border, .Normal, (setColorAlpha Qt.white 0.4)⟩,
    ⟨.SpinBox, .Decoration, .Border, .Focused, H.orange500⟩,
    ⟨.SpinBox, .Decoration, .Border, .Hovered, (setColorAlpha Qt.white 0.7)⟩,
    ⟨.SpinBox, .Decoration, .Border, .Disabled, (setColorAlpha Qt.white 0.0)⟩,
    ⟨.SpinBox, .Bg, .Highlight, .Normal, H.lightGrey600⟩,
    ⟨.SpinBox, .Fg, .Highlight, .Normal, Qt.black⟩
  ]

/-- The `setColor` calls of `makeNoirPalette`, in source order, one list per colour-set block. -/
def noirWrites : List SetColorCall :=
  -- View
  [
    ⟨.View, .Bg, .Primary, .Normal, (QColor.fromString "#1a1a1a")⟩,
    ⟨.View, .Bg, .Secondary, .Normal, Qt.black⟩,
    ⟨.View, .Fg, .Primary, .Normal, Qt.white⟩,
    ⟨.View, .Fg, .Primary, .Disabled, (setColorAlpha Qt.white 0.3)⟩,
    ⟨.View, .Fg, .Secondary, .Normal, (setColorAlpha Qt.white 0.6)⟩,
    ⟨.View, .Bg, .Negative, .Normal, (QColor.fromString "#333333")⟩,
    ⟨.View, .Fg, .Negative, .Normal, Qt.white⟩,
    ⟨.View, .Bg, .Neutral, .Normal, (QColor.fromString "#555555")⟩,
    ⟨.View, .Fg, .Neutral, .Normal, Qt.white⟩,
    ⟨.View, .Bg, .Positive, .Normal, (QColor.fromString "#444444")⟩,
    ⟨.View, .Fg, .Positive, .Normal, Qt.white⟩,
    ⟨.View, .Decoration, .VisualFocus, .Normal, (setColorAlpha Qt.white 0.0)⟩,
    ⟨.View, .Decoration, .VisualFocus, .Focused, Qt.white⟩,
    ⟨.View, .Decoration, .Border, .Normal, (setColorAlpha Qt.white 0.3)⟩,
    ⟨.View, .Decoration, .Border, .Focused, (setColorAlpha Qt.white 0.6)⟩,
    ⟨.View, .Decoration, .Border, .Hovered, (setColorAlpha Qt.white 0.6)⟩,
    ⟨.View, .Decoration, .Border, .Disabled, (setColorAlpha Qt.white 0.0)⟩,
    ⟨.View, .Decoration, .Shadow, .Normal, (setColorAlpha Qt.black 0.4)⟩,
    ⟨.View, .Decoration, .Separator, .Normal, (QColor.fromString "#2a2a2a")⟩,
    ⟨.View, .Decoration, .Accent, .Normal, (QColor.fromString "#888888")⟩,
    ⟨.View, .Fg, .Link, .Normal, (QColor.fromString "#999999")⟩
  ] ++
  -- Window
  [
    ⟨.Window, .Bg, .Primary, .Normal, Qt.black⟩,
    ⟨.Window, .Bg, .Secondary, .Normal, Qt.black⟩,
    ⟨.Window, .Decoration, .Border, .Normal, (QColor.fromString "#2a2a2a")⟩
  ] ++
  -- Badge
  [
    ⟨.Badge, .Bg, .Primary, .Normal, (setColorAlpha Qt.white 0.9)⟩,
    ⟨.Badge, .Fg, .Primary, .Normal, Qt.black⟩
  ] ++
  -- TabButton
  [
    ⟨.TabButton, .Bg, .Primary, .Normal, (setColorAlpha (QColor.fromString "#2a2a2a") 0.0)⟩,
    ⟨.TabButton, .Bg, .Primary, .Focused, (QColor.fromString "#2a2a2a")⟩,
    ⟨.TabButton, .Bg, .Primary, .Hovered, (QColor.fromString "#2a2a2a")⟩,
    ⟨.TabButton, .Fg, .Primary, .Normal, (setColorAlpha Qt.white 0.5)⟩,
    ⟨.TabButton, .Fg, .Primary, .Focused, Qt.white⟩,
    ⟨.TabButton, .Fg, .Primary, .Hovered, Qt.white⟩,
    ⟨.TabButton, .Fg, .Primary, .Disabled, (setColorAlpha Qt.white 0.2)⟩,
    ⟨.TabButton, .Fg, .Secondary, .Normal, Qt.white⟩
  ] ++
  -- ToolButton
  [
    ⟨.ToolButton, .Bg, .Primary, .Normal, Qt.transparent⟩,
    ⟨.ToolButton, .Bg, .Secondary, .Normal, Qt.black⟩,
    ⟨.ToolButton, .Fg, .Primary, .Normal, (setColorAlpha Qt.white 0.5)⟩,
    ⟨.ToolButton, .Fg, .Primary, .Focused, Qt.white⟩,
    ⟨.ToolButton, .Fg, .Primary, .Hovered, Qt.white⟩,
    ⟨.ToolButton, .Fg, .Primary, .Disabled, (setColorAlpha Qt.white 0.2)⟩,
    ⟨.ToolButton, .Fg, .Secondary, .Normal, Qt.white⟩,
    ⟨.ToolButton, .Decoration, .Border, .Normal, Qt.transparent⟩,
    ⟨.ToolButton, .Decoration, .Border, .Focused, Qt.transparent⟩,
    ⟨.ToolButton, .Decoration, .Border, .Hovered, Qt.transparent⟩,
    ⟨.ToolButton, .Decoration, .Border, .Disabled, Qt.transparent⟩
  ] ++
  -- MenuBar
  [
    ⟨.MenuBar, .Bg, .Primary, .Normal, (setColorAlpha (QColor.fromString "#2a2a2a") 0.0)⟩,
    ⟨.MenuBar, .Bg, .Primary, .Focused, (QColor.fromString "#2a2a2a")⟩,
    ⟨.MenuBar, .Bg, .Primary, .Hovered, (QColor.fromString "#2a2a2a")⟩,
    ⟨.MenuBar, .Fg, .Primary, .Normal, Qt.white⟩,
    ⟨.MenuBar, .Fg, .Primary, .Disabled, (setColorAlpha Qt.white 0.2)⟩
  ] ++
  -- Item
  [
    ⟨.Item, .Bg, .Primary, .Normal, (setColorAlpha (QColor.fromString "#2a2a2a") 0.0)⟩,
    ⟨.Item, .Bg, .Primary, .Focused, (setColorAlpha (QColor.fromString "#2a2a2a") 0.5)⟩,
    ⟨.Item, .Bg, .Primary, .Hovered, (setColorAlpha (QColor.fromString "#2a2a2a") 0.5)⟩,
    ⟨.Item, .Bg, .Highlight, .Normal, (QColor.fromString "#3a3a3a")⟩,
    ⟨.Item, .Bg, .Highlight, .Focused, (setColorAlpha (QColor.fromString "#3a3a3a") 0.8)⟩,
    ⟨.Item, .Bg, .Highlight, .Hovered, (setColorAlpha (QColor.fromString "#3a3a3a") 0.8)⟩,
    ⟨.Item, .Fg, .Highlight, .Normal, Qt.white⟩,
    ⟨.Item, .Fg, .Primary, .Normal, Qt.white⟩,
    ⟨.Item, .Fg, .Secondary, .Normal, (setColorAlpha Qt.white 0.5)⟩,
    ⟨.Item, .Decoration, .Indicator, .Normal, (QColor.fromString "#555555")⟩
  ] ++
  -- ButtonAccent
  [
    ⟨.ButtonAccent, .Bg, .Primary, .Normal, (QColor.fromString "#555555")⟩,
    ⟨.ButtonAccent, .Bg, .Primary, .Pressed, (QColor.fromString "#444444")⟩,
    ⟨.ButtonAccent, .Bg, .Primary, .Disabled, (setColorAlpha Qt.white 0.15)⟩,
    ⟨.ButtonAccent, .Fg, .Primary, .Normal, Qt.white⟩,
    ⟨.ButtonAccent, .Fg, .Primary, .Disabled, (setColorAlpha Qt.white 0.3)⟩,
    ⟨.ButtonAccent, .Decoration, .Border, .Normal, Qt.transparent⟩,
    ⟨.ButtonAccent, .Decoration, .Border, .Focused, Qt.transparent⟩,
    ⟨.ButtonAccent, .Decoration, .Border, .Hovered, Qt.transparent⟩,
    ⟨.ButtonAccent, .Decoration, .Border, .Disabled, Qt.transparent⟩
  ] ++
  -- ButtonStandard
  [
    ⟨.ButtonStandard, .Bg, .Primary, .Normal, Qt.transparent⟩,
    ⟨.ButtonStandard, .Fg, .Primary, .Normal, (setColorAlpha Qt.white 0.5)⟩,
    ⟨.ButtonStandard, .Fg, .Primary, .Focused, Qt.white⟩,
    ⟨.ButtonStandard, .Fg, .Primary, .Hovered, Qt.white⟩,
    ⟨.ButtonStandard, .Fg, .Primary, .Disabled, (setColorAlpha Qt.white 0.3)⟩,
    ⟨.ButtonStandard, .Decoration, .Border, .Normal, Qt.transparent⟩,
    ⟨.ButtonStandard, .Decoration, .Border, .Focused, Qt.transparent⟩,
    ⟨.ButtonStandard, .Decoration, .Border, .Hovered, Qt.transparent⟩,
    ⟨.ButtonStandard, .Decoration, .Border, .Disabled, Qt.transparent⟩
  ] ++
  -- Tooltip
  [
    ⟨.Tooltip, .Bg, .Primary, .Normal, Qt.black⟩,
    ⟨.Tooltip, .Fg, .Primary, .Normal, Qt.white⟩
  ] ++
  -- Slider
  [
    ⟨.Slider, .Bg, .Primary, .Normal, (setColorAlpha Qt.white 0.15)⟩,
    ⟨.Slider, .Bg, .Primary, .Focused, (setColorAlpha Qt.white 0.25)⟩,
    ⟨.Slider, .Bg, .Primary, .Hovered, (setColorAlpha Qt.white 0.25)⟩,
    ⟨.Slider, .Fg, .Primary, .Normal, (QColor.fromString "#777777")⟩,
    ⟨.Slider, .Fg, .Positive, .Normal, (QColor.fromString "#666666")⟩,
    ⟨.Slider, .Fg, .Neutral, .Normal, (QColor.fromString "#777777")⟩,
    ⟨.Slider, .Fg, .Negative, .Normal, (QColor.fromString "#666666")⟩
  ] ++
  -- ComboBox
  [
    ⟨.ComboBox, .Fg, .Primary, .Normal, Qt.white⟩,
    ⟨.ComboBox, .Bg, .Primary, .Normal, (setColorAlpha (QColor.fromString "#1a1a1a") 0.8)⟩,
    ⟨.ComboBox, .Bg, .Secondary, .Normal, (QColor.fromString "#2a2a2a")⟩
  ] ++
  -- TextField
  [
    ⟨.TextField, .Decoration, .Border, .Normal, (setColorAlpha Qt.white 0.3)⟩,
    ⟨.TextField, .Decoration, .Border, .Focused, (QColor.fromString "#777777")⟩,
    ⟨.TextField, .Decoration, .Border, .Hovered, (setColorAlpha Qt.white 0.5)⟩,
    ⟨.TextField, .Decoration, .Border, .Disabled, (setColorAlpha Qt.white 0.0)⟩,
    ⟨.TextField, .Bg, .Highlight, .Normal, (QColor.fromString "#3a3a3a")⟩,
    ⟨.TextField, .Fg, .Highlight, .Normal, Qt.white⟩
  ] ++
  -- Switch
  [
    ⟨.Switch, .Bg, .Primary, .Normal, (setColorAlpha Qt.white 0.05)⟩,
    ⟨.Switch, .Fg, .Primary, .Normal, (setColorAlpha Qt.white 0.45)⟩,
    ⟨.Switch, .Decoration, .Border, .Normal, (setColorAlpha Qt.white 0.45)⟩,
    ⟨.Switch, .Bg, .Secondary, .Normal, (QColor.fromString "#555555")⟩,
    ⟨.Switch, .Fg, .Secondary, .Normal, Qt.white⟩
  ] ++
  -- SpinBox
  [
    ⟨.SpinBox, .Decoration, .Border, .Normal, (setColorAlpha Qt.white 0.3)⟩,
    ⟨.SpinBox, .Decoration, .Border, .Focused, (QColor.fromString "#777777")⟩,
    ⟨.SpinBox, .Decoration, .Border, .Hovered, (setColorAlpha Qt.white 0.5)⟩,
    ⟨.SpinBox, .Decoration, .Border, .Disabled, (setColorAlpha Qt.white 0.0)⟩,
    ⟨.SpinBox, .Bg, .Highlight, .Normal, (QColor.fromString "#3a3a3a")⟩,
    ⟨.SpinBox, .Fg, .Highlight, .Normal, Qt.white⟩
  ]

/-- The `setColor` calls of `makeGrindhousePalette`, in source order, one list per colour-set block. -/
def grindhouseWrites : List SetColorCall :=
  -- View
  [
    ⟨.View, .Bg, .Primary, .Normal, (QColor.fromString "#0a0a0a")⟩,
    ⟨.View, .Bg, .Secondary, .Normal, Qt.black⟩,
    ⟨.View, .Fg, .Primary, .Normal, Qt.white⟩,
    ⟨.View, .Fg, .Primary, .Disabled, (setColorAlpha Qt.white 0.3)⟩,
    ⟨.View, .Fg, .Secondary, .Normal, (setColorAlpha Qt.white 0.7)⟩,
    ⟨.View, .Bg, .Negative, .Normal, (QColor.fromString "#DD0000")⟩,
    ⟨.View, .Fg, .Negative, .Normal, Qt.white⟩,
    ⟨.View, .Bg, .Neutral, .Normal, (QColor.fromString "#FFDD00")⟩,
    ⟨.View, .Fg, .Neutral, .Normal, Qt.black⟩,
    ⟨.View, .Bg, .Positive, .Normal, (QColor.fromString "#00DD00")⟩,
    ⟨.View, .Fg, .Positive, .Normal, Qt.black⟩,
    ⟨.View, .Decoration, .VisualFocus, .Normal, (setColorAlpha Qt.white 0.0)⟩,
    ⟨.View, .Decoration, .VisualFocus, .Focused, (QColor.fromString "#FF00FF")⟩,
    ⟨.View, .Decoration, .Border, .Normal, (setColorAlpha Qt.white 0.4)⟩,
    ⟨.View, .Decoration, .Border, .Focused, (QColor.fromString "#FF00FF")⟩,
    ⟨.View, .Decoration, .Border, .Hovered, (QColor.fromString "#FF6600")⟩,
    ⟨.View, .Decoration, .Border, .Disabled, (setColorAlpha Qt.white 0.1)⟩,
    ⟨.View, .Decoration, .Shadow, .Normal, (setColorAlpha Qt.black 0.5)⟩,
    ⟨.View, .Decoration, .Separator, .Normal, (QColor.fromString "#333333")⟩,
    ⟨.View, .Decoration, .Accent, .Normal, (QColor.fromString "#FF0099")⟩,
    ⟨.View, .Fg, .Link, .Normal, (QColor.fromString "#00FFFF")⟩
  ] ++
  -- Window
  [
    ⟨.Window, .Bg, .Primary, .Normal, Qt.black⟩,
    ⟨.Window, .Bg, .Secondary, .Normal, (QColor.fromString "#1a1a1a")⟩,
    ⟨.Window, .Decoration, .Border, .Normal, (QColor.fromString "#FF0099")⟩
  ] ++
  -- Badge
  [
    ⟨.Badge, .Bg, .Primary, .Normal, (QColor.fromString "#FFDD00")⟩,
    ⟨.Badge, .Fg, .Primary, .Normal, Qt.black⟩
  ] ++
  -- TabButton
  [
    ⟨.TabButton, .Bg, .Primary, .Normal, (setColorAlpha (QColor.fromString "#FF0099") 0.0)⟩,
    ⟨.TabButton, .Bg, .Primary, .Focused, (QColor.fromString "#FF0099")⟩,
    ⟨.TabButton, .Bg, .Primary, .Hovered, (QColor.fromString "#DD0000")⟩,
    ⟨.TabButton, .Fg, .Primary, .Normal, (setColorAlpha Qt.white 0.6)⟩,
    ⟨.TabButton, .Fg, .Primary, .Focused, Qt.white⟩,
    ⟨.TabButton, .Fg, .Primary, .Hovered, Qt.white⟩,
    ⟨.TabButton, .Fg, .Primary, .Disabled, (setColorAlpha Qt.white 0.2)⟩,
    ⟨.TabButton, .Fg, .Secondary, .Normal, Qt.white⟩
  ] ++
  -- ToolButton
  [
    ⟨.ToolButton, .Bg, .Primary, .Normal, Qt.transparent⟩,
    ⟨.ToolButton, .Bg, .Secondary, .Normal, Qt.black⟩,
    ⟨.ToolButton, .Fg, .Primary, .Normal, (QColor.fromString "#FF00FF")⟩,
    ⟨.ToolButton, .Fg, .Primary, .Focused, (QColor.fromString "#FFDD00")⟩,
    ⟨.ToolButton, .Fg, .Primary, .Hovered, (QColor.fromString "#00FFFF")⟩,
    ⟨.ToolButton, .Fg, .Primary, .Disabled, (setColorAlpha Qt.white 0.2)⟩,
    ⟨.ToolButton, .Fg, .Secondary, .Normal, Qt.white⟩,
    ⟨.ToolButton, .Decoration, .Border, .Normal, Qt.transparent⟩,
    ⟨.ToolButton, .Decoration, .Border, .Focused, (QColor.fromString "#FF00FF")⟩,
    ⟨.ToolButton, .Decoration, .Border, .Hovered, (QColor.fromString "#FF6600")⟩,
    ⟨.ToolButton, .Decoration, .Border, .Disabled, Qt.transparent⟩
  ] ++
  -- MenuBar
  [
    ⟨.MenuBar, .Bg, .Primary, .Normal, (setColorAlpha (QColor.fromString "#FF0099") 0.0)⟩,
    ⟨.MenuBar, .Bg, .Primary, .Focused, (QColor.fromString "#FF0099")⟩,
    ⟨.MenuBar, .Bg, .Primary, .Hovered, (QColor.fromString "#DD0000")⟩,
    ⟨.MenuBar, .Fg, .Primary, .Normal, Qt.white⟩,
    ⟨.MenuBar, .Fg, .Primary, .Disabled, (setColorAlpha Qt.white 0.2)⟩
  ] ++
  -- Item
  [
    ⟨.Item, .Bg, .Primary, .Normal, (setColorAlpha (QColor.fromString "#FF0099") 0.0)⟩,
    ⟨.Item, .Bg, .Primary, .Focused, (setColorAlpha (QColor.fromString "#FF0099") 0.5)⟩,
    ⟨.Item, .Bg, .Primary, .Hovered, (setColorAlpha (QColor.fromString "#DD0000") 0.5)⟩,
    ⟨.Item, .Bg, .Highlight, .Normal, (QColor.fromString "#FF0099")⟩,
    ⟨.Item, .Bg, .Highlight, .Focused, (QColor.fromString "#00FFFF")⟩,
    ⟨.Item, .Bg, .Highlight, .Hovered, (QColor.fromString "#FFDD00")⟩,
    ⟨.Item, .Fg, .Highlight, .Normal, Qt.black⟩,
    ⟨.Item, .Fg, .Primary, .Normal, Qt.white⟩,
    ⟨.Item, .Fg, .Secondary, .Normal, (QColor.fromString "#FFDD00")⟩,
    ⟨.Item, .Decoration, .Indicator, .Normal, (QColor.fromString "#00FFFF")⟩
  ] ++
  -- ButtonAccent
  [
    ⟨.ButtonAccent, .Bg, .Primary, .Normal, (QColor.fromString "#DD0000")⟩,
    ⟨.ButtonAccent, .Bg, .Primary, .Pressed, (QColor.fromString "#FF00FF")⟩,
    ⟨.ButtonAccent, .Bg, .Primary, .Disabled, (setColorAlpha Qt.white 0.15)⟩,
    ⟨.ButtonAccent, .Fg, .Primary, .Normal, Qt.white⟩,
    ⟨.ButtonAccent, .Fg, .Primary, .Disabled, (setColorAlpha Qt.white 0.3)⟩,
    ⟨.ButtonAccent, .Decoration, .Border, .Normal, (QColor.fromString "#FFDD00")⟩,
    ⟨.ButtonAccent, .Decoration, .Border, .Focused, (QColor.fromString "#00FFFF")⟩,
    ⟨.ButtonAccent, .Decoration, .Border, .Hovered, (QColor.fromString "#FF6600")⟩,
    ⟨.ButtonAccent, .Decoration, .Border, .Disabled, Qt.transparent⟩
  ] ++
  -- ButtonStandard
  [
    ⟨.ButtonStandard, .Bg, .Primary, .Normal, Qt.transparent⟩,
    ⟨.ButtonStandard, .Fg, .Primary, .Normal, (QColor.fromString "#FF00FF")⟩,
    ⟨.ButtonStandard, .Fg, .Primary, .Focused, (QColor.fromString "#00FFFF")⟩,
    ⟨.ButtonStandard, .Fg, .Primary, .Hovered, (QColor.fromString "#FFDD00")⟩,
    ⟨.ButtonStandard, .Fg, .Primary, .Disabled, (setColorAlpha Qt.white 0.3)⟩,
    ⟨.ButtonStandard, .Decoration, .Border, .Normal, Qt.transparent⟩,
    ⟨.ButtonStandard, .Decoration, .Border, .Focused, (QColor.fromString "#00FFFF")⟩,
    ⟨.ButtonStandard, .Decoration, .Border, .Hovered, (QColor.fromString "#FFDD00")⟩,
    ⟨.ButtonStandard, .Decoration, .Border, .Disabled, Qt.transparent⟩
  ] ++
  -- Tooltip
  [
    ⟨.Tooltip, .Bg, .Primary, .Normal, (QColor.fromString "#1a1a1a")⟩,
    ⟨.Tooltip, .Fg, .Primary, .Normal, (QColor.fromString "#FFDD00")⟩
  ] ++
  -- Slider
  [
    ⟨.Slider, .Bg, .Primary, .Normal, (setColorAlpha (QColor.fromString "#FF0099") 0.2)⟩,
    ⟨.Slider, .Bg, .Primary, .Focused, (setColorAlpha (QColor.fromString "#FF0099") 0.4)⟩,
    ⟨.Slider, .Bg, .Primary, .Hovered, (setColorAlpha (QColor.fromString "#FF6600") 0.4)⟩,
    ⟨.Slider, .Fg, .Primary, .Normal, (QColor.fromString "#FFDD00")⟩,
    ⟨.Slider, .Fg, .Positive, .Normal, (QColor.fromString "#00DD00")⟩,
    ⟨.Slider, .Fg, .Neutral, .Normal, (QColor.fromString "#FF6600")⟩,
    ⟨.Slider, .Fg, .Negative, .Normal, (QColor.fromString "#DD0000")⟩
  ] ++
  -- ComboBox
  [
    ⟨.ComboBox, .Fg, .Primary, .Normal, Qt.white⟩,
    ⟨.ComboBox, .Bg, .Primary, .Normal, (setColorAlpha (QColor.fromString "#0a0a0a") 0.9)⟩,
    ⟨.ComboBox, .Bg, .Secondary, .Normal, (QColor.fromString "#1a1a1a")⟩
  ] ++
  -- TextField
  [
    ⟨.TextField, .Decoration, .Border, .Normal, (QColor.fromString "#FF00FF")⟩,
    ⟨.TextField, .Decoration, .Border, .Focused, (QColor.fromString "#FFDD00")⟩,
    ⟨.TextField, .Decoration, .Border, .Hovered, (QColor.fromString "#00FFFF")⟩,
    ⟨.TextField, .Decoration, .Border, .Disabled, (setColorAlpha Qt.white 0.1)⟩,
    ⟨.TextField, .Bg, .Highlight, .Normal, (QColor.fromString "#1a1a1a")⟩,
    ⟨.TextField, .Fg, .Highlight, .Normal, (QColor.fromString "#FFDD00")⟩
  ] ++
  -- Switch
  [
    ⟨.Switch, .Bg, .Primary, .Normal, (setColorAlpha Qt.white 0.05)⟩,
    ⟨.Switch, .Fg, .Primary, .Normal, (QColor.fromString "#FF00FF")⟩,
    ⟨.Switch, .Decoration, .Border, .Normal, (QColor.fromString "#FF00FF")⟩,
    ⟨.Switch, .Bg, .Secondary, .Normal, (QColor.fromString "#DD0000")⟩,
    ⟨.Switch, .Fg, .Secondary, .Normal, Qt.white⟩
  ] ++
  -- SpinBox
  [
    ⟨.SpinBox, .Decoration, .Border, .Normal, (QColor.fromString "#FF00FF")⟩,
    ⟨.SpinBox, .Decoration, .Border, .Focused, (QColor.fromString "#FFDD00")⟩,
    ⟨.SpinBox, .Decoration, .Border, .Hovered, (QColor.fromString "#00FFFF")⟩,
    ⟨.SpinBox, .Decoration, .Border, .Disabled, (setColorAlpha Qt.white 0.1)⟩,
    ⟨.SpinBox, .Bg, .Highlight, .Normal, (QColor.fromString "#1a1a1a")⟩,
    ⟨.SpinBox, .Fg, .Highlight, .Normal, (QColor.fromString "#FFDD00")⟩
  ]

/-- The `setColor` calls of `makeBubbleEraPalette`, in source order, one list per colour-set block. -/
def bubbleEraWrites : List SetColorCall :=
  -- View
  [
    ⟨.View, .Bg, .Primary, .Normal, (QColor.fromString "#F5F5FF")⟩,
    ⟨.View, .Bg, .Secondary, .Normal, (QColor.fromString "#FFFFFF")⟩,
    ⟨.View, .Fg, .Primary, .Normal, (QColor.fromString "#666666")⟩,
    ⟨.View, .Fg, .Primary, .Disabled, (setColorAlpha (QColor.fromString "#999999") 0.5)⟩,
    ⟨.View, .Fg, .Secondary, .Normal, (setColorAlpha (QColor.fromString "#888888") 0.8)⟩,
    ⟨.View, .Bg, .Negative, .Normal, (QColor.fromString "#FFB3D9")⟩,
    ⟨.View, .Fg, .Negative, .Normal, (QColor.fromString "#666666")⟩,
    ⟨.View, .Bg, .Neutral, .Normal, (QColor.fromString "#E5FFE5")⟩,
    ⟨.View, .Fg, .Neutral, .Normal, (QColor.fromString "#666666")⟩,
    ⟨.View, .Bg, .Positive, .Normal, (QColor.fromString "#B3E5FF")⟩,
    ⟨.View, .Fg, .Positive, .Normal, (QColor.fromString "#666666")⟩,
    ⟨.View, .Decoration, .VisualFocus, .Normal, (setColorAlpha Qt.white 0.0)⟩,
    ⟨.View, .Decoration, .VisualFocus, .Focused, (QColor.fromString "#FFD9E5")⟩,
    ⟨.View, .Decoration, .Border, .Normal, (setColorAlpha (QColor.fromString "#FFCCDD") 0.6)⟩,
    ⟨.View, .Decoration, .Border, .Focused, (QColor.fromString "#FFA3D5")⟩,
    ⟨.View, .Decoration, .Border, .Hovered, (QColor.fromString "#B3E5FF")⟩,
    ⟨.View, .Decoration, .Border, .Disabled, (setColorAlpha Qt.white 0.3)⟩,
    ⟨.View, .Decoration, .Shadow, .Normal, (setColorAlpha (QColor.fromString "#FFCCDD") 0.2)⟩,
    ⟨.View, .Decoration, .Separator, .Normal, (QColor.fromString "#E5D9FF")⟩,
    ⟨.View, .Decoration, .Accent, .Normal, (QColor.fromString "#FFB3D9")⟩,
    ⟨.View, .Fg, .Link, .Normal, (QColor.fromString "#B3D9FF")⟩
  ] ++
  -- Window
  [
    ⟨.Window, .Bg, .Primary, .Normal, (QColor.fromString "#F5F5FF")⟩,
    ⟨.Window, .Bg, .Secondary, .Normal, (QColor.fromString "#FFFFFF")⟩,
    ⟨.Window, .Decoration, .Border, .Normal, (QColor.fromString "#FFCCDD")⟩
  ] ++
  -- Badge
  [
    ⟨.Badge, .Bg, .Primary, .Normal, (QColor.fromString "#FFB3D9")⟩,
    ⟨.Badge, .Fg, .Primary, .Normal, (QColor.fromString "#666666")⟩
  ] ++
  -- TabButton
  [
    ⟨.TabButton, .Bg, .Primary, .Normal, (setColorAlpha (QColor.fromString "#FFD9E5") 0.0)⟩,
    ⟨.TabButton, .Bg, .Primary, .Focused, (QColor.fromString "#FFD9E5")⟩,
    ⟨.TabButton, .Bg, .Primary, .Hovered, (QColor.fromString "#FFE5EC")⟩,
    ⟨.TabButton, .Fg, .Primary, .Normal, (setColorAlpha (QColor.fromString "#666666") 0.7)⟩,
    ⟨.TabButton, .Fg, .Primary, .Focused, (QColor.fromString "#666666")⟩,
    ⟨.TabButton, .Fg, .Primary, .Hovered, (QColor.fromString "#666666")⟩,
    ⟨.TabButton, .Fg, .Primary, .Disabled, (setColorAlpha (QColor.fromString "#999999") 0.4)⟩,
    ⟨.TabButton, .Fg, .Secondary, .Normal, (QColor.fromString "#666666")⟩
  ] ++
  -- ToolButton
  [
    ⟨.ToolButton, .Bg, .Primary, .Normal, Qt.transparent⟩,
    ⟨.ToolButton, .Bg, .Secondary, .Normal, (QColor.fromString "#FFFFFF")⟩,
    ⟨.ToolButton, .Fg, .Primary, .Normal, (QColor.fromString "#9999CC")⟩,
    ⟨.ToolButton, .Fg, .Primary, .Focused, (QColor.fromString "#FFB3D9")⟩,
    ⟨.ToolButton, .Fg, .Primary, .Hovered, (QColor.fromString "#B3E5FF")⟩,
    ⟨.ToolButton, .Fg, .Primary, .Disabled, (setColorAlpha (QColor.fromString "#CCCCCC") 0.5)⟩,
    ⟨.ToolButton, .Fg, .Secondary, .Normal, (QColor.fromString "#666666")⟩,
    ⟨.ToolButton, .Decoration, .Border, .Normal, Qt.transparent⟩,
    ⟨.ToolButton, .Decoration, .Border, .Focused, (QColor.fromString "#FFB3D9")⟩,
    ⟨.ToolButton, .Decoration, .Border, .Hovered, (QColor.fromString "#E5D9FF")⟩,
    ⟨.ToolButton, .Decoration, .Border, .Disabled, Qt.transparent⟩
  ] ++
  -- MenuBar
  [
    ⟨.MenuBar, .Bg, .Primary, .Normal, (setColorAlpha (QColor.fromString "#FFE5EC") 0.0)⟩,
    ⟨.MenuBar, .Bg, .Primary, .Focused, (QColor.fromString "#FFE5EC")⟩,
    ⟨.MenuBar, .Bg, .Primary, .Hovered, (QColor.fromString "#FFD9E5")⟩,
    ⟨.MenuBar, .Fg, .Primary, .Normal, (QColor.fromString "#666666")⟩,
    ⟨.MenuBar, .Fg, .Primary, .Disabled, (setColorAlpha (QColor.fromString "#999999") 0.4)⟩
  ] ++
  -- Item
  [
    ⟨.Item, .Bg, .Primary, .Normal, (setColorAlpha (QColor.fromString "#FFE5EC") 0.0)⟩,
    ⟨.Item, .Bg, .Primary, .Focused, (setColorAlpha (QColor.fromString "#FFE5EC") 0.6)⟩,
    ⟨.Item, .Bg, .Primary, .Hovered, (setColorAlpha (QColor.fromString "#B3E5FF") 0.6)⟩,
    ⟨.Item, .Bg, .Highlight, .Normal, (QColor.fromString "#FFB3D9")⟩,
    ⟨.Item, .Bg, .Highlight, .Focused, (QColor.fromString "#B3E5FF")⟩,
    ⟨.Item, .Bg, .Highlight, .Hovered, (QColor.fromString "#E5FFE5")⟩,
    ⟨.Item, .Fg, .Highlight, .Normal, (QColor.fromString "#666666")⟩,
    ⟨.Item, .Fg, .Primary, .Normal, (QColor.fromString "#666666")⟩,
    ⟨.Item, .Fg, .Secondary, .Normal, (QColor.fromString "#9999CC")⟩,
    ⟨.Item, .Decoration, .Indicator, .Normal, (QColor.fromString "#B3E5FF")⟩
  ] ++
  -- ButtonAccent
  [
    ⟨.ButtonAccent, .Bg, .Primary, .Normal, (QColor.fromString "#FFB3D9")⟩,
    ⟨.ButtonAccent, .Bg, .Primary, .Pressed, (QColor.fromString "#FFA3D5")⟩,
    ⟨.ButtonAccent, .Bg, .Primary, .Disabled, (setColorAlpha (QColor.fromString "#CCCCCC") 0.3)⟩,
    ⟨.ButtonAccent, .Fg, .Primary, .Normal, (QColor.fromString "#666666")⟩,
    ⟨.ButtonAccent, .Fg, .Primary, .Disabled, (setColorAlpha (QColor.fromString "#999999") 0.4)⟩,
    ⟨.ButtonAccent, .Decoration, .Border, .Normal, (QColor.fromString "#E5D9FF")⟩,
    ⟨.ButtonAccent, .Decoration, .Border, .Focused, (QColor.fromString "#B3E5FF")⟩,
    ⟨.ButtonAccent, .Decoration, .Border, .Hovered, (QColor.fromString "#E5FFE5")⟩,
    ⟨.ButtonAccent, .Decoration, .Border, .Disabled, Qt.transparent⟩
  ] ++
  -- ButtonStandard
  [
    ⟨.ButtonStandard, .Bg, .Primary, .Normal, Qt.transparent⟩,
    ⟨.ButtonStandard, .Fg, .Primary, .Normal, (QColor.fromString "#9999CC")⟩,
    ⟨.ButtonStandard, .Fg, .Primary, .Focused, (QColor.fromString "#FFB3D9")⟩,
    ⟨.ButtonStandard, .Fg, .Primary, .Hovered, (QColor.fromString "#B3E5FF")⟩,
    ⟨.ButtonStandard, .Fg, .Primary, .Disabled, (setColorAlpha (QColor.fromString "#CCCCCC") 0.5)⟩,
    ⟨.ButtonStandard, .Decoration, .Border, .Normal, Qt.transparent⟩,
    ⟨.ButtonStandard, .Decoration, .Border, .Focused, (QColor.fromString "#B3E5FF")⟩,
    ⟨.ButtonStandard, .Decoration, .Border, .Hovered, (QColor.fromString "#E5D9FF")⟩,
    ⟨.ButtonStandard, .Decoration, .Border, .Disabled, Qt.transparent⟩
  ] ++
  -- Tooltip
  [
    ⟨.Tooltip, .Bg, .Primary, .Normal, (QColor.fromString "#FFFAFF")⟩,
    ⟨.Tooltip, .Fg, .Primary, .Normal, (QColor.fromString "#666666")⟩
  ] ++
  -- Slider
  [
    ⟨.Slider, .Bg, .Primary, .Normal, (setColorAlpha (QColor.fromString "#FFB3D9") 0.2)⟩,
    ⟨.Slider, .Bg, .Primary, .Focused, (setColorAlpha (QColor.fromString "#FFB3D9") 0.3)⟩,
    ⟨.Slider, .Bg, .Primary, .Hovered, (setColorAlpha (QColor.fromString "#B3E5FF") 0.3)⟩,
    ⟨.Slider, .Fg, .Primary, .Normal, (QColor.fromString "#FFB3D9")⟩,
    ⟨.Slider, .Fg, .Positive, .Normal, (QColor.fromString "#B3E5FF")⟩,
    ⟨.Slider, .Fg, .Neutral, .Normal, (QColor.fromString "#E5FFE5")⟩,
    ⟨.Slider, .Fg, .Negative, .Normal, (QColor.fromString "#FFE5CC")⟩
  ] ++
  -- ComboBox
  [
    ⟨.ComboBox, .Fg, .Primary, .Normal, (QColor.fromString "#666666")⟩,
    ⟨.ComboBox, .Bg, .Primary, .Normal, (setColorAlpha (QColor.fromString "#F5F5FF") 0.9)⟩,
    ⟨.ComboBox, .Bg, .Secondary, .Normal, (QColor.fromString "#FFFFFF")⟩
  ] ++
  -- TextField
  [
    ⟨.TextField, .Decoration, .Border, .Normal, (QColor.fromString "#FFB3D9")⟩,
    ⟨.TextField, .Decoration, .Border, .Focused, (QColor.fromString "#B3E5FF")⟩,
    ⟨.TextField, .Decoration, .Border, .Hovered, (QColor.fromString "#E5D9FF")⟩,
    ⟨.TextField, .Decoration, .Border, .Disabled, (setColorAlpha (QColor.fromString "#CCCCCC") 0.3)⟩,
    ⟨.TextField, .Bg, .Highlight, .Normal, (QColor.fromString "#FFFFFF")⟩,
    ⟨.TextField, .Fg, .Highlight, .Normal, (QColor.fromString "#FFB3D9")⟩
  ] ++
  -- Switch
  [
    ⟨.Switch, .Bg, .Primary, .Normal, (setColorAlpha (QColor.fromString "#FFB3D9") 0.15)⟩,
    ⟨.Switch, .Fg, .Primary, .Normal, (QColor.fromString "#9999CC")⟩,
    ⟨.Switch, .Decoration, .Border, .Normal, (QColor.fromString "#FFB3D9")⟩,
    ⟨.Switch, .Bg, .Secondary, .Normal, (QColor.fromString "#B3E5FF")⟩,
    ⟨.Switch, .Fg, .Secondary, .Normal, (QColor.fromString "#666666")⟩
  ] ++
  -- SpinBox
  [
    ⟨.SpinBox, .Decoration, .Border, .Normal, (QColor.fromString "#FFB3D9")⟩,
    ⟨.SpinBox, .Decoration, .Border, .Focused, (QColor.fromString "#B3E5FF")⟩,
    ⟨.SpinBox, .Decoration, .Border, .Hovered, (QColor.fromString "#E5D9FF")⟩,
    ⟨.SpinBox, .Decoration, .Border, .Disabled, (setColorAlpha (QColor.fromString "#CCCCCC") 0.3)⟩,
    ⟨.SpinBox, .Bg, .Highlight, .Normal, (QColor.fromString "#FFFFFF")⟩,
    ⟨.SpinBox, .Fg, .Highlight, .Normal, (QColor.fromString "#FFB3D9")⟩
  ]

/-- Source `SystemPalette::makeLightPalette`. -/
def SystemPalette.makeLightPalette (self : SystemPalette) (H : Header) : SystemPalette :=
  ({ self with m_isDark := false }.clearColorMap).setColors H.toColorContext (lightWrites H)

/-- Source `SystemPalette::makeDarkPalette`. -/
def SystemPalette.makeDarkPalette (self : SystemPalette) (H : Header) : SystemPalette :=
  ({ self with m_isDark := true }.clearColorMap).setColors H.toColorContext (darkWrites H)

/-- Source `SystemPalette::makeNoirPalette`. -/
def SystemPalette.makeNoirPalette (self : SystemPalette) (H : Header) : SystemPalette :=
  ({ self with m_isDark := true }.clearColorMap).setColors H.toColorContext noirWrites

/-- Source `SystemPalette::makeGrindhousePalette`. -/
def SystemPalette.makeGrindhousePalette (self : SystemPalette) (H : Header) : SystemPalette :=
  ({ self with m_isDark := true }.clearColorMap).setColors H.toColorContext grindhouseWrites

/-- Source `SystemPalette::makeBubbleEraPalette`. -/
def SystemPalette.makeBubbleEraPalette (self : SystemPalette) (H : Header) : SystemPalette :=
  ({ self with m_isDark := false }.clearColorMap).setColors H.toColorContext bubbleEraWrites

/-! ## External theme provider -/

/-- Source `setColorRBGAInt`: the provider's integer set-colour callback, acting on
the palette registered as `setColorData`. -/
def setColorRBGAInt (palette : SystemPalette) (set section_ name state : Nat)
    (r g b a : Int) : SystemPalette :=
  let color := QColor.fromRgba r g b a
  palette.setColor set section_ name state color

/-- Source `setColorRBGAFloat`: the provider's floating-point set-colour callback;
`color` is the colour `setRgbF` builds from the four components. -/
def setColorRBGAFloat (palette : SystemPalette) (set section_ name state : Nat)
    (color : QColor) : SystemPalette :=
  palette.setColor set section_ name state color

/-- Runs one set-colour call of the provider on the palette. -/
def ThemeColorCall.run (palette : SystemPalette) : ThemeColorCall → SystemPalette
  | .setColorInt set section_ name state r g b a =>
    setColorRBGAInt palette set section_ name state r g b a
  | .setColorF set section_ name state color =>
    setColorRBGAFloat palette set section_ name state color

/-- Source `ExternalPaletteImpl::init`, run on a freshly constructed object: `none`
when `init()` returns false (no provider object, or no module loaded). -/
def ExternalPaletteImpl.init (m_ctx : MainCtx) : Option ExternalPaletteImpl :=
  if !m_ctx.objectCreate then none
  else
    match m_ctx.moduleNeed with
    | none => none
    | some provider => some { m_ctx := m_ctx, m_provider := provider }

/-- Source `ExternalPaletteImpl::isThemeDark`. -/
def ExternalPaletteImpl.isThemeDark (self : ExternalPaletteImpl) : Bool :=
  match self.m_provider.isThemeDark with
  | none => false
  | some dark => dark

/-- Source `ExternalPaletteImpl::hasCSDImages`. -/
def ExternalPaletteImpl.hasCSDImages (self : ExternalPaletteImpl) (H : Header) : Bool :=
  match self.m_provider.supportThemeImage with
  | none => false
  | some support => support H.VLC_QT_THEME_IMAGE_TYPE_CSD_BUTTON

/-- Source `ExternalPaletteImpl::update`: the provider's `updatePalette` callback
runs its set-colour calls on the palette and returns its status; without the
callback the result is `VLC_EGENERIC`. -/
def ExternalPaletteImpl.update (self : ExternalPaletteImpl) (H : Header)
    (palette : SystemPalette) : Int × SystemPalette :=
  match self.m_provider.updatePalette with
  | some u => (u.ret, u.calls.foldl ThemeColorCall.run palette)
  | none => (H.VLC_EGENERIC, palette)

/-- Source `SystemPalette::makeSystemPalette`. -/
def SystemPalette.makeSystemPalette (self : SystemPalette) (H : Header) : SystemPalette :=
  match self.m_ctx with
  | none => self.makeLightPalette H
  | some ctx =>
    match ExternalPaletteImpl.init ctx with
    | none => self.makeLightPalette H
    | some palette =>
      let self := self.clearColorMap
      let (ret, self) := palette.update H self
      let self :=
        if ret ≠ H.VLC_SUCCESS then
          if palette.isThemeDark then self.makeDarkPalette H else self.makeLightPalette H
        else
          { self with m_isDark := palette.isThemeDark }
      { self with m_palettePriv := some palette }

/-- Source `SystemPalette::hasCSDImage`. -/
def SystemPalette.hasCSDImage (self : SystemPalette) (H : Header) : Bool :=
  match self.m_palettePriv with
  | none => false
  | some priv => priv.hasCSDImages H

/-- Source `SystemPalette::updatePalette`. -/
def SystemPalette.updatePalette (self : SystemPalette) (H : Header) : SystemPalette :=
  let self := { self with m_palettePriv := none }
  let self :=
    match self.m_source with
    | .System => self.makeSystemPalette H
    | .Day => self.makeLightPalette H
    | .Night => self.makeDarkPalette H
    | .Noir => self.makeNoirPalette H
    | .Grindhouse => self.makeGrindhousePalette H
    | .BubbleEra => self.makeBubbleEraPalette H
    | .other _ => self
  let self := self.emit .paletteChanged
  let hasCSDImage :=
    match self.m_palettePriv with
    | none => false
    | some priv => priv.hasCSDImages H
  if self.m_hasCSDImage ≠ hasCSDImage then
    { self with m_hasCSDImage := hasCSDImage }.emit .hasCSDImageChanged
  else
    self

/-- Source `SystemPalette::setSource`. -/
def SystemPalette.setSource (self : SystemPalette) (H : Header)
    (source : ColorSchemeModel.ColorScheme) : SystemPalette :=
  if self.m_source = source then self
  else
    let self := { self with m_source := source }
    let self := self.updatePalette H
    self.emit .sourceChanged

/-! ## A concrete instance of the header, used to instantiate the theorems -/

/-- An assignment of the constants declared outside the translated file: the
enumerators numbered from zero in each enumeration, twelve predefined colours and
the two status codes. -/
def sampleHeader : Header where
  set := fun
    | .Window => 0
    | .View => 1
    | .Badge => 2
    | .TabButton => 3
    | .ToolButton => 4
    | .MenuBar => 5
    | .Tooltip => 6
    | .Slider => 7
    | .ComboBox => 8
    | .SpinBox => 9
    | .TextField => 10
    | .Switch => 11
    | .Item => 12
    | .ButtonAccent => 13
    | .ButtonStandard => 14
  section_ := fun
    | .Fg => 0
    | .Bg => 1
    | .Decoration => 2
  name := fun
    | .Primary => 0
    | .Secondary => 1
    | .Highlight => 2
    | .Link => 3
    | .Positive => 4
    | .Neutral => 5
    | .Negative => 6
    | .VisualFocus => 7
    | .Border => 8
    | .Accent => 9
    | .Shadow => 10
    | .Separator => 11
    | .Indicator => 12
  state := fun
    | .Normal => 0
    | .Disabled => 1
    | .Pressed => 2
    | .Hovered => 3
    | .Focused => 4
  lightGrey100 := QColor.fromRgba 250 250 250 255
  lightGrey200 := QColor.fromRgba 245 245 245 255
  lightGrey300 := QColor.fromRgba 240 240 240 255
  lightGrey400 := QColor.fromRgba 235 235 235 255
  lightGrey500 := QColor.fromRgba 224 224 224 255
  lightGrey600 := QColor.fromRgba 208 208 208 255
  darkGrey200 := QColor.fromRgba 26 26 26 255
  darkGrey300 := QColor.fromRgba 30 30 30 255
  darkGrey500 := QColor.fromRgba 46 46 46 255
  darkGrey800 := QColor.fromRgba 62 62 62 255
  orange500 := QColor.fromRgba 255 128 0 255
  orange800 := QColor.fromRgba 255 97 10 255
  VLC_SUCCESS := 0
  VLC_EGENERIC := -1
  VLC_QT_THEME_IMAGE_TYPE_CSD_BUTTON := 0
  VLC_CODEC_ARGB := 1111970369
  VLC_CODEC_RGBA := 1094862674
  VLC_CODEC_RGB24 := 875714130

/-- A palette object with an empty colour table, no context and no provider. -/
def emptyPalette (source : ColorSchemeModel.ColorScheme) : SystemPalette where
  m_source := source
  m_ctx := none
  m_colorMap := fun _ => none
  m_isDark := false
  m_hasCSDImage := false
  m_palettePriv := none
  emitted := []

/-- A table with one entry in each tier of the fallback: set 3 holds (Bg, Primary,
Hovered) and (Fg, Primary, Normal); `View` (set 1) holds (Bg, Secondary, Hovered) and
(Bg, Link, Normal). -/
def tierPalette : SystemPalette :=
  ((((emptyPalette .Day).setColor 3 1 0 3 Qt.white).setColor 3 0 0 0 Qt.black).setColor
    1 1 1 3 Qt.transparent).setColor 1 1 3 0 Qt.magenta


/-- What it means for a builder to replace the colour table: the table and the
darkness flag it leaves do not depend on the prior state, running it twice equals
running it once, and every entry of the resulting table is one of the builder's own
`setColor` calls. -/
def ReplacesTable (C : ColorContext) (build : SystemPalette → SystemPalette)
    (writes : List SetColorCall) : Prop :=
  (∀ p q, (build p).m_colorMap = (build q).m_colorMap ∧ (build p).m_isDark = (build q).m_isDark) ∧
  (∀ p, build (build p) = build p) ∧
  (∀ p k col, (build p).m_colorMap k = some col → ∃ w ∈ writes, w.key C = k ∧ w.color = col)

/-- The key a set-colour call of the provider writes. -/
def ThemeColorCall.key : ThemeColorCall → Nat
  | .setColorInt set section_ name state _ _ _ _ => makeKey set section_ name state
  | .setColorF set section_ name state _ => makeKey set section_ name state

/-- The colour a set-colour call of the provider stores. -/
def ThemeColorCall.color : ThemeColorCall → QColor
  | .setColorInt _ _ _ _ r g b a => QColor.fromRgba r g b a
  | .setColorF _ _ _ _ color => color

/-- The entry a sequence of provider calls leaves for a key: the colour of the last
call that wrote the key, nothing when no call wrote it. -/
def lastWritten (calls : List ThemeColorCall) (k : Nat) : Option QColor :=
  (calls.reverse.find? (fun call => call.key = k)).map ThemeColorCall.color

/-- A provider that reports a dark theme and whose palette update writes three colours
(the first one twice) and succeeds. -/
def darkProvider : vlc_qt_theme_provider_t where
  isThemeDark := some true
  supportThemeImage := some (fun _ => true)
  updatePalette := some
    { calls := [.setColorInt 1 1 0 0 10 20 30 255, .setColorF 1 0 0 0 Qt.white,
                .setColorInt 1 1 0 0 40 50 60 255]
      ret := 0 }

/-- A provider that reports a dark theme and whose palette update writes one colour
and then fails. -/
def failingDarkProvider : vlc_qt_theme_provider_t where
  isThemeDark := some true
  updatePalette := some { calls := [.setColorInt 1 1 0 0 10 20 30 255], ret := -1 }

/-- A provider with no callback at all. -/
def bareProvider : vlc_qt_theme_provider_t := {}

/-- A palette with source `System` whose context loads the given provider. -/
def systemPalette (provider : vlc_qt_theme_provider_t) : SystemPalette :=
  { emptyPalette .System with
    m_ctx := some { objectCreate := true, moduleNeed := some provider }
    m_colorMap := tierPalette.m_colorMap }

/-- A palette with source `System` whose context cannot create the provider object. -/
def systemPaletteNoObject : SystemPalette :=
  { emptyPalette .System with
    m_ctx := some { objectCreate := false, moduleNeed := some darkProvider }
    m_colorMap := tierPalette.m_colorMap }

/-- A palette with source `System` whose context finds no theme-provider module. -/
def systemPaletteNoModule : SystemPalette :=
  { emptyPalette .System with
    m_ctx := some { objectCreate := true, moduleNeed := none }
    m_colorMap := tierPalette.m_colorMap }

/-! ## Window-decoration imagery -/

/-- The image formats `getCSDImage` chooses from (`QImage::Format`). -/
inductive QImage.Format where
  | Format_Invalid
  | Format_ARGB32_Premultiplied
  | Format_RGBA8888_Premultiplied
  | Format_RGB888
deriving DecidableEq, Repr

/-- A `QImage`: the null image `QImage()`, or the image built over a pixel buffer with
the arguments of the constructor (`int` width and height, bytes per line, format). -/
inductive QImage where
  | null
  | fromData (data : Nat) (width height : Int) (bytesPerLine : Int) (format : QImage.Format)
deriving DecidableEq, Repr

/-- Source `ExternalPaletteImpl::getCSDImage`; the second component is the list of
messages logged with `msg_Err`. -/
def ExternalPaletteImpl.getCSDImage (self : ExternalPaletteImpl) (H : Header)
    (type state : Nat) (maximized active : Bool) (bannerHeight : Int) : QImage × List String :=
  match self.m_provider.getThemeImage with
  | none => (QImage.null, [])
  | some getThemeImage =>
    let imageSettings : vlc_qt_theme_image_setting :=
      { windowScaleFactor := self.m_ctx.devicePixelRatio
        userScaleFacor := self.m_ctx.getIntfUserScaleFactor
        buttonType := type
        state := state
        maximized := maximized
        active := active
        bannerHeight := bannerHeight }
    match getThemeImage H.VLC_QT_THEME_IMAGE_TYPE_CSD_BUTTON imageSettings with
    | none => (QImage.null, [])
    | some pic =>
      let (format, errors) :=
        if pic.i_chroma = H.VLC_CODEC_ARGB then
          (QImage.Format.Format_ARGB32_Premultiplied, [])
        else if pic.i_chroma = H.VLC_CODEC_RGBA then
          (QImage.Format.Format_RGBA8888_Premultiplied, [])
        else if pic.i_chroma = H.VLC_CODEC_RGB24 then
          (QImage.Format.Format_RGB888, [])
        else
          (QImage.Format.Format_Invalid, ["unexpected image format from theme provider"])
      (QImage.fromData pic.p_pixels (wrapInt32 pic.i_visible_width)
        (wrapInt32 pic.i_visible_height) pic.i_pitch format, errors)

/-- Source `ExternalPaletteImpl::getCSDMetrics`. -/
def ExternalPaletteImpl.getCSDMetrics (self : ExternalPaletteImpl) : Option CSDMetrics :=
  self.m_csdMetrics

/-- Source `SystemPalette::getCSDImage`; the second component is the list of messages
logged with `msg_Err`. -/
def SystemPalette.getCSDImage (self : SystemPalette) (H : Header) (type state : Nat)
    (maximized active : Bool) (bannerHeight : Int) : QImage × List String :=
  if !self.hasCSDImage H then (QImage.null, [])
  else
    match self.m_palettePriv with
    | none => (QImage.null, [])
    | some priv => priv.getCSDImage H type state maximized active bannerHeight

/-- Source `SystemPalette::getCSDMetrics`. -/
def SystemPalette.getCSDMetrics (self : SystemPalette) : Option CSDMetrics :=
  match self.m_palettePriv with
  | none => none
  | some priv => priv.getCSDMetrics

/-- A provider with window-decoration images: it supports them and returns an ARGB
picture of 24 by 24 pixels for every request. -/
def csdProvider : vlc_qt_theme_provider_t where
  supportThemeImage := some (fun _ => true)
  getThemeImage := some (fun _ _ =>
    some { i_chroma := 1111970369, i_visible_width := 24, i_visible_height := 24,
           i_pitch := 96, p_pixels := 4096 })

/-! ## Instrumented lookup -/

/-- What one run of `getColor` does: the colour returned, the number of table lookups
(`m_colorMap.find`), the arguments of the calls it makes to itself, in order, and
whether the colour comes from a table entry (`false`: the branch "nothing matches"). -/
structure GetColorRun where
  color : QColor
  lookups : Nat
  selfCalls : List (Nat × Nat × Nat × Nat)
  matched : Bool
deriving DecidableEq, Repr

/-- Source `SystemPalette::getColor`, with the lookups and the recursive calls
recorded. -/
def SystemPalette.getColorRun (self : SystemPalette) (C : ColorContext)
    (colorSet section_ name state : Nat) : GetColorRun :=
  match self.m_colorMap (makeKey colorSet section_ name state) with
  | some c => { color := c, lookups := 1, selfCalls := [], matched := true }
  | none =>
    match self.m_colorMap (makeKey colorSet section_ name (C.state .Normal)) with
    | some c => { color := c, lookups := 2, selfCalls := [], matched := true }
    | none =>
      if colorSet ≠ C.set .View then
        let r := self.getColorRun C (C.set .View) section_ name state
        { color := r.color, lookups := 2 + r.lookups,
          selfCalls := (C.set .View, section_, name, state) :: r.selfCalls,
          matched := r.matched }
      else
        { color := Qt.magenta, lookups := 2, selfCalls := [], matched := false }
termination_by (if colorSet = C.set .View then 0 else 1)
decreasing_by simp_all

/-! ## Overflow of the key computation -/

/-- Whether the mathematical result of an operation is representable in `int`. -/
def fitsInt32 (z : Int) : Prop := -2147483648 ≤ z ∧ z < 2147483648

instance (z : Int) : Decidable (fitsInt32 z) := by
  unfold fitsInt32; infer_instance

/-- No operation of `makeKey` overflows `int`: the three shifts and the three sums,
each on the values the preceding operations produced. -/
def makeKeyNoOverflow (colorSet section_ name state : Nat) : Prop :=
  fitsInt32 ((colorSet : Int) * 2 ^ 16) ∧ fitsInt32 ((name : Int) * 2 ^ 8) ∧
  fitsInt32 ((section_ : Int) * 2 ^ 4) ∧
  fitsInt32 (shl32 colorSet 16 + shl32 name 8) ∧
  fitsInt32 (add32 (shl32 colorSet 16) (shl32 name 8) + shl32 section_ 4) ∧
  fitsInt32 (add32 (add32 (shl32 colorSet 16) (shl32 name 8)) (shl32 section_ 4) + (state : Int))

instance (colorSet section_ name state : Nat) :
    Decidable (makeKeyNoOverflow colorSet section_ name state) := by
  unfold makeKeyNoOverflow; infer_instance

/-! ## Properties of colours and of colour literals -/

/-- An opaque alpha channel: 255 as an integer component, or 1.0 through `setAlphaF`. -/
def Alpha.isOpaque : Alpha → Bool
  | .int a => a == 255
  | .real f => f.hundredths == 100

/-- Opaque magenta: a valid colour with components 255, 0, 255 and an opaque alpha. -/
def QColor.isOpaqueMagenta (c : QColor) : Bool :=
  c.valid && c.red == 255 && c.green == 0 && c.blue == 255 && c.alpha.isOpaque

/-- A colour literal of the form `#RRGGBB`: `#` followed by exactly six hexadecimal
digits. -/
def isHexColorLiteral (name : String) : Bool :=
  match name.toList with
  | '#' :: digits => digits.length == 6 && digits.all (fun d => (hexDigit d).isSome)
  | _ => false

/-- Whether the table of a palette has an entry for a tuple of enumerators. -/
def SystemPalette.hasEntry (self : SystemPalette) (C : ColorContext)
    (t : ColorSet × ColorSection × ColorName × ColorState) : Prop :=
  ∃ col, self.m_colorMap (makeKey (C.set t.1) (C.section_ t.2.1) (C.name t.2.2.1)
    (C.state t.2.2.2)) = some col

/-- A palette offers no window-decoration imagery: `hasCSDImage()` is false,
`getCSDMetrics()` is null and `getCSDImage` returns the null image, logging nothing,
for every button type, state, maximized and active flag and banner height. -/
def SystemPalette.NoCSD (self : SystemPalette) (H : Header) : Prop :=
  self.hasCSDImage H = false ∧ self.getCSDMetrics = none ∧
  ∀ (type state : Nat) (maximized active : Bool) (bannerHeight : Int),
    self.getCSDImage H type state maximized active bannerHeight = (QImage.null, [])

/-- The source is one of the five static schemes. -/
def ColorSchemeModel.ColorScheme.isStatic : ColorSchemeModel.ColorScheme → Bool
  | .Day => true
  | .Night => true
  | .Noir => true
  | .Grindhouse => true
  | .BubbleEra => true
  | _ => false

/-- The lookups of the pairs a theme defines in its `View` set always find an entry:
for every (section, role) pair named by a call of the builder on the set `View`, the
table has an entry for (View, section, role, Normal), and for every colour set and
every state a run of `getColor` on the pair ends on a table entry (never in the branch
"nothing matches") and returns a colour stored in the table. -/
def ViewPairsResolve (C : ColorContext) (build : SystemPalette → SystemPalette)
    (writes : List SetColorCall) : Prop :=
  ∀ (p : SystemPalette) (sec : ColorSection) (name : ColorName),
    (∃ w ∈ writes, w.colorSet = .View ∧ w.section_ = sec ∧ w.name = name) →
    (build p).hasEntry C (.View, sec, name, .Normal) ∧
    ∀ s t : Nat,
      ((build p).getColorRun C s (C.section_ sec) (C.name name) t).matched = true ∧
      ∃ k, (build p).m_colorMap k =
        some ((build p).getColor C s (C.section_ sec) (C.name name) t)

/-- The twelve predefined colours of the palette class, declared outside the
translated file. -/
def Header.predefinedColors (H : Header) : List QColor :=
  [H.lightGrey100, H.lightGrey200, H.lightGrey300, H.lightGrey400, H.lightGrey500,
   H.lightGrey600, H.darkGrey200, H.darkGrey300, H.darkGrey500, H.darkGrey800,
   H.orange500, H.orange800]


/-! ## Context, metrics -/

/-- Source `SystemPalette::setCtx`; the two `MainCtx*` are compared by address. -/
def SystemPalette.setCtx (self : SystemPalette) (H : Header) (ctx : Option MainCtx) :
    SystemPalette :=
  if ctx.map MainCtx.ptr = self.m_ctx.map MainCtx.ptr then self
  else
    let self := { self with m_ctx := ctx }
    let self := self.emit .ctxChanged
    self.updatePalette H

/-- Appends a signal to the log of the signals an `ExternalPaletteImpl` emitted. -/
def ExternalPaletteImpl.emit (self : ExternalPaletteImpl) (s : Signal) : ExternalPaletteImpl :=
  { self with emitted := self.emitted ++ [s] }

/-- Source `ExternalPaletteImpl::updateMetrics`. -/
def ExternalPaletteImpl.updateMetrics (self : ExternalPaletteImpl) (H : Header) (type : Nat) :
    ExternalPaletteImpl :=
  match self.m_provider.getThemeMetrics with
  | none => self
  | some _ =>
    if type = H.VLC_QT_THEME_IMAGE_TYPE_CSD_BUTTON then
      let self := { self with m_csdMetrics := none }
      let self :=
        match self.m_provider.getThemeMetrics with
        | none => self
        | some getThemeMetrics =>
          let (ret, metrics) := getThemeMetrics H.VLC_QT_THEME_IMAGE_TYPE_CSD_BUTTON
          if !ret then self
          else
            { self with
              m_csdMetrics := some
                { interNavButtonSpacing := metrics.interNavButtonSpacing
                  csdFrameMarginLeft := metrics.csdFrameMarginLeft
                  csdFrameMarginRight := metrics.csdFrameMarginRight
                  csdFrameMarginTop := metrics.csdFrameMarginTop
                  csdFrameMarginBottom := metrics.csdFrameMarginBottom } }
      self.emit .CSDMetricsChanged
    else self

/-- Source `MetricsChangedCallback`: the provider's notification, forwarded to
`updateMetrics`. -/
def MetricsChangedCallback (priv : ExternalPaletteImpl) (H : Header) (type : Nat) :
    ExternalPaletteImpl :=
  priv.updateMetrics H type

/-- A provider object over `provider`, holding old metrics and having emitted nothing. -/
def sampleImpl (provider : vlc_qt_theme_provider_t) : ExternalPaletteImpl where
  m_ctx := { objectCreate := true, moduleNeed := some provider }
  m_provider := provider
  m_csdMetrics := some
    { interNavButtonSpacing := 1, csdFrameMarginLeft := 1, csdFrameMarginRight := 1,
      csdFrameMarginTop := 1, csdFrameMarginBottom := 1 }

/-- A provider whose metrics callback succeeds and reports 4, 10, 11, 12, 13. -/
def metricsProvider : vlc_qt_theme_provider_t where
  getThemeMetrics := some (fun _ =>
    (true, { interNavButtonSpacing := 4, csdFrameMarginLeft := 10, csdFrameMarginRight := 11,
             csdFrameMarginTop := 12, csdFrameMarginBottom := 13 }))

/-- A provider whose metrics callback fails. -/
def noMetricsProvider : vlc_qt_theme_provider_t where
  getThemeMetrics := some (fun _ =>
    (false, { interNavButtonSpacing := 0, csdFrameMarginLeft := 0, csdFrameMarginRight := 0,
              csdFrameMarginTop := 0, csdFrameMarginBottom := 0 }))

/-- A provider whose image callback returns the given picture for every request. -/
def pictureProvider (pic : Option picture_t) : vlc_qt_theme_provider_t where
  supportThemeImage := some (fun _ => true)
  getThemeImage := some (fun _ _ => pic)

/-- A picture of 24 by 16 pixels with a pitch of 96 bytes and the given chroma. -/
def samplePicture (chroma : Nat) : picture_t where
  i_chroma := chroma
  i_visible_width := 24
  i_visible_height := 16
  i_pitch := 96
  p_pixels := 4096

/-- The three chroma codes `getCSDImage` switches on are pairwise different, as the
`case` labels of one `switch` are. -/
def Header.ChromaDistinct (H : Header) : Prop :=
  H.VLC_CODEC_ARGB ≠ H.VLC_CODEC_RGBA ∧ H.VLC_CODEC_ARGB ≠ H.VLC_CODEC_RGB24 ∧
  H.VLC_CODEC_RGBA ≠ H.VLC_CODEC_RGB24

instance (H : Header) : Decidable H.ChromaDistinct := by
  unfold Header.ChromaDistinct; infer_instance


/-! ## Key encoding: closed form and injectivity -/

theorem wrapInt32_add_left (x y : Int) : wrapInt32 (wrapInt32 x + y) = wrapInt32 (x + y) := by
  unfold wrapInt32; omega

theorem wrapInt32_add_right (x y : Int) : wrapInt32 (x + wrapInt32 y) = wrapInt32 (x + y) := by
  unfold wrapInt32; omega

/-- The key is the wrapped sum of the four shifted fields. -/
theorem makeKey_eq (colorSet section_ name state : Nat) :
    makeKey colorSet section_ name state =
      toQuint64 (wrapInt32
        ((colorSet : Int) * 65536 + (name : Int) * 256 + (section_ : Int) * 16 + (state : Int))) := by
  unfold makeKey add32 shl32
  simp only [wrapInt32_add_left, wrapInt32_add_right]
  norm_num

/-- The `quint64` obtained from an `int` whose mathematical value fits in 32 bits. -/
theorem toQuint64_wrapInt32 (u : Int) (h0 : 0 ≤ u) (h1 : u < 4294967296) :
    (toQuint64 (wrapInt32 u) : Int) =
      if u < 2147483648 then u else u + 18446744069414584320 := by
  unfold toQuint64 wrapInt32
  split <;> omega

theorem toQuint64_wrapInt32_inj (u v : Int) (h0 : 0 ≤ u) (h1 : u < 4294967296)
    (h0' : 0 ≤ v) (h1' : v < 4294967296)
    (h : toQuint64 (wrapInt32 u) = toQuint64 (wrapInt32 v)) : u = v := by
  have hu := toQuint64_wrapInt32 u h0 h1
  have hv := toQuint64_wrapInt32 v h0' h1'
  rw [h] at hu
  rw [hu] at hv
  split at hv <;> split at hv <;> omega

/-- Two tuples inside the statically asserted bounds with the same key are equal. -/
theorem makeKey_inj_of_bounds {s c n t s' c' n' t' : Nat}
    (hs : s < 65536) (hs' : s' < 65536) (hc : c < 16) (hc' : c' < 16)
    (hn : n < 256) (hn' : n' < 256) (ht : t < 16) (ht' : t' < 16)
    (h : makeKey s c n t = makeKey s' c' n' t') : s = s' ∧ c = c' ∧ n = n' ∧ t = t' := by
  rw [makeKey_eq, makeKey_eq] at h
  have := toQuint64_wrapInt32_inj _ _ (by omega) (by omega) (by omega) (by omega) h
  omega

/-! ## Lookup and update of the colour table -/

theorem SystemPalette.setColor_colorMap_same (p : SystemPalette) (s c n t : Nat) (col : QColor) :
    (p.setColor s c n t col).m_colorMap (makeKey s c n t) = some col := by
  simp [SystemPalette.setColor]

theorem SystemPalette.setColor_colorMap_other (p : SystemPalette) (s c n t : Nat) (col : QColor)
    (k : Nat) (hk : k ≠ makeKey s c n t) :
    (p.setColor s c n t col).m_colorMap k = p.m_colorMap k := by
  simp [SystemPalette.setColor, hk]

/-- The lookup of `getColor` written out tier by tier. -/
theorem SystemPalette.getColor_tiers (p : SystemPalette) (C : ColorContext) (s c n t : Nat) :
    p.getColor C s c n t =
      match p.m_colorMap (makeKey s c n t) with
      | some col => col
      | none =>
        match p.m_colorMap (makeKey s c n (C.state .Normal)) with
        | some col => col
        | none =>
          if s ≠ C.set .View then
            match p.m_colorMap (makeKey (C.set .View) c n t) with
            | some col => col
            | none =>
              match p.m_colorMap (makeKey (C.set .View) c n (C.state .Normal)) with
              | some col => col
              | none => Qt.magenta
          else Qt.magenta := by
  rw [SystemPalette.getColor]
  cases h1 : p.m_colorMap (makeKey s c n t) with
  | some col => rfl
  | none =>
    cases h2 : p.m_colorMap (makeKey s c n (C.state .Normal)) with
    | some col => rfl
    | none =>
      by_cases hs : s = C.set .View
      · simp [hs]
      · simp only [ne_eq, hs, not_false_eq_true, if_true]
        rw [SystemPalette.getColor]
        simp

/-- C1: `getColor` returns the entry of the exact tuple when it is present; when it is
absent it returns the first entry present among (1) the same tuple in the normal
state, (2) for a set other than `View`, the tuple in the `View` set, (3) for a set
other than `View`, the tuple in the `View` set in the normal state. -/
theorem getColor_fallback_order (p : SystemPalette) (C : ColorContext) (s c n t : Nat) :
    (∀ col, p.m_colorMap (makeKey s c n t) = some col → p.getColor C s c n t = col) ∧
    (p.m_colorMap (makeKey s c n t) = none →
      (∀ col, p.m_colorMap (makeKey s c n (C.state .Normal)) = some col → p.getColor C s c n t = col) ∧
      (p.m_colorMap (makeKey s c n (C.state .Normal)) = none → s ≠ C.set .View →
        (∀ col, p.m_colorMap (makeKey (C.set .View) c n t) = some col →
          p.getColor C s c n t = col) ∧
        (p.m_colorMap (makeKey (C.set .View) c n t) = none →
          ∀ col, p.m_colorMap (makeKey (C.set .View) c n (C.state .Normal)) = some col →
            p.getColor C s c n t = col))) := by
  refine ⟨fun col h => ?_, fun h1 => ⟨fun col h => ?_, fun h2 hs => ⟨fun col h => ?_, fun h3 col h => ?_⟩⟩⟩
  · rw [SystemPalette.getColor_tiers, h]
  · rw [SystemPalette.getColor_tiers, h1, h]
  · rw [SystemPalette.getColor_tiers, h1, h2]; simp [hs, h]
  · rw [SystemPalette.getColor_tiers, h1, h2]; simp [hs, h3, h]

/-- Witness of C1 on `tierPalette`: one lookup answered by each tier. -/
theorem getColor_fallback_order_witness :
    tierPalette.getColor sampleHeader.toColorContext 3 1 0 3 = Qt.white ∧
    tierPalette.getColor sampleHeader.toColorContext 3 0 0 4 = Qt.black ∧
    tierPalette.getColor sampleHeader.toColorContext 3 1 1 3 = Qt.transparent ∧
    tierPalette.getColor sampleHeader.toColorContext 3 1 3 4 = Qt.magenta :=
  ⟨(getColor_fallback_order tierPalette sampleHeader.toColorContext 3 1 0 3).1 _ (by decide),
   ((getColor_fallback_order tierPalette sampleHeader.toColorContext 3 0 0 4).2 (by decide)).1 _
     (by decide),
   (((getColor_fallback_order tierPalette sampleHeader.toColorContext 3 1 1 3).2 (by decide)).2
     (by decide) (by decide)).1 _ (by decide),
   (((getColor_fallback_order tierPalette sampleHeader.toColorContext 3 1 3 4).2 (by decide)).2
     (by decide) (by decide)).2 (by decide) _ (by decide)⟩

/-- C2: a colour written with `setColor` is the colour `getColor` returns for the same
tuple, whatever the table held before. -/
theorem getColor_setColor (p : SystemPalette) (C : ColorContext) (s c n t : Nat) (col : QColor) :
    (p.setColor s c n t col).getColor C s c n t = col := by
  rw [SystemPalette.getColor_tiers, SystemPalette.setColor_colorMap_same]

/-- C3: on the range the static assertions of `makeKey` describe (state < 16,
section < 16, name < 256, and set < 65536, which every colour set satisfies) the key
encoding is injective: equal keys come from equal sets, sections, names and states. -/
theorem makeKey_injective (s c n t s' c' n' t' : Nat)
    (hs : s < 65536) (hs' : s' < 65536) (hc : c < 16) (hc' : c' < 16)
    (hn : n < 256) (hn' : n' < 256) (ht : t < 16) (ht' : t' < 16)
    (h : makeKey s c n t = makeKey s' c' n' t') : s = s' ∧ c = c' ∧ n = n' ∧ t = t' :=
  makeKey_inj_of_bounds hs hs' hc hc' hn hn' ht ht' h

/-- Witness of C3 at the tuple (40000, 2, 8, 4), whose shifted set exceeds
the positive range of `int`. -/
theorem makeKey_injective_witness :
    makeKey 40000 2 8 4 = makeKey 40000 2 8 4 ∧
      ((40000 : Nat) = 40000 ∧ (2 : Nat) = 2 ∧ (8 : Nat) = 8 ∧ (4 : Nat) = 4) :=
  ⟨rfl, makeKey_injective 40000 2 8 4 40000 2 8 4 (by decide) (by decide) (by decide) (by decide)
    (by decide) (by decide) (by decide) (by decide) rfl⟩

/-! ## Sequences of `setColor` calls -/

theorem SystemPalette.setColors_cons (p : SystemPalette) (C : ColorContext) (w : SetColorCall)
    (ws : List SetColorCall) :
    p.setColors C (w :: ws) =
      (p.setColor (C.set w.colorSet) (C.section_ w.section_) (C.name w.name) (C.state w.state)
        w.color).setColors C ws :=
  rfl

/-- A key that no call of the sequence writes keeps its entry. -/
theorem SystemPalette.setColors_colorMap_of_forall_ne (C : ColorContext) (ws : List SetColorCall)
    (p : SystemPalette) (k : Nat) (h : ∀ w ∈ ws, w.key C ≠ k) :
    (p.setColors C ws).m_colorMap k = p.m_colorMap k := by
  induction ws generalizing p with
  | nil => rfl
  | cons w ws ih =>
    rw [SystemPalette.setColors_cons, ih _ (fun v hv => h v (List.mem_cons_of_mem _ hv))]
    exact SystemPalette.setColor_colorMap_other _ _ _ _ _ _ _ (Ne.symm (h w (List.mem_cons_self _ _)))

/-- With well-formed enumerator values, two enumerator tuples have the same key only
when they are the same tuple. -/
theorem ColorContext.WellFormed.makeKey_eq_iff {C : ColorContext} (wf : C.WellFormed)
    (s s' : ColorSet) (c c' : ColorSection) (n n' : ColorName) (t t' : ColorState) :
    makeKey (C.set s) (C.section_ c) (C.name n) (C.state t) =
        makeKey (C.set s') (C.section_ c') (C.name n') (C.state t') ↔
      s = s' ∧ c = c' ∧ n = n' ∧ t = t' := by
  obtain ⟨is, ic, inn, it, bs, bc, bn, bt⟩ := wf
  constructor
  · intro h
    obtain ⟨h1, h2, h3, h4⟩ :=
      makeKey_inj_of_bounds (bs s) (bs s') (bc c) (bc c') (bn n) (bn n') (bt t) (bt t') h
    exact ⟨is _ _ h1, ic _ _ h2, inn _ _ h3, it _ _ h4⟩
  · rintro ⟨rfl, rfl, rfl, rfl⟩
    rfl

/-- The enumerators the light builder names do not depend on the header. -/
theorem lightWrites_tuple (H : Header) :
    (lightWrites H).map SetColorCall.tuple = (lightWrites sampleHeader).map SetColorCall.tuple := by
  simp only [lightWrites, List.map_append, List.map_cons, List.map_nil, SetColorCall.tuple]

/-- The light builder makes no call for (View, Bg, Highlight, Normal). -/
theorem lightWrites_no_view_bg_highlight (H : Header) :
    ∀ w ∈ lightWrites H, w.tuple ≠ (.View, .Bg, .Highlight, .Normal) := by
  have hall : ((lightWrites sampleHeader).map SetColorCall.tuple).all
      (fun t => decide (t ≠ (.View, .Bg, .Highlight, .Normal))) = true := by decide
  intro w hw
  have hmem : w.tuple ∈ (lightWrites H).map SetColorCall.tuple := List.mem_map_of_mem _ hw
  rw [lightWrites_tuple] at hmem
  exact of_decide_eq_true (List.all_eq_true.mp hall _ hmem)

/-- In the light theme the key of (View, Bg, Highlight, Normal) has no entry. -/
theorem makeLightPalette_view_bg_highlight (H : Header) (wf : H.WellFormed) (p : SystemPalette) :
    (p.makeLightPalette H).m_colorMap
      (makeKey (H.set .View) (H.section_ .Bg) (H.name .Highlight) (H.state .Normal)) = none := by
  unfold SystemPalette.makeLightPalette
  rw [SystemPalette.setColors_colorMap_of_forall_ne]
  · rfl
  · intro w hw hk
    unfold SetColorCall.key at hk
    rw [wf.makeKey_eq_iff] at hk
    obtain ⟨h1, h2, h3, h4⟩ := hk
    exact lightWrites_no_view_bg_highlight H w hw (by simp [SetColorCall.tuple, h1, h2, h3, h4])

/-- C4: when none of the four keys (set, section, role, state), (set, section, role,
Normal), (View, section, role, state) and (View, section, role, Normal) has an entry,
`getColor` (a total function: every lookup returns a colour) returns `Qt::magenta`,
the opaque colour with components 255, 0, 255; this is the case in the light theme for
(View, Bg, Highlight, Normal), whenever the enumerator values are well formed. -/
theorem getColor_undefined_magenta :
    (∀ (p : SystemPalette) (C : ColorContext) (s c n t : Nat),
      p.m_colorMap (makeKey s c n t) = none →
      p.m_colorMap (makeKey s c n (C.state .Normal)) = none →
      p.m_colorMap (makeKey (C.set .View) c n t) = none →
      p.m_colorMap (makeKey (C.set .View) c n (C.state .Normal)) = none →
      p.getColor C s c n t = Qt.magenta) ∧
    Qt.magenta = ⟨true, 255, 0, 255, .int 255⟩ ∧
    (∀ (H : Header) (p : SystemPalette), H.WellFormed →
      (p.makeLightPalette H).getColor H.toColorContext
        (H.set .View) (H.section_ .Bg) (H.name .Highlight) (H.state .Normal) = Qt.magenta) := by
  refine ⟨fun p C s c n t h1 h2 h3 h4 => ?_, by decide, fun H p wf => ?_⟩
  · rw [SystemPalette.getColor_tiers, h1, h2]
    simp [h3, h4]
  · rw [SystemPalette.getColor_tiers, makeLightPalette_view_bg_highlight H wf p]
    simp

/-- Witness of C4: the tuple (5, 2, 9, 3) in a table that holds only entries of other
sections, and the light theme over the sample header. -/
theorem getColor_undefined_magenta_witness :
    tierPalette.getColor sampleHeader.toColorContext 5 2 9 3 = Qt.magenta ∧
    ((emptyPalette .Day).makeLightPalette sampleHeader).getColor sampleHeader.toColorContext
      (sampleHeader.set .View) (sampleHeader.section_ .Bg) (sampleHeader.name .Highlight)
      (sampleHeader.state .Normal) = Qt.magenta :=
  ⟨getColor_undefined_magenta.1 tierPalette sampleHeader.toColorContext 5 2 9 3 (by decide)
     (by decide) (by decide) (by decide),
   getColor_undefined_magenta.2.2 sampleHeader (emptyPalette .Day) (by decide)⟩

/-! ## The static builders -/

/-- A sequence of `setColor` calls changes the colour table only. -/
theorem SystemPalette.setColors_eq (C : ColorContext) (ws : List SetColorCall) (p : SystemPalette) :
    p.setColors C ws = { p with m_colorMap := (p.setColors C ws).m_colorMap } := by
  induction ws generalizing p with
  | nil => rfl
  | cons w ws ih =>
    rw [SystemPalette.setColors_cons, ih]
    rfl

/-- The table a sequence of `setColor` calls produces depends on the previous table
only. -/
theorem SystemPalette.setColors_colorMap_congr (C : ColorContext) (ws : List SetColorCall)
    (p q : SystemPalette) (h : p.m_colorMap = q.m_colorMap) :
    (p.setColors C ws).m_colorMap = (q.setColors C ws).m_colorMap := by
  induction ws generalizing p q with
  | nil => exact h
  | cons w ws ih =>
    rw [SystemPalette.setColors_cons, SystemPalette.setColors_cons]
    apply ih
    simp [SystemPalette.setColor, h]

/-- An entry present after a sequence of `setColor` calls was present before or was
written by one of the calls. -/
theorem SystemPalette.setColors_colorMap_some (C : ColorContext) (ws : List SetColorCall)
    (p : SystemPalette) (k : Nat) (col : QColor)
    (h : (p.setColors C ws).m_colorMap k = some col) :
    p.m_colorMap k = some col ∨ ∃ w ∈ ws, w.key C = k ∧ w.color = col := by
  induction ws generalizing p with
  | nil => exact Or.inl h
  | cons w ws ih =>
    rw [SystemPalette.setColors_cons] at h
    rcases ih _ h with h' | ⟨v, hv, hk, hc⟩
    · by_cases hkey : k = w.key C
      · right
        refine ⟨w, List.mem_cons_self _ _, hkey.symm, ?_⟩
        simp only [SystemPalette.setColor, SetColorCall.key] at h' hkey
        simpa [hkey] using h'
      · left
        simp only [SystemPalette.setColor, SetColorCall.key] at h' hkey
        simpa [hkey] using h'
    · exact Or.inr ⟨v, List.mem_cons_of_mem _ hv, hk, hc⟩

/-- Clearing the table and running a sequence of `setColor` calls gives the table the
calls produce from the empty table, and leaves the other members alone. -/
theorem SystemPalette.clear_setColors (C : ColorContext) (ws : List SetColorCall)
    (p : SystemPalette) :
    p.clearColorMap.setColors C ws =
      { p with m_colorMap := ((emptyPalette .Day).setColors C ws).m_colorMap } := by
  rw [SystemPalette.setColors_eq,
    SystemPalette.setColors_colorMap_congr C ws p.clearColorMap (emptyPalette .Day) rfl]
  rfl

theorem SystemPalette.makeLightPalette_eq (p : SystemPalette) (H : Header) :
    p.makeLightPalette H =
      { p with m_isDark := false,
               m_colorMap :=
                 ((emptyPalette .Day).setColors H.toColorContext (lightWrites H)).m_colorMap } := by
  unfold SystemPalette.makeLightPalette
  rw [SystemPalette.clear_setColors]

theorem SystemPalette.makeDarkPalette_eq (p : SystemPalette) (H : Header) :
    p.makeDarkPalette H =
      { p with m_isDark := true,
               m_colorMap :=
                 ((emptyPalette .Day).setColors H.toColorContext (darkWrites H)).m_colorMap } := by
  unfold SystemPalette.makeDarkPalette
  rw [SystemPalette.clear_setColors]

theorem SystemPalette.makeNoirPalette_eq (p : SystemPalette) (H : Header) :
    p.makeNoirPalette H =
      { p with m_isDark := true,
               m_colorMap :=
                 ((emptyPalette .Day).setColors H.toColorContext noirWrites).m_colorMap } := by
  unfold SystemPalette.makeNoirPalette
  rw [SystemPalette.clear_setColors]

theorem SystemPalette.makeGrindhousePalette_eq (p : SystemPalette) (H : Header) :
    p.makeGrindhousePalette H =
      { p with m_isDark := true,
               m_colorMap :=
                 ((emptyPalette .Day).setColors H.toColorContext grindhouseWrites).m_colorMap } := by
  unfold SystemPalette.makeGrindhousePalette
  rw [SystemPalette.clear_setColors]

theorem SystemPalette.makeBubbleEraPalette_eq (p : SystemPalette) (H : Header) :
    p.makeBubbleEraPalette H =
      { p with m_isDark := false,
               m_colorMap :=
                 ((emptyPalette .Day).setColors H.toColorContext bubbleEraWrites).m_colorMap } := by
  unfold SystemPalette.makeBubbleEraPalette
  rw [SystemPalette.clear_setColors]

/-- A builder of the shape of the five static builders replaces the table. -/
theorem replacesTable_of_eq (C : ColorContext) (build : SystemPalette → SystemPalette)
    (writes : List SetColorCall) (dark : Bool)
    (h : ∀ p, build p =
      { p with m_isDark := dark,
               m_colorMap := ((emptyPalette .Day).setColors C writes).m_colorMap }) :
    ReplacesTable C build writes := by
  refine ⟨fun p q => ?_, fun p => ?_, fun p k col hk => ?_⟩
  · rw [h p, h q]
    exact ⟨rfl, rfl⟩
  · rw [h (build p), h p]
  · rw [h p] at hk
    rcases SystemPalette.setColors_colorMap_some C writes _ k col hk with h0 | h1
    · exact absurd h0 (by simp [emptyPalette])
    · exact h1

/-- C10: each of the five static builders replaces the table: the resulting colour
table and darkness flag are the same for every prior state, running the builder twice
equals running it once, and every entry of the result was written by the builder
itself, so no entry of a previously active theme remains. -/
theorem static_builders_replace_table (H : Header) :
    ReplacesTable H.toColorContext (fun p => p.makeLightPalette H) (lightWrites H) ∧
    ReplacesTable H.toColorContext (fun p => p.makeDarkPalette H) (darkWrites H) ∧
    ReplacesTable H.toColorContext (fun p => p.makeNoirPalette H) noirWrites ∧
    ReplacesTable H.toColorContext (fun p => p.makeGrindhousePalette H) grindhouseWrites ∧
    ReplacesTable H.toColorContext (fun p => p.makeBubbleEraPalette H) bubbleEraWrites :=
  ⟨replacesTable_of_eq _ _ _ false (fun p => p.makeLightPalette_eq H),
   replacesTable_of_eq _ _ _ true (fun p => p.makeDarkPalette_eq H),
   replacesTable_of_eq _ _ _ true (fun p => p.makeNoirPalette_eq H),
   replacesTable_of_eq _ _ _ true (fun p => p.makeGrindhousePalette_eq H),
   replacesTable_of_eq _ _ _ false (fun p => p.makeBubbleEraPalette_eq H)⟩

/-! ## Switching the source -/

/-- The colour table, darkness flag, provider and source after `updatePalette` are
those left by the builder chosen by the source. -/
theorem SystemPalette.updatePalette_members (p : SystemPalette) (H : Header)
    (r : SystemPalette)
    (hr : r = (match ({ p with m_palettePriv := none } : SystemPalette).m_source with
      | .System => ({ p with m_palettePriv := none } : SystemPalette).makeSystemPalette H
      | .Day => ({ p with m_palettePriv := none } : SystemPalette).makeLightPalette H
      | .Night => ({ p with m_palettePriv := none } : SystemPalette).makeDarkPalette H
      | .Noir => ({ p with m_palettePriv := none } : SystemPalette).makeNoirPalette H
      | .Grindhouse => ({ p with m_palettePriv := none } : SystemPalette).makeGrindhousePalette H
      | .BubbleEra => ({ p with m_palettePriv := none } : SystemPalette).makeBubbleEraPalette H
      | .other _ => ({ p with m_palettePriv := none } : SystemPalette))) :
    (p.updatePalette H).m_colorMap = r.m_colorMap ∧ (p.updatePalette H).m_isDark = r.m_isDark ∧
    (p.updatePalette H).m_palettePriv = r.m_palettePriv ∧
    (p.updatePalette H).m_source = r.m_source := by
  unfold SystemPalette.updatePalette
  simp only [← hr]
  split <;> simp [SystemPalette.emit]

/-- C5: for each static scheme that differs from the current source, after `setSource`
the source is that scheme, the colour table is the table written by the matching
builder (from any prior state), and no external provider is attached. -/
theorem setSource_static_scheme (p q : SystemPalette) (H : Header) :
    (p.m_source ≠ .Day →
      (p.setSource H .Day).source = .Day ∧
      (p.setSource H .Day).m_colorMap = (q.makeLightPalette H).m_colorMap ∧
      (p.setSource H .Day).m_palettePriv = none) ∧
    (p.m_source ≠ .Night →
      (p.setSource H .Night).source = .Night ∧
      (p.setSource H .Night).m_colorMap = (q.makeDarkPalette H).m_colorMap ∧
      (p.setSource H .Night).m_palettePriv = none) ∧
    (p.m_source ≠ .Noir →
      (p.setSource H .Noir).source = .Noir ∧
      (p.setSource H .Noir).m_colorMap = (q.makeNoirPalette H).m_colorMap ∧
      (p.setSource H .Noir).m_palettePriv = none) ∧
    (p.m_source ≠ .Grindhouse →
      (p.setSource H .Grindhouse).source = .Grindhouse ∧
      (p.setSource H .Grindhouse).m_colorMap = (q.makeGrindhousePalette H).m_colorMap ∧
      (p.setSource H .Grindhouse).m_palettePriv = none) ∧
    (p.m_source ≠ .BubbleEra →
      (p.setSource H .BubbleEra).source = .BubbleEra ∧
      (p.setSource H .BubbleEra).m_colorMap = (q.makeBubbleEraPalette H).m_colorMap ∧
      (p.setSource H .BubbleEra).m_palettePriv = none) := by
  refine ⟨fun h => ?_, fun h => ?_, fun h => ?_, fun h => ?_, fun h => ?_⟩
  · obtain ⟨h1, -, h3, h4⟩ :=
      SystemPalette.updatePalette_members { p with m_source := .Day } H _ rfl
    simp only [SystemPalette.setSource, SystemPalette.source, if_neg h, SystemPalette.emit, h1, h3, h4]
    simp [SystemPalette.makeLightPalette_eq]
  · obtain ⟨h1, -, h3, h4⟩ :=
      SystemPalette.updatePalette_members { p with m_source := .Night } H _ rfl
    simp only [SystemPalette.setSource, SystemPalette.source, if_neg h, SystemPalette.emit, h1, h3, h4]
    simp [SystemPalette.makeDarkPalette_eq]
  · obtain ⟨h1, -, h3, h4⟩ :=
      SystemPalette.updatePalette_members { p with m_source := .Noir } H _ rfl
    simp only [SystemPalette.setSource, SystemPalette.source, if_neg h, SystemPalette.emit, h1, h3, h4]
    simp [SystemPalette.makeNoirPalette_eq]
  · obtain ⟨h1, -, h3, h4⟩ :=
      SystemPalette.updatePalette_members { p with m_source := .Grindhouse } H _ rfl
    simp only [SystemPalette.setSource, SystemPalette.source, if_neg h, SystemPalette.emit, h1, h3, h4]
    simp [SystemPalette.makeGrindhousePalette_eq]
  · obtain ⟨h1, -, h3, h4⟩ :=
      SystemPalette.updatePalette_members { p with m_source := .BubbleEra } H _ rfl
    simp only [SystemPalette.setSource, SystemPalette.source, if_neg h, SystemPalette.emit, h1, h3, h4]
    simp [SystemPalette.makeBubbleEraPalette_eq]

/-- Witness of C5: the five static schemes set on a palette whose source is `System`. -/
theorem setSource_static_scheme_witness :
    (((emptyPalette .System).setSource sampleHeader .Day).source = .Day ∧
      ((emptyPalette .System).setSource sampleHeader .Day).m_colorMap =
        ((emptyPalette .Noir).makeLightPalette sampleHeader).m_colorMap ∧
      ((emptyPalette .System).setSource sampleHeader .Day).m_palettePriv = none) ∧
    (((emptyPalette .System).setSource sampleHeader .Night).source = .Night ∧
      ((emptyPalette .System).setSource sampleHeader .Night).m_colorMap =
        ((emptyPalette .Noir).makeDarkPalette sampleHeader).m_colorMap ∧
      ((emptyPalette .System).setSource sampleHeader .Night).m_palettePriv = none) ∧
    (((emptyPalette .System).setSource sampleHeader .Noir).source = .Noir ∧
      ((emptyPalette .System).setSource sampleHeader .Noir).m_colorMap =
        ((emptyPalette .Noir).makeNoirPalette sampleHeader).m_colorMap ∧
      ((emptyPalette .System).setSource sampleHeader .Noir).m_palettePriv = none) ∧
    (((emptyPalette .System).setSource sampleHeader .Grindhouse).source = .Grindhouse ∧
      ((emptyPalette .System).setSource sampleHeader .Grindhouse).m_colorMap =
        ((emptyPalette .Noir).makeGrindhousePalette sampleHeader).m_colorMap ∧
      ((emptyPalette .System).setSource sampleHeader .Grindhouse).m_palettePriv = none) ∧
    (((emptyPalette .System).setSource sampleHeader .BubbleEra).source = .BubbleEra ∧
      ((emptyPalette .System).setSource sampleHeader .BubbleEra).m_colorMap =
        ((emptyPalette .Noir).makeBubbleEraPalette sampleHeader).m_colorMap ∧
      ((emptyPalette .System).setSource sampleHeader .BubbleEra).m_palettePriv = none) :=
  ⟨(setSource_static_scheme (emptyPalette .System) (emptyPalette .Noir) sampleHeader).1
     (by decide),
   (setSource_static_scheme (emptyPalette .System) (emptyPalette .Noir) sampleHeader).2.1
     (by decide),
   (setSource_static_scheme (emptyPalette .System) (emptyPalette .Noir) sampleHeader).2.2.1
     (by decide),
   (setSource_static_scheme (emptyPalette .System) (emptyPalette .Noir) sampleHeader).2.2.2.1
     (by decide),
   (setSource_static_scheme (emptyPalette .System) (emptyPalette .Noir) sampleHeader).2.2.2.2
     (by decide)⟩

/-! ## The system theme -/

/-- The provider object is initialised exactly when it can be created and a module
loads. -/
theorem ExternalPaletteImpl.init_eq_none_iff (ctx : MainCtx) :
    ExternalPaletteImpl.init ctx = none ↔ ctx.objectCreate = false ∨ ctx.moduleNeed = none := by
  unfold ExternalPaletteImpl.init
  cases ctx.objectCreate <;> cases ctx.moduleNeed <;> simp

/-- The status of the provider's palette update does not depend on the palette. -/
theorem ExternalPaletteImpl.update_status (priv : ExternalPaletteImpl) (H : Header)
    (s s' : SystemPalette) : (priv.update H s).1 = (priv.update H s').1 := by
  unfold ExternalPaletteImpl.update
  cases priv.m_provider.updatePalette <;> rfl

/-- With source `System`, the colour table, darkness flag and provider after
`updatePalette` are those `makeSystemPalette` leaves once the old provider is dropped. -/
theorem SystemPalette.updatePalette_system (p : SystemPalette) (H : Header)
    (hsrc : p.m_source = .System) :
    (p.updatePalette H).m_colorMap =
      (({ p with m_palettePriv := none } : SystemPalette).makeSystemPalette H).m_colorMap ∧
    (p.updatePalette H).m_isDark =
      (({ p with m_palettePriv := none } : SystemPalette).makeSystemPalette H).m_isDark ∧
    (p.updatePalette H).m_palettePriv =
      (({ p with m_palettePriv := none } : SystemPalette).makeSystemPalette H).m_palettePriv := by
  obtain ⟨h1, h2, h3, -⟩ := SystemPalette.updatePalette_members p H _ rfl
  rw [h1, h2, h3]
  simp only [hsrc, and_self]

/-- The result of `makeSystemPalette` when the provider initialises. -/
theorem SystemPalette.makeSystemPalette_of_init (p : SystemPalette) (H : Header) (ctx : MainCtx)
    (priv : ExternalPaletteImpl) (hctx : p.m_ctx = some ctx)
    (hinit : ExternalPaletteImpl.init ctx = some priv) :
    p.makeSystemPalette H =
      { (if (priv.update H p.clearColorMap).1 ≠ H.VLC_SUCCESS then
          if priv.isThemeDark then (priv.update H p.clearColorMap).2.makeDarkPalette H
          else (priv.update H p.clearColorMap).2.makeLightPalette H
        else { (priv.update H p.clearColorMap).2 with m_isDark := priv.isThemeDark }) with
        m_palettePriv := some priv } := by
  unfold SystemPalette.makeSystemPalette
  rw [hctx]
  simp only [hinit]

/-- C6: with source `System`, when no main context is set, or the provider object
cannot be created, or no theme-provider module loads, `updatePalette` leaves the colour
table of the light builder, a false darkness flag and no provider. -/
theorem updatePalette_system_without_provider (p q : SystemPalette) (H : Header)
    (hsrc : p.m_source = .System)
    (hfail : p.m_ctx = none ∨
      ∃ ctx, p.m_ctx = some ctx ∧ (ctx.objectCreate = false ∨ ctx.moduleNeed = none)) :
    (p.updatePalette H).m_colorMap = (q.makeLightPalette H).m_colorMap ∧
    (p.updatePalette H).m_isDark = false ∧
    (p.updatePalette H).m_palettePriv = none := by
  obtain ⟨h1, h2, h3, -⟩ := SystemPalette.updatePalette_members p H _ rfl
  rw [h1, h2, h3]
  simp only [hsrc]
  rcases hfail with h | ⟨ctx, h, hinit⟩
  · simp [SystemPalette.makeSystemPalette, h, SystemPalette.makeLightPalette_eq]
  · rw [← ExternalPaletteImpl.init_eq_none_iff] at hinit
    simp [SystemPalette.makeSystemPalette, h, hinit, SystemPalette.makeLightPalette_eq]

/-- Witness of C6: a palette without context, one whose context cannot create the
provider object, and one whose context finds no module. -/
theorem updatePalette_system_without_provider_witness :
    (((emptyPalette .System).updatePalette sampleHeader).m_colorMap =
        ((emptyPalette .Noir).makeLightPalette sampleHeader).m_colorMap ∧
      ((emptyPalette .System).updatePalette sampleHeader).m_isDark = false ∧
      ((emptyPalette .System).updatePalette sampleHeader).m_palettePriv = none) ∧
    ((systemPaletteNoObject.updatePalette sampleHeader).m_colorMap =
        ((emptyPalette .Noir).makeLightPalette sampleHeader).m_colorMap ∧
      (systemPaletteNoObject.updatePalette sampleHeader).m_isDark = false ∧
      (systemPaletteNoObject.updatePalette sampleHeader).m_palettePriv = none) ∧
    ((systemPaletteNoModule.updatePalette sampleHeader).m_colorMap =
        ((emptyPalette .Noir).makeLightPalette sampleHeader).m_colorMap ∧
      (systemPaletteNoModule.updatePalette sampleHeader).m_isDark = false ∧
      (systemPaletteNoModule.updatePalette sampleHeader).m_palettePriv = none) :=
  ⟨updatePalette_system_without_provider (emptyPalette .System) (emptyPalette .Noir) sampleHeader
     rfl (Or.inl rfl),
   updatePalette_system_without_provider systemPaletteNoObject (emptyPalette .Noir) sampleHeader
     rfl (Or.inr ⟨_, rfl, Or.inl rfl⟩),
   updatePalette_system_without_provider systemPaletteNoModule (emptyPalette .Noir) sampleHeader
     rfl (Or.inr ⟨_, rfl, Or.inr rfl⟩)⟩

/-- One set-colour call of the provider writes its colour under its key and changes
nothing else. -/
theorem ThemeColorCall.run_eq (p : SystemPalette) (call : ThemeColorCall) :
    call.run p =
      { p with m_colorMap := fun k => if k = call.key then some call.color else p.m_colorMap k } := by
  cases call <;> rfl

/-- The provider's calls change the colour table only. -/
theorem ThemeColorCall.foldl_run_eq (calls : List ThemeColorCall) (p : SystemPalette) :
    calls.foldl ThemeColorCall.run p =
      { p with m_colorMap := (calls.foldl ThemeColorCall.run p).m_colorMap } := by
  induction calls generalizing p with
  | nil => rfl
  | cons call calls ih =>
    rw [List.foldl_cons, ih, ThemeColorCall.run_eq]

/-- After the provider's calls, a key holds the colour of the last call that wrote it,
and its previous entry when no call wrote it. -/
theorem ThemeColorCall.foldl_run_colorMap (calls : List ThemeColorCall) (p : SystemPalette)
    (k : Nat) :
    (calls.foldl ThemeColorCall.run p).m_colorMap k =
      match lastWritten calls k with
      | some col => some col
      | none => p.m_colorMap k := by
  induction calls generalizing p with
  | nil => rfl
  | cons call calls ih =>
    rw [List.foldl_cons, ih, ThemeColorCall.run_eq]
    unfold lastWritten
    rw [List.reverse_cons, List.find?_append]
    cases h : List.find? (fun call => decide (call.key = k)) calls.reverse with
    | some found => simp
    | none =>
      by_cases hk : call.key = k
      · simp [hk]
      · have hk' : ¬ k = call.key := fun e => hk e.symm
        simp [hk, hk']

/-- C7: with source `System` and an initialised provider whose palette update returns a
status other than `VLC_SUCCESS`, the colour table is the dark builder's table and the
darkness flag is true when the provider reports a dark theme, the light builder's table
and false otherwise; whatever the provider wrote is gone, and the provider is attached. -/
theorem updatePalette_system_update_failed (p q s : SystemPalette) (H : Header) (ctx : MainCtx)
    (priv : ExternalPaletteImpl) (hsrc : p.m_source = .System) (hctx : p.m_ctx = some ctx)
    (hinit : ExternalPaletteImpl.init ctx = some priv)
    (hret : (priv.update H s).1 ≠ H.VLC_SUCCESS) :
    (p.updatePalette H).m_palettePriv = some priv ∧
    (priv.isThemeDark = true →
      (p.updatePalette H).m_colorMap = (q.makeDarkPalette H).m_colorMap ∧
      (p.updatePalette H).m_isDark = true) ∧
    (priv.isThemeDark = false →
      (p.updatePalette H).m_colorMap = (q.makeLightPalette H).m_colorMap ∧
      (p.updatePalette H).m_isDark = false) := by
  obtain ⟨h1, h2, h3⟩ := SystemPalette.updatePalette_system p H hsrc
  rw [h1, h2, h3,
    SystemPalette.makeSystemPalette_of_init { p with m_palettePriv := none } H ctx priv hctx hinit]
  have hret' : ∀ s', (priv.update H s').1 ≠ H.VLC_SUCCESS := fun s' => by
    rw [ExternalPaletteImpl.update_status priv H s' s]
    exact hret
  rw [if_pos (hret' _)]
  refine ⟨rfl, fun hd => ?_, fun hd => ?_⟩
  · simp [hd, SystemPalette.makeDarkPalette_eq]
  · simp [hd, SystemPalette.makeLightPalette_eq]

/-- Witness of C7: a provider that reports a dark theme, writes a colour and fails, and
a provider without any callback (its update is `VLC_EGENERIC`, its theme not dark). -/
theorem updatePalette_system_update_failed_witness :
    (((systemPalette failingDarkProvider).updatePalette sampleHeader).m_palettePriv =
        some { m_ctx := { objectCreate := true, moduleNeed := some failingDarkProvider },
               m_provider := failingDarkProvider } ∧
      ((systemPalette failingDarkProvider).updatePalette sampleHeader).m_colorMap =
        ((emptyPalette .Noir).makeDarkPalette sampleHeader).m_colorMap ∧
      ((systemPalette failingDarkProvider).updatePalette sampleHeader).m_isDark = true) ∧
    (((systemPalette bareProvider).updatePalette sampleHeader).m_palettePriv =
        some { m_ctx := { objectCreate := true, moduleNeed := some bareProvider },
               m_provider := bareProvider } ∧
      ((systemPalette bareProvider).updatePalette sampleHeader).m_colorMap =
        ((emptyPalette .Noir).makeLightPalette sampleHeader).m_colorMap ∧
      ((systemPalette bareProvider).updatePalette sampleHeader).m_isDark = false) :=
  ⟨⟨(updatePalette_system_update_failed (systemPalette failingDarkProvider) (emptyPalette .Noir)
       (emptyPalette .Noir) sampleHeader _ _ rfl rfl rfl (by decide)).1,
     (updatePalette_system_update_failed (systemPalette failingDarkProvider) (emptyPalette .Noir)
       (emptyPalette .Noir) sampleHeader _ _ rfl rfl rfl (by decide)).2.1 rfl⟩,
   ⟨(updatePalette_system_update_failed (systemPalette bareProvider) (emptyPalette .Noir)
       (emptyPalette .Noir) sampleHeader _ _ rfl rfl rfl (by decide)).1,
     (updatePalette_system_update_failed (systemPalette bareProvider) (emptyPalette .Noir)
       (emptyPalette .Noir) sampleHeader _ _ rfl rfl rfl (by decide)).2.2 rfl⟩⟩

/-- C8: with source `System`, when the provider initialises and its palette update
returns `VLC_SUCCESS`, every key of the colour table holds exactly what the provider's
set-colour calls of that update left for it (the colour of the last call on the key,
nothing for a key no call wrote), the darkness flag is the provider's `isThemeDark`
answer, and the provider is attached. -/
theorem updatePalette_system_update_succeeded (p : SystemPalette) (H : Header) (ctx : MainCtx)
    (priv : ExternalPaletteImpl) (u : PaletteUpdate) (hsrc : p.m_source = .System)
    (hctx : p.m_ctx = some ctx) (hinit : ExternalPaletteImpl.init ctx = some priv)
    (hu : priv.m_provider.updatePalette = some u) (hret : u.ret = H.VLC_SUCCESS) :
    (∀ k, (p.updatePalette H).m_colorMap k = lastWritten u.calls k) ∧
    (p.updatePalette H).m_isDark = priv.isThemeDark ∧
    (∀ dark, priv.m_provider.isThemeDark = some dark → (p.updatePalette H).m_isDark = dark) ∧
    (p.updatePalette H).m_palettePriv = some priv := by
  obtain ⟨h1, h2, h3⟩ := SystemPalette.updatePalette_system p H hsrc
  rw [h1, h2, h3,
    SystemPalette.makeSystemPalette_of_init { p with m_palettePriv := none } H ctx priv hctx hinit]
  have hup : ∀ s', priv.update H s' = (H.VLC_SUCCESS, u.calls.foldl ThemeColorCall.run s') :=
    fun s' => by simp [ExternalPaletteImpl.update, hu, hret]
  simp only [hup, ne_eq, not_true_eq_false, if_false]
  refine ⟨fun k => ?_, trivial, fun dark hd => ?_, trivial⟩
  · rw [ThemeColorCall.foldl_run_colorMap]
    cases lastWritten u.calls k <;> rfl
  · simp [ExternalPaletteImpl.isThemeDark, hd]

/-- Witness of C8: the provider `darkProvider` on a palette that held four other
entries; the key written twice holds the second colour, the old entries are gone. -/
theorem updatePalette_system_update_succeeded_witness :
    (∀ k, ((systemPalette darkProvider).updatePalette sampleHeader).m_colorMap k =
      lastWritten [.setColorInt 1 1 0 0 10 20 30 255, .setColorF 1 0 0 0 Qt.white,
        .setColorInt 1 1 0 0 40 50 60 255] k) ∧
    ((systemPalette darkProvider).updatePalette sampleHeader).m_isDark = true ∧
    (∀ dark, some true = some dark →
      ((systemPalette darkProvider).updatePalette sampleHeader).m_isDark = dark) ∧
    ((systemPalette darkProvider).updatePalette sampleHeader).m_palettePriv =
      some { m_ctx := { objectCreate := true, moduleNeed := some darkProvider },
             m_provider := darkProvider } :=
  updatePalette_system_update_succeeded (systemPalette darkProvider) sampleHeader _ _ _ rfl rfl rfl
    rfl rfl

/-- C9: for components in 0..255 the provider's integer set-colour callback stores the
valid colour with these components under the key of the tuple, so that `getColor`
returns it for the tuple, and changes no other entry of the table and no other member
of the palette. -/
theorem setColorRBGAInt_forwards (p : SystemPalette) (C : ColorContext)
    (set section_ name state : Nat) (r g b a : Int)
    (hr : 0 ≤ r ∧ r ≤ 255) (hg : 0 ≤ g ∧ g ≤ 255) (hb : 0 ≤ b ∧ b ≤ 255) (ha : 0 ≤ a ∧ a ≤ 255) :
    QColor.fromRgba r g b a = ⟨true, r.toNat, g.toNat, b.toNat, .int a.toNat⟩ ∧
    (setColorRBGAInt p set section_ name state r g b a).m_colorMap
      (makeKey set section_ name state) = some (QColor.fromRgba r g b a) ∧
    (setColorRBGAInt p set section_ name state r g b a).getColor C set section_ name state =
      QColor.fromRgba r g b a ∧
    (∀ k, k ≠ makeKey set section_ name state →
      (setColorRBGAInt p set section_ name state r g b a).m_colorMap k = p.m_colorMap k) ∧
    setColorRBGAInt p set section_ name state r g b a =
      { p with m_colorMap := (setColorRBGAInt p set section_ name state r g b a).m_colorMap } := by
  refine ⟨?_, ?_, ?_, fun k hk => ?_, rfl⟩
  · simp [QColor.fromRgba, hr, hg, hb, ha]
  · exact SystemPalette.setColor_colorMap_same _ _ _ _ _ _
  · show (p.setColor set section_ name state (QColor.fromRgba r g b a)).getColor C set section_
      name state = QColor.fromRgba r g b a
    rw [SystemPalette.getColor_tiers, SystemPalette.setColor_colorMap_same]
  · exact SystemPalette.setColor_colorMap_other _ _ _ _ _ _ _ hk

/-- Witness of C9: the colour (40, 50, 60, 255) written for the tuple (1, 1, 0, 0). -/
theorem setColorRBGAInt_forwards_witness :
    QColor.fromRgba 40 50 60 255 = ⟨true, 40, 50, 60, .int 255⟩ ∧
    (setColorRBGAInt tierPalette 1 1 0 0 40 50 60 255).m_colorMap (makeKey 1 1 0 0) =
      some (QColor.fromRgba 40 50 60 255) ∧
    (setColorRBGAInt tierPalette 1 1 0 0 40 50 60 255).getColor sampleHeader.toColorContext
      1 1 0 0 = QColor.fromRgba 40 50 60 255 ∧
    (∀ k, k ≠ makeKey 1 1 0 0 →
      (setColorRBGAInt tierPalette 1 1 0 0 40 50 60 255).m_colorMap k = tierPalette.m_colorMap k) ∧
    setColorRBGAInt tierPalette 1 1 0 0 40 50 60 255 =
      { tierPalette with
        m_colorMap := (setColorRBGAInt tierPalette 1 1 0 0 40 50 60 255).m_colorMap } :=
  setColorRBGAInt_forwards tierPalette sampleHeader.toColorContext 1 1 0 0 40 50 60 255
    (by decide) (by decide) (by decide) (by decide)

/-! ## Window-decoration imagery without a provider -/

/-- Without a provider a palette offers no window-decoration imagery. -/
theorem SystemPalette.noCSD_of_palettePriv_none (p : SystemPalette) (H : Header)
    (h : p.m_palettePriv = none) : p.NoCSD H := by
  refine ⟨?_, ?_, fun type state maximized active bannerHeight => ?_⟩
  · simp [SystemPalette.hasCSDImage, h]
  · simp [SystemPalette.getCSDMetrics, h]
  · simp [SystemPalette.getCSDImage, SystemPalette.hasCSDImage, h]

/-- After `updatePalette` on a static source no provider is attached. -/
theorem SystemPalette.updatePalette_static_palettePriv (p : SystemPalette) (H : Header)
    (h : p.m_source.isStatic = true) : (p.updatePalette H).m_palettePriv = none := by
  obtain ⟨-, -, h3, -⟩ := SystemPalette.updatePalette_members p H _ rfl
  rw [h3]
  cases hs : p.m_source <;> simp [hs, ColorSchemeModel.ColorScheme.isStatic] at h <;>
    simp [hs, SystemPalette.makeLightPalette_eq, SystemPalette.makeDarkPalette_eq,
      SystemPalette.makeNoirPalette_eq, SystemPalette.makeGrindhousePalette_eq,
      SystemPalette.makeBubbleEraPalette_eq]

/-- After `updatePalette` on the source `System` no provider is attached when the
provider cannot be initialised. -/
theorem SystemPalette.updatePalette_system_palettePriv (p : SystemPalette) (H : Header)
    (hsrc : p.m_source = .System)
    (hfail : p.m_ctx = none ∨ ∃ ctx, p.m_ctx = some ctx ∧ ExternalPaletteImpl.init ctx = none) :
    (p.updatePalette H).m_palettePriv = none := by
  obtain ⟨-, -, h3⟩ := SystemPalette.updatePalette_system p H hsrc
  rw [h3]
  rcases hfail with h | ⟨ctx, h, hinit⟩
  · simp [SystemPalette.makeSystemPalette, h, SystemPalette.makeLightPalette_eq]
  · simp [SystemPalette.makeSystemPalette, h, hinit, SystemPalette.makeLightPalette_eq]

/-- C11: whenever no provider is attached, `hasCSDImage()` is false, `getCSDMetrics()`
is null and `getCSDImage` returns a null image for every button type, state,
maximized and active flag and banner height; this is the case after `updatePalette`
on each of the five static sources, and on the source `System` when there is no main
context, the provider object cannot be created or no module loads. -/
theorem no_provider_no_csd (H : Header) :
    (∀ p : SystemPalette, p.m_palettePriv = none → p.NoCSD H) ∧
    (∀ p : SystemPalette, p.m_source.isStatic = true → (p.updatePalette H).NoCSD H) ∧
    (∀ p : SystemPalette, p.m_source = .System →
      (p.m_ctx = none ∨
        ∃ ctx, p.m_ctx = some ctx ∧ (ctx.objectCreate = false ∨ ctx.moduleNeed = none)) →
      (p.updatePalette H).NoCSD H) := by
  refine ⟨fun p h => p.noCSD_of_palettePriv_none H h, fun p h => ?_, fun p hsrc hfail => ?_⟩
  · exact SystemPalette.noCSD_of_palettePriv_none _ H (p.updatePalette_static_palettePriv H h)
  · apply SystemPalette.noCSD_of_palettePriv_none
    apply p.updatePalette_system_palettePriv H hsrc
    rcases hfail with h | ⟨ctx, h, hinit⟩
    · exact Or.inl h
    · exact Or.inr ⟨ctx, h, (ExternalPaletteImpl.init_eq_none_iff ctx).mpr hinit⟩

/-- Witness of C11: a palette without provider, the noir theme set on a palette that
had a provider with images, and the system theme when no module loads. -/
theorem no_provider_no_csd_witness :
    (emptyPalette .Day).NoCSD sampleHeader ∧
    (({ systemPalette csdProvider with m_source := .Noir }).updatePalette sampleHeader).NoCSD
      sampleHeader ∧
    (systemPaletteNoModule.updatePalette sampleHeader).NoCSD sampleHeader :=
  ⟨(no_provider_no_csd sampleHeader).1 (emptyPalette .Day) rfl,
   (no_provider_no_csd sampleHeader).2.1 { systemPalette csdProvider with m_source := .Noir } rfl,
   (no_provider_no_csd sampleHeader).2.2 systemPaletteNoModule rfl
     (Or.inr ⟨_, rfl, Or.inr rfl⟩)⟩

/-! ## The noir theme -/

/-- C12: the noir theme is grayscale: every colour of a `setColor` call of
`makeNoirPalette`, and so every colour stored in the table it writes, has equal red,
green and blue components. -/
theorem noir_grayscale :
    (∀ w ∈ noirWrites, w.color.red = w.color.green ∧ w.color.green = w.color.blue) ∧
    (∀ (H : Header) (p : SystemPalette) (k : Nat) (col : QColor),
      (p.makeNoirPalette H).m_colorMap k = some col →
        col.red = col.green ∧ col.green = col.blue) := by
  have hall : noirWrites.all
      (fun w => decide (w.color.red = w.color.green ∧ w.color.green = w.color.blue)) = true := by
    decide
  have hw : ∀ w ∈ noirWrites, w.color.red = w.color.green ∧ w.color.green = w.color.blue :=
    fun w hw => of_decide_eq_true (List.all_eq_true.mp hall w hw)
  refine ⟨hw, fun H p k col h => ?_⟩
  rw [SystemPalette.makeNoirPalette_eq] at h
  rcases SystemPalette.setColors_colorMap_some H.toColorContext noirWrites (emptyPalette .Day) k
      col h with h0 | ⟨w, hmem, -, hc⟩
  · exact absurd h0 (by simp [emptyPalette])
  · rw [← hc]
    exact hw w hmem

/-- Witness of C12: the entry of (View, Bg, Primary, Normal) in the noir theme over the
sample header, the gray `#1a1a1a`. -/
theorem noir_grayscale_witness :
    (QColor.fromString "#1a1a1a").red = (QColor.fromString "#1a1a1a").green ∧
    (QColor.fromString "#1a1a1a").green = (QColor.fromString "#1a1a1a").blue :=
  noir_grayscale.2 sampleHeader (emptyPalette .Noir) (makeKey 1 1 0 0)
    (QColor.fromString "#1a1a1a") (by decide)

/-! ## The key computation on `int` -/

theorem wrapInt32_of_fits (z : Int) (h : fitsInt32 z) : wrapInt32 z = z := by
  unfold fitsInt32 at h
  unfold wrapInt32
  omega

/-- The `quint64` obtained from a non-negative `int`. -/
theorem toQuint64_of_nonneg (z : Int) (h0 : 0 ≤ z) (h1 : z < 2147483648) :
    (toQuint64 z : Int) = z := by
  unfold toQuint64
  omega

/-- C13, as stated, fails: the set 32768 is inside the asserted bounds, but shifting
it left by 16 gives 2^31, which is not representable in a 32-bit signed `int`, and the
resulting key is not `set*65536 + name*256 + section*16 + state`. -/
theorem makeKey_overflows_within_asserted_bounds :
    ¬ (∀ s c n t : Nat, t < 16 → c < 16 → n < 256 → s < 65536 →
        makeKeyNoOverflow s c n t ∧ makeKey s c n t = s * 65536 + n * 256 + c * 16 + t) := by
  intro h
  have h0 := (h 32768 0 0 0 (by decide) (by decide) (by decide) (by decide)).1
  exact absurd h0 (by decide)

/-- C13, amended: for every tuple with state < 16, section < 16, name < 256 and
set < 32768, the key computed with the operands promoted to 32-bit signed integers
does not overflow, and the `quint64` key equals
`set*65536 + name*256 + section*16 + state`. -/
theorem makeKey_no_overflow (s c n t : Nat) (ht : t < 16) (hc : c < 16) (hn : n < 256)
    (hs : s < 32768) :
    makeKeyNoOverflow s c n t ∧ makeKey s c n t = s * 65536 + n * 256 + c * 16 + t := by
  have e1 : shl32 s 16 = (s : Int) * 65536 := by
    unfold shl32
    rw [wrapInt32_of_fits _ (by unfold fitsInt32; norm_num; omega)]
    norm_num
  have e2 : shl32 n 8 = (n : Int) * 256 := by
    unfold shl32
    rw [wrapInt32_of_fits _ (by unfold fitsInt32; norm_num; omega)]
    norm_num
  have e3 : shl32 c 4 = (c : Int) * 16 := by
    unfold shl32
    rw [wrapInt32_of_fits _ (by unfold fitsInt32; norm_num; omega)]
    norm_num
  have e4 : add32 (shl32 s 16) (shl32 n 8) = (s : Int) * 65536 + (n : Int) * 256 := by
    unfold add32
    rw [e1, e2, wrapInt32_of_fits _ (by unfold fitsInt32; omega)]
  have e5 : add32 (add32 (shl32 s 16) (shl32 n 8)) (shl32 c 4) =
      (s : Int) * 65536 + (n : Int) * 256 + (c : Int) * 16 := by
    unfold add32 at e4 ⊢
    rw [e4, e3, wrapInt32_of_fits _ (by unfold fitsInt32; omega)]
  constructor
  · unfold makeKeyNoOverflow
    rw [e5, e4, e1, e2, e3]
    unfold fitsInt32
    norm_num
    omega
  · unfold makeKey
    rw [e5]
    unfold add32
    rw [wrapInt32_of_fits _ (by unfold fitsInt32; omega)]
    have := toQuint64_of_nonneg ((s : Int) * 65536 + (n : Int) * 256 + (c : Int) * 16 + (t : Int))
      (by omega) (by omega)
    omega

/-- Witness of the amended C13 at the tuple (32767, 15, 255, 15), the largest one. -/
theorem makeKey_no_overflow_witness :
    makeKeyNoOverflow 32767 15 255 15 ∧
      makeKey 32767 15 255 15 = 32767 * 65536 + 255 * 256 + 15 * 16 + 15 :=
  makeKey_no_overflow 32767 15 255 15 (by decide) (by decide) (by decide) (by decide)

/-! ## The frame of `setColor` -/

/-- C15: for tuples inside the key bounds that `makeKey` asserts (state < 16,
section < 16, name < 256, and set < 65536, which every colour set satisfies),
`setColor` on one tuple leaves the entry of every other tuple as it was, present or
absent; darkness flag, source, provider and the remaining members are unchanged as
well. -/
theorem setColor_frame (p : SystemPalette) (col : QColor) (s c n t s' c' n' t' : Nat)
    (hs : s < 65536) (hc : c < 16) (hn : n < 256) (ht : t < 16)
    (hs' : s' < 65536) (hc' : c' < 16) (hn' : n' < 256) (ht' : t' < 16)
    (hne : (s, c, n, t) ≠ (s', c', n', t')) :
    (p.setColor s c n t col).m_colorMap (makeKey s' c' n' t') =
      p.m_colorMap (makeKey s' c' n' t') ∧
    (p.setColor s c n t col).m_isDark = p.m_isDark ∧
    (p.setColor s c n t col).m_source = p.m_source ∧
    (p.setColor s c n t col).m_palettePriv = p.m_palettePriv ∧
    p.setColor s c n t col = { p with m_colorMap := (p.setColor s c n t col).m_colorMap } := by
  refine ⟨?_, rfl, rfl, rfl, rfl⟩
  apply SystemPalette.setColor_colorMap_other
  intro hk
  obtain ⟨h1, h2, h3, h4⟩ := makeKey_inj_of_bounds hs' hs hc' hc hn' hn ht' ht hk
  exact hne (by rw [h1, h2, h3, h4])

/-- Witness of C15: writing (1, 1, 0, 0) leaves the entries of (3, 1, 0, 3),
present, and of (1, 1, 0, 1), absent, as they were. -/
theorem setColor_frame_witness :
    ((tierPalette.setColor 1 1 0 0 Qt.black).m_colorMap (makeKey 3 1 0 3) =
        tierPalette.m_colorMap (makeKey 3 1 0 3) ∧
      (tierPalette.setColor 1 1 0 0 Qt.black).m_isDark = tierPalette.m_isDark ∧
      (tierPalette.setColor 1 1 0 0 Qt.black).m_source = tierPalette.m_source ∧
      (tierPalette.setColor 1 1 0 0 Qt.black).m_palettePriv = tierPalette.m_palettePriv ∧
      tierPalette.setColor 1 1 0 0 Qt.black =
        { tierPalette with m_colorMap := (tierPalette.setColor 1 1 0 0 Qt.black).m_colorMap }) ∧
    (tierPalette.setColor 1 1 0 0 Qt.black).m_colorMap (makeKey 1 1 0 1) =
      tierPalette.m_colorMap (makeKey 1 1 0 1) :=
  ⟨setColor_frame tierPalette Qt.black 1 1 0 0 3 1 0 3 (by decide) (by decide) (by decide)
     (by decide) (by decide) (by decide) (by decide) (by decide) (by decide),
   (setColor_frame tierPalette Qt.black 1 1 0 0 1 1 0 1 (by decide) (by decide) (by decide)
     (by decide) (by decide) (by decide) (by decide) (by decide) (by decide)).1⟩

/-! ## The instrumented lookup -/

/-- A run of `getColor` on the colour set `View` makes at most two lookups and no call
to itself. -/
theorem SystemPalette.getColorRun_view (p : SystemPalette) (C : ColorContext) (c n t : Nat) :
    p.getColorRun C (C.set .View) c n t =
      match p.m_colorMap (makeKey (C.set .View) c n t) with
      | some col => { color := col, lookups := 1, selfCalls := [], matched := true }
      | none =>
        match p.m_colorMap (makeKey (C.set .View) c n (C.state .Normal)) with
        | some col => { color := col, lookups := 2, selfCalls := [], matched := true }
        | none => { color := Qt.magenta, lookups := 2, selfCalls := [], matched := false } := by
  rw [SystemPalette.getColorRun]
  cases p.m_colorMap (makeKey (C.set .View) c n t) with
  | some col => rfl
  | none =>
    cases p.m_colorMap (makeKey (C.set .View) c n (C.state .Normal)) with
    | some col => rfl
    | none => simp

/-- A run of `getColor` on a colour set other than `View`. -/
theorem SystemPalette.getColorRun_other (p : SystemPalette) (C : ColorContext) (s c n t : Nat)
    (hs : s ≠ C.set .View) :
    p.getColorRun C s c n t =
      match p.m_colorMap (makeKey s c n t) with
      | some col => { color := col, lookups := 1, selfCalls := [], matched := true }
      | none =>
        match p.m_colorMap (makeKey s c n (C.state .Normal)) with
        | some col => { color := col, lookups := 2, selfCalls := [], matched := true }
        | none =>
          { color := (p.getColorRun C (C.set .View) c n t).color,
            lookups := 2 + (p.getColorRun C (C.set .View) c n t).lookups,
            selfCalls := (C.set .View, c, n, t) :: (p.getColorRun C (C.set .View) c n t).selfCalls,
            matched := (p.getColorRun C (C.set .View) c n t).matched } := by
  rw [SystemPalette.getColorRun]
  cases p.m_colorMap (makeKey s c n t) with
  | some col => rfl
  | none =>
    cases p.m_colorMap (makeKey s c n (C.state .Normal)) with
    | some col => rfl
    | none => simp [hs]

/-- The instrumented run returns the colour `getColor` returns. -/
theorem SystemPalette.getColorRun_color (p : SystemPalette) (C : ColorContext) (s c n t : Nat) :
    (p.getColorRun C s c n t).color = p.getColor C s c n t := by
  rw [SystemPalette.getColor_tiers]
  by_cases hs : s = C.set .View
  · subst hs
    rw [SystemPalette.getColorRun_view]
    cases p.m_colorMap (makeKey (C.set .View) c n t) with
    | some col => rfl
    | none =>
      cases p.m_colorMap (makeKey (C.set .View) c n (C.state .Normal)) with
      | some col => rfl
      | none => simp
  · rw [SystemPalette.getColorRun_other p C s c n t hs, SystemPalette.getColorRun_view]
    cases p.m_colorMap (makeKey s c n t) with
    | some col => rfl
    | none =>
      cases p.m_colorMap (makeKey s c n (C.state .Normal)) with
      | some col => rfl
      | none =>
        cases p.m_colorMap (makeKey (C.set .View) c n t) with
        | some col => simp [hs]
        | none =>
          cases p.m_colorMap (makeKey (C.set .View) c n (C.state .Normal)) with
          | some col => simp [hs]
          | none => simp [hs]

/-- The counters of a run on the colour set `View`. -/
theorem SystemPalette.getColorRun_view_counts (p : SystemPalette) (C : ColorContext)
    (c n t : Nat) :
    (p.getColorRun C (C.set .View) c n t).lookups ≤ 2 ∧
    (p.getColorRun C (C.set .View) c n t).selfCalls = [] := by
  rw [SystemPalette.getColorRun_view]
  cases p.m_colorMap (makeKey (C.set .View) c n t) with
  | some col => exact ⟨Nat.le_succ 1, rfl⟩
  | none =>
    cases p.m_colorMap (makeKey (C.set .View) c n (C.state .Normal)) with
    | some col => exact ⟨Nat.le_refl 2, rfl⟩
    | none => exact ⟨Nat.le_refl 2, rfl⟩

/-- C16: `getColor` is a total function of the table and the tuple (its recursion is
accepted with the measure "0 on `View`, 1 elsewhere"); a run returns the colour of
`getColor`, makes at most four table lookups, and calls itself at most once, never on
the set `View`, and only with the colour set replaced by `View`, where the run makes at
most two lookups and no further call. -/
theorem getColor_run_bounded (p : SystemPalette) (C : ColorContext) (s c n t : Nat) :
    (p.getColorRun C s c n t).color = p.getColor C s c n t ∧
    (p.getColorRun C s c n t).lookups ≤ 4 ∧
    ((p.getColorRun C s c n t).selfCalls = [] ∨
      (s ≠ C.set .View ∧ (p.getColorRun C s c n t).selfCalls = [(C.set .View, c, n, t)])) ∧
    (p.getColorRun C (C.set .View) c n t).selfCalls = [] ∧
    (p.getColorRun C (C.set .View) c n t).lookups ≤ 2 := by
  obtain ⟨hl, hc⟩ := p.getColorRun_view_counts C c n t
  refine ⟨p.getColorRun_color C s c n t, ?_, ?_, hc, hl⟩
  · by_cases hs : s = C.set .View
    · subst hs
      omega
    · rw [SystemPalette.getColorRun_other p C s c n t hs]
      cases p.m_colorMap (makeKey s c n t) with
      | some col => simp
      | none =>
        cases p.m_colorMap (makeKey s c n (C.state .Normal)) with
        | some col => simp
        | none =>
          simp only
          omega
  · by_cases hs : s = C.set .View
    · subst hs
      exact Or.inl hc
    · rw [SystemPalette.getColorRun_other p C s c n t hs]
      cases p.m_colorMap (makeKey s c n t) with
      | some col => exact Or.inl rfl
      | none =>
        cases p.m_colorMap (makeKey s c n (C.state .Normal)) with
        | some col => exact Or.inl rfl
        | none =>
          right
          refine ⟨hs, ?_⟩
          simp only [hc]

/-! ## Reading the static tables -/

/-- An entry stays present through a sequence of `setColor` calls. -/
theorem SystemPalette.setColors_colorMap_isSome (C : ColorContext) (ws : List SetColorCall)
    (p : SystemPalette) (k : Nat) (h : ∃ col, p.m_colorMap k = some col) :
    ∃ col, (p.setColors C ws).m_colorMap k = some col := by
  induction ws generalizing p with
  | nil => exact h
  | cons w ws ih =>
    rw [SystemPalette.setColors_cons]
    apply ih
    obtain ⟨col, hcol⟩ := h
    by_cases hk : k = makeKey (C.set w.colorSet) (C.section_ w.section_) (C.name w.name)
        (C.state w.state)
    · exact ⟨w.color, by rw [hk]; exact SystemPalette.setColor_colorMap_same _ _ _ _ _ _⟩
    · exact ⟨col, by rw [SystemPalette.setColor_colorMap_other _ _ _ _ _ _ _ hk]; exact hcol⟩

/-- The key of every call of a sequence has an entry afterwards. -/
theorem SystemPalette.setColors_colorMap_isSome_of_mem (C : ColorContext)
    (ws : List SetColorCall) (p : SystemPalette) (w0 : SetColorCall) (h : w0 ∈ ws) :
    ∃ col, (p.setColors C ws).m_colorMap (w0.key C) = some col := by
  induction ws generalizing p with
  | nil => exact absurd h (List.not_mem_nil _)
  | cons w ws ih =>
    rw [SystemPalette.setColors_cons]
    rcases List.mem_cons.mp h with rfl | hmem
    · exact SystemPalette.setColors_colorMap_isSome C ws _ _
        ⟨w0.color, SystemPalette.setColor_colorMap_same _ _ _ _ _ _⟩
    · exact ih _ hmem

/-- With well-formed enumerator values, two calls write the same key only when they
name the same tuple. -/
theorem ColorContext.WellFormed.key_eq_iff {C : ColorContext} (wf : C.WellFormed)
    (w v : SetColorCall) : w.key C = v.key C ↔ w.tuple = v.tuple := by
  unfold SetColorCall.key SetColorCall.tuple
  rw [wf.makeKey_eq_iff]
  simp only [Prod.mk.injEq]

/-- The entry a static builder leaves for the tuple of one of its calls, when no two
of its calls name the same tuple: the colour of that call. -/
theorem SystemPalette.setColors_lookup_of_mem {C : ColorContext} (wf : C.WellFormed)
    (ws : List SetColorCall) (hnd : (ws.map SetColorCall.tuple).Nodup) (w0 : SetColorCall)
    (h : w0 ∈ ws) :
    ((emptyPalette .Day).setColors C ws).m_colorMap (w0.key C) = some w0.color := by
  obtain ⟨col, hcol⟩ := SystemPalette.setColors_colorMap_isSome_of_mem C ws (emptyPalette .Day) w0 h
  rcases SystemPalette.setColors_colorMap_some C ws _ _ col hcol with h0 | ⟨w, hw, hk, hc⟩
  · exact absurd h0 (by simp [emptyPalette])
  · have : w = w0 := List.inj_on_of_nodup_map hnd hw h ((wf.key_eq_iff w w0).mp hk)
    rw [hcol, ← hc, this]

/-- A static builder leaves no entry for a tuple that none of its calls names. -/
theorem SystemPalette.setColors_lookup_of_not_mem {C : ColorContext} (wf : C.WellFormed)
    (ws : List SetColorCall) (t : ColorSet × ColorSection × ColorName × ColorState)
    (h : t ∉ ws.map SetColorCall.tuple) :
    ((emptyPalette .Day).setColors C ws).m_colorMap
      (makeKey (C.set t.1) (C.section_ t.2.1) (C.name t.2.2.1) (C.state t.2.2.2)) = none := by
  rw [SystemPalette.setColors_colorMap_of_forall_ne]
  · rfl
  · intro w hw hk
    unfold SetColorCall.key at hk
    rw [wf.makeKey_eq_iff] at hk
    obtain ⟨h1, h2, h3, h4⟩ := hk
    apply h
    have : w.tuple = t := by
      unfold SetColorCall.tuple
      rw [h1, h2, h3, h4]
    rw [← this]
    exact List.mem_map_of_mem _ hw

/-- With well-formed enumerator values, a static table has an entry for a tuple exactly
when one of the builder's calls names the tuple. -/
theorem SystemPalette.setColors_hasEntry_iff {C : ColorContext} (wf : C.WellFormed)
    (ws : List SetColorCall) (p : SystemPalette)
    (hp : p.m_colorMap = ((emptyPalette .Day).setColors C ws).m_colorMap)
    (t : ColorSet × ColorSection × ColorName × ColorState) :
    p.hasEntry C t ↔ t ∈ ws.map SetColorCall.tuple := by
  unfold SystemPalette.hasEntry
  rw [hp]
  constructor
  · rintro ⟨col, hcol⟩
    by_contra hmem
    rw [SystemPalette.setColors_lookup_of_not_mem wf ws t hmem] at hcol
    exact absurd hcol (by simp)
  · intro hmem
    obtain ⟨w, hw, rfl⟩ := List.mem_map.mp hmem
    exact SystemPalette.setColors_colorMap_isSome_of_mem C ws _ w hw

/-- The enumerators the dark builder names do not depend on the header. -/
theorem darkWrites_tuple (H : Header) :
    (darkWrites H).map SetColorCall.tuple = (darkWrites sampleHeader).map SetColorCall.tuple := by
  simp only [darkWrites, List.map_append, List.map_cons, List.map_nil, SetColorCall.tuple]

set_option maxRecDepth 100000 in
/-- No two calls of the light builder name the same tuple. -/
theorem lightWrites_nodup (H : Header) : ((lightWrites H).map SetColorCall.tuple).Nodup := by
  rw [lightWrites_tuple]
  decide

/-- The table of the light builder is the one its calls produce from the empty table. -/
theorem SystemPalette.makeLightPalette_colorMap (p : SystemPalette) (H : Header) :
    (p.makeLightPalette H).m_colorMap =
      ((emptyPalette .Day).setColors H.toColorContext (lightWrites H)).m_colorMap := by
  rw [SystemPalette.makeLightPalette_eq]

/-- The table of the dark builder is the one its calls produce from the empty table. -/
theorem SystemPalette.makeDarkPalette_colorMap (p : SystemPalette) (H : Header) :
    (p.makeDarkPalette H).m_colorMap =
      ((emptyPalette .Day).setColors H.toColorContext (darkWrites H)).m_colorMap := by
  rw [SystemPalette.makeDarkPalette_eq]

/-- The table of the noir builder is the one its calls produce from the empty table. -/
theorem SystemPalette.makeNoirPalette_colorMap (p : SystemPalette) (H : Header) :
    (p.makeNoirPalette H).m_colorMap =
      ((emptyPalette .Day).setColors H.toColorContext noirWrites).m_colorMap := by
  rw [SystemPalette.makeNoirPalette_eq]

/-- The table of the grindhouse builder is the one its calls produce from the empty
table. -/
theorem SystemPalette.makeGrindhousePalette_colorMap (p : SystemPalette) (H : Header) :
    (p.makeGrindhousePalette H).m_colorMap =
      ((emptyPalette .Day).setColors H.toColorContext grindhouseWrites).m_colorMap := by
  rw [SystemPalette.makeGrindhousePalette_eq]

/-- The table of the bubble-era builder is the one its calls produce from the empty
table. -/
theorem SystemPalette.makeBubbleEraPalette_colorMap (p : SystemPalette) (H : Header) :
    (p.makeBubbleEraPalette H).m_colorMap =
      ((emptyPalette .Day).setColors H.toColorContext bubbleEraWrites).m_colorMap := by
  rw [SystemPalette.makeBubbleEraPalette_eq]

/-! ## The separator colour of the light theme -/

/-- The only call of the light builder for the role `Separator` is the one for
(View, Decoration, Separator, Normal). -/
theorem lightWrites_separator (H : Header) :
    ∀ w ∈ lightWrites H, w.name = .Separator →
      w.tuple = (.View, .Decoration, .Separator, .Normal) := by
  have hall : ((lightWrites sampleHeader).map SetColorCall.tuple).all
      (fun x => decide (x.2.2.1 = .Separator → x = (.View, .Decoration, .Separator, .Normal))) =
      true := by decide
  intro w hw
  have hmem : w.tuple ∈ (lightWrites H).map SetColorCall.tuple := List.mem_map_of_mem _ hw
  rw [lightWrites_tuple] at hmem
  exact of_decide_eq_true (List.all_eq_true.mp hall _ hmem)

/-- The light table holds `#E0E0E0` for (View, Decoration, Separator, Normal). -/
theorem makeLightPalette_separator_entry (H : Header) (wf : H.WellFormed) (p : SystemPalette) :
    (p.makeLightPalette H).m_colorMap
      (makeKey (H.set .View) (H.section_ .Decoration) (H.name .Separator) (H.state .Normal)) =
      some (QColor.fromString "#E0E0E0") := by
  have h := SystemPalette.setColors_lookup_of_mem wf (lightWrites H) (lightWrites_nodup H)
    ⟨.View, .Decoration, .Separator, .Normal, QColor.fromString "#E0E0E0"⟩
    (by simp [lightWrites])
  simp only [SetColorCall.key] at h
  rw [SystemPalette.makeLightPalette_colorMap, h]

/-- The light table holds no other entry for the role `Separator` in the section
`Decoration`, whatever the set and the state inside the asserted bounds. -/
theorem makeLightPalette_separator_absent (H : Header) (wf : H.WellFormed) (p : SystemPalette)
    (s t : Nat) (hs : s < 65536) (ht : t < 16)
    (hne : ¬ (s = H.set .View ∧ t = H.state .Normal)) :
    (p.makeLightPalette H).m_colorMap
      (makeKey s (H.section_ .Decoration) (H.name .Separator) t) = none := by
  rw [SystemPalette.makeLightPalette_colorMap, SystemPalette.setColors_colorMap_of_forall_ne]
  · rfl
  · intro w hw hk
    obtain ⟨-, -, inn, -, bs, bc, bn, bt⟩ := id wf
    unfold SetColorCall.key at hk
    obtain ⟨h1, -, h3, h4⟩ := makeKey_inj_of_bounds (bs w.colorSet) hs (bc w.section_)
      (bc .Decoration) (bn w.name) (bn .Separator) (bt w.state) ht hk
    have htuple := lightWrites_separator H w hw (inn _ _ h3)
    simp only [SetColorCall.tuple, Prod.mk.injEq] at htuple
    obtain ⟨e1, -, -, e4⟩ := htuple
    apply hne
    rw [← h1, ← h4, e1, e4]
    exact ⟨rfl, rfl⟩

/-- C14: in the light theme, with well-formed enumerator values, `getColor(set,
Decoration, Separator, state)` returns `#E0E0E0` for every colour set and every state
(for every enumerator, and for every value inside the asserted bounds); the table
stores this colour for (View, Decoration, Separator, Normal) only, so that every other
lookup reaches it through the fallback tiers. -/
theorem light_separator_inherited (H : Header) (wf : H.WellFormed) (p : SystemPalette) :
    (∀ s t : Nat, s < 65536 → t < 16 →
      (p.makeLightPalette H).getColor H.toColorContext s (H.section_ .Decoration)
        (H.name .Separator) t = QColor.fromString "#E0E0E0") ∧
    (∀ (s : ColorSet) (t : ColorState),
      (p.makeLightPalette H).getColor H.toColorContext (H.set s) (H.section_ .Decoration)
        (H.name .Separator) (H.state t) = QColor.fromString "#E0E0E0") ∧
    (p.makeLightPalette H).m_colorMap
      (makeKey (H.set .View) (H.section_ .Decoration) (H.name .Separator) (H.state .Normal)) =
      some (QColor.fromString "#E0E0E0") ∧
    (∀ s t : Nat, s < 65536 → t < 16 → ¬ (s = H.set .View ∧ t = H.state .Normal) →
      (p.makeLightPalette H).m_colorMap
        (makeKey s (H.section_ .Decoration) (H.name .Separator) t) = none) := by
  have hv := makeLightPalette_separator_entry H wf p
  have habs := makeLightPalette_separator_absent H wf p
  obtain ⟨-, -, -, -, bs, -, -, bt⟩ := id wf
  have main : ∀ s t : Nat, s < 65536 → t < 16 →
      (p.makeLightPalette H).getColor H.toColorContext s (H.section_ .Decoration)
        (H.name .Separator) t = QColor.fromString "#E0E0E0" := by
    intro s t hs ht
    rw [SystemPalette.getColor_tiers]
    by_cases h1 : s = H.set .View
    · subst h1
      by_cases h2 : t = H.state .Normal
      · subst h2
        rw [hv]
      · rw [habs _ t hs ht (fun h => h2 h.2), hv]
    · rw [habs s t hs ht (fun h => h1 h.1), habs s _ hs (bt .Normal) (fun h => h1 h.1)]
      simp only [ne_eq, h1, not_false_eq_true, if_true]
      by_cases h2 : t = H.state .Normal
      · subst h2
        rw [hv]
      · rw [habs _ t (bs .View) ht (fun h => h2 h.2), hv]
  exact ⟨main, fun s t => main _ _ (bs s) (bt t), hv, fun s t hs ht hne => habs s t hs ht hne⟩

/-- Witness of C14 on the sample header: the separator colour of the set `Slider` in
the state `Hovered`, and of the set value 200 in the state value 9. -/
theorem light_separator_inherited_witness :
    ((emptyPalette .Day).makeLightPalette sampleHeader).getColor sampleHeader.toColorContext
      (sampleHeader.set .Slider) (sampleHeader.section_ .Decoration)
      (sampleHeader.name .Separator) (sampleHeader.state .Hovered) =
        QColor.fromString "#E0E0E0" ∧
    ((emptyPalette .Day).makeLightPalette sampleHeader).getColor sampleHeader.toColorContext
      200 (sampleHeader.section_ .Decoration) (sampleHeader.name .Separator) 9 =
        QColor.fromString "#E0E0E0" :=
  ⟨(light_separator_inherited sampleHeader (by decide) (emptyPalette .Day)).2.1 .Slider .Hovered,
   (light_separator_inherited sampleHeader (by decide) (emptyPalette .Day)).1 200 9 (by decide)
     (by decide)⟩

/-! ## Pairs defined in the `View` set -/

/-- When (View, section, role, Normal) has an entry, every run of `getColor` on the
pair ends on a table entry. -/
theorem SystemPalette.getColorRun_matched_of_view_normal (p : SystemPalette) (C : ColorContext)
    (s c n t : Nat)
    (h : ∃ col, p.m_colorMap (makeKey (C.set .View) c n (C.state .Normal)) = some col) :
    (p.getColorRun C s c n t).matched = true ∧
    ∃ k, p.m_colorMap k = some (p.getColorRun C s c n t).color := by
  obtain ⟨col, hcol⟩ := h
  have hview : (p.getColorRun C (C.set .View) c n t).matched = true ∧
      ∃ k, p.m_colorMap k = some (p.getColorRun C (C.set .View) c n t).color := by
    rw [SystemPalette.getColorRun_view]
    cases h1 : p.m_colorMap (makeKey (C.set .View) c n t) with
    | some col1 => exact ⟨rfl, _, h1⟩
    | none =>
      rw [hcol]
      exact ⟨rfl, _, hcol⟩
  by_cases hs : s = C.set .View
  · subst hs
    exact hview
  · rw [SystemPalette.getColorRun_other p C s c n t hs]
    cases h1 : p.m_colorMap (makeKey s c n t) with
    | some col1 => exact ⟨rfl, _, h1⟩
    | none =>
      cases h2 : p.m_colorMap (makeKey s c n (C.state .Normal)) with
      | some col2 => exact ⟨rfl, _, h2⟩
      | none => exact hview

/-- A builder whose calls name (View, section, role, Normal) for every pair they name
in the set `View` resolves all these pairs. -/
theorem viewPairsResolve_of (C : ColorContext) (build : SystemPalette → SystemPalette)
    (writes : List SetColorCall)
    (hmap : ∀ p, (build p).m_colorMap = ((emptyPalette .Day).setColors C writes).m_colorMap)
    (hall : (writes.map SetColorCall.tuple).all
      (fun x => decide (x.1 = .View →
        (.View, x.2.1, x.2.2.1, .Normal) ∈ writes.map SetColorCall.tuple)) = true) :
    ViewPairsResolve C build writes := by
  intro p sec name ⟨w, hw, hset, hsec, hname⟩
  have hmem := of_decide_eq_true (List.all_eq_true.mp hall _ (List.mem_map_of_mem _ hw)) hset
  obtain ⟨v, hv, hvt⟩ := List.mem_map.mp hmem
  have hentry : ∃ col, (build p).m_colorMap
      (makeKey (C.set .View) (C.section_ sec) (C.name name) (C.state .Normal)) = some col := by
    obtain ⟨col, hcol⟩ := SystemPalette.setColors_colorMap_isSome_of_mem C writes
      (emptyPalette .Day) v hv
    simp only [SetColorCall.tuple, Prod.mk.injEq] at hvt
    obtain ⟨e1, e2, e3, e4⟩ := hvt
    refine ⟨col, ?_⟩
    rw [hmap, ← hcol]
    unfold SetColorCall.key SetColorCall.tuple at *
    rw [e1, e2, e3, e4, hsec, hname]
  refine ⟨hentry, fun s t => ?_⟩
  have h := SystemPalette.getColorRun_matched_of_view_normal (build p) C s (C.section_ sec)
    (C.name name) t hentry
  rw [SystemPalette.getColorRun_color] at h
  exact h

set_option maxRecDepth 100000 in
/-- C17: in each of the five static themes, for every (section, role) pair the theme
defines in its `View` set, the table has an entry for (View, section, role, Normal),
so that for every colour set and every state `getColor` on the pair returns a stored
entry and never reaches the branch "nothing matches". -/
theorem static_view_pairs_resolve (H : Header) :
    ViewPairsResolve H.toColorContext (fun p => p.makeLightPalette H) (lightWrites H) ∧
    ViewPairsResolve H.toColorContext (fun p => p.makeDarkPalette H) (darkWrites H) ∧
    ViewPairsResolve H.toColorContext (fun p => p.makeNoirPalette H) noirWrites ∧
    ViewPairsResolve H.toColorContext (fun p => p.makeGrindhousePalette H) grindhouseWrites ∧
    ViewPairsResolve H.toColorContext (fun p => p.makeBubbleEraPalette H) bubbleEraWrites := by
  refine ⟨viewPairsResolve_of _ _ _ (fun p => p.makeLightPalette_colorMap H) ?_,
    viewPairsResolve_of _ _ _ (fun p => p.makeDarkPalette_colorMap H) ?_,
    viewPairsResolve_of _ _ _ (fun p => p.makeNoirPalette_colorMap H) (by decide),
    viewPairsResolve_of _ _ _ (fun p => p.makeGrindhousePalette_colorMap H) (by decide),
    viewPairsResolve_of _ _ _ (fun p => p.makeBubbleEraPalette_colorMap H) (by decide)⟩
  · rw [lightWrites_tuple]
    decide
  · rw [darkWrites_tuple]
    decide

/-- Witness of C17: the pair (Decoration, Border) of the light theme over the sample
header, looked up for the set value 200 in the state value 9. -/
theorem static_view_pairs_resolve_witness :
    (((emptyPalette .Day).makeLightPalette sampleHeader).getColorRun sampleHeader.toColorContext
      200 (sampleHeader.section_ .Decoration) (sampleHeader.name .Border) 9).matched = true :=
  (((static_view_pairs_resolve sampleHeader).1 (emptyPalette .Day) .Decoration .Border
    ⟨⟨.View, .Decoration, .Border, .Focused, setColorAlpha Qt.black 0.7⟩,
      by simp [lightWrites], rfl, rfl, rfl⟩).2 200 9).1

/-! ## The tuples the static builders define -/

/-- C18, as stated, fails: over the sample header the light table has an entry for
(Slider, Bg, Secondary, Normal) and the dark table has none. -/
theorem light_dark_tuples_differ :
    ¬ (∀ t : ColorSet × ColorSection × ColorName × ColorState,
        ((emptyPalette .Day).makeLightPalette sampleHeader).hasEntry
            sampleHeader.toColorContext t ↔
          ((emptyPalette .Day).makeDarkPalette sampleHeader).hasEntry
            sampleHeader.toColorContext t) := by
  intro h
  have hl : ((emptyPalette .Day).makeLightPalette sampleHeader).hasEntry
      sampleHeader.toColorContext (.Slider, .Bg, .Secondary, .Normal) :=
    ⟨setColorAlpha (QColor.fromString "#lightGrey400") 0.2, by decide⟩
  obtain ⟨col, hcol⟩ := (h _).mp hl
  have hd : ((emptyPalette .Day).makeDarkPalette sampleHeader).m_colorMap
      (makeKey (sampleHeader.set .Slider) (sampleHeader.section_ .Bg)
        (sampleHeader.name .Secondary) (sampleHeader.state .Normal)) = none := by decide
  rw [hd] at hcol
  exact absurd hcol (by simp)

set_option maxRecDepth 100000 in
/-- The dark, noir, grindhouse and bubble-era builders name the same tuples, in the
same order. -/
theorem dark_tuples_eq (H : Header) :
    (darkWrites H).map SetColorCall.tuple = noirWrites.map SetColorCall.tuple ∧
    (darkWrites H).map SetColorCall.tuple = grindhouseWrites.map SetColorCall.tuple ∧
    (darkWrites H).map SetColorCall.tuple = bubbleEraWrites.map SetColorCall.tuple := by
  rw [darkWrites_tuple]
  decide

set_option maxRecDepth 100000 in
/-- The tuples of the light builder are those of the dark builder, without
(Slider, Bg, Primary, Focused) and (Slider, Bg, Primary, Hovered) and with
(Slider, Bg, Secondary, Normal). -/
theorem light_tuples_iff (H : Header) (t : ColorSet × ColorSection × ColorName × ColorState) :
    t ∈ (lightWrites H).map SetColorCall.tuple ↔
      (t ∈ (darkWrites H).map SetColorCall.tuple ∧ t ≠ (.Slider, .Bg, .Primary, .Focused) ∧
        t ≠ (.Slider, .Bg, .Primary, .Hovered)) ∨ t = (.Slider, .Bg, .Secondary, .Normal) := by
  rw [lightWrites_tuple, darkWrites_tuple]
  have hL : ((lightWrites sampleHeader).map SetColorCall.tuple).all
      (fun x => decide ((x ∈ (darkWrites sampleHeader).map SetColorCall.tuple ∧
        x ≠ (.Slider, .Bg, .Primary, .Focused) ∧ x ≠ (.Slider, .Bg, .Primary, .Hovered)) ∨
        x = (.Slider, .Bg, .Secondary, .Normal))) = true := by decide
  have hD : ((darkWrites sampleHeader).map SetColorCall.tuple).all
      (fun x => decide (x = (.Slider, .Bg, .Primary, .Focused) ∨
        x = (.Slider, .Bg, .Primary, .Hovered) ∨
        x ∈ (lightWrites sampleHeader).map SetColorCall.tuple)) = true := by decide
  have hc : ((.Slider, .Bg, .Secondary, .Normal) :
      ColorSet × ColorSection × ColorName × ColorState) ∈
      (lightWrites sampleHeader).map SetColorCall.tuple := by decide
  constructor
  · intro h
    exact of_decide_eq_true (List.all_eq_true.mp hL t h)
  · rintro (⟨h, ha, hb⟩ | rfl)
    · rcases of_decide_eq_true (List.all_eq_true.mp hD t h) with h1 | h1 | h1
      · exact absurd h1 ha
      · exact absurd h1 hb
      · exact h1
    · exact hc

set_option maxRecDepth 100000 in
/-- The calls of the five builders for the three `Slider` tuples on which the light
builder differs from the others. -/
theorem slider_tuples_mem (H : Header) :
    ((.Slider, .Bg, .Secondary, .Normal) ∈ (lightWrites H).map SetColorCall.tuple ∧
      (.Slider, .Bg, .Secondary, .Normal) ∉ (darkWrites H).map SetColorCall.tuple ∧
      (.Slider, .Bg, .Secondary, .Normal) ∉ noirWrites.map SetColorCall.tuple ∧
      (.Slider, .Bg, .Secondary, .Normal) ∉ grindhouseWrites.map SetColorCall.tuple ∧
      (.Slider, .Bg, .Secondary, .Normal) ∉ bubbleEraWrites.map SetColorCall.tuple) ∧
    ((.Slider, .Bg, .Primary, .Focused) ∉ (lightWrites H).map SetColorCall.tuple ∧
      (.Slider, .Bg, .Primary, .Focused) ∈ (darkWrites H).map SetColorCall.tuple ∧
      (.Slider, .Bg, .Primary, .Focused) ∈ noirWrites.map SetColorCall.tuple ∧
      (.Slider, .Bg, .Primary, .Focused) ∈ grindhouseWrites.map SetColorCall.tuple ∧
      (.Slider, .Bg, .Primary, .Focused) ∈ bubbleEraWrites.map SetColorCall.tuple) ∧
    ((.Slider, .Bg, .Primary, .Hovered) ∉ (lightWrites H).map SetColorCall.tuple ∧
      (.Slider, .Bg, .Primary, .Hovered) ∈ (darkWrites H).map SetColorCall.tuple ∧
      (.Slider, .Bg, .Primary, .Hovered) ∈ noirWrites.map SetColorCall.tuple ∧
      (.Slider, .Bg, .Primary, .Hovered) ∈ grindhouseWrites.map SetColorCall.tuple ∧
      (.Slider, .Bg, .Primary, .Hovered) ∈ bubbleEraWrites.map SetColorCall.tuple) := by
  rw [lightWrites_tuple, darkWrites_tuple]
  refine ⟨⟨?_, ?_, ?_, ?_, ?_⟩, ⟨?_, ?_, ?_, ?_, ?_⟩, ⟨?_, ?_, ?_, ?_, ?_⟩⟩ <;> decide

/-- C18, amended: with well-formed enumerator values, the dark, noir, grindhouse and
bubble-era builders define the same set of tuples; the light builder defines the same
tuples except in the `Slider` set, where it defines (Slider, Bg, Secondary, Normal),
which none of the other four defines, and does not define (Slider, Bg, Primary,
Focused) and (Slider, Bg, Primary, Hovered), which each of the other four defines. -/
theorem static_builders_tuples (H : Header) (wf : H.WellFormed) (p q : SystemPalette) :
    (∀ t : ColorSet × ColorSection × ColorName × ColorState,
      ((p.makeDarkPalette H).hasEntry H.toColorContext t ↔
        (q.makeNoirPalette H).hasEntry H.toColorContext t) ∧
      ((p.makeDarkPalette H).hasEntry H.toColorContext t ↔
        (q.makeGrindhousePalette H).hasEntry H.toColorContext t) ∧
      ((p.makeDarkPalette H).hasEntry H.toColorContext t ↔
        (q.makeBubbleEraPalette H).hasEntry H.toColorContext t) ∧
      ((p.makeLightPalette H).hasEntry H.toColorContext t ↔
        ((q.makeDarkPalette H).hasEntry H.toColorContext t ∧
            t ≠ (.Slider, .Bg, .Primary, .Focused) ∧ t ≠ (.Slider, .Bg, .Primary, .Hovered)) ∨
          t = (.Slider, .Bg, .Secondary, .Normal))) ∧
    ((p.makeLightPalette H).hasEntry H.toColorContext (.Slider, .Bg, .Secondary, .Normal) ∧
      ¬ (p.makeDarkPalette H).hasEntry H.toColorContext (.Slider, .Bg, .Secondary, .Normal) ∧
      ¬ (p.makeNoirPalette H).hasEntry H.toColorContext (.Slider, .Bg, .Secondary, .Normal) ∧
      ¬ (p.makeGrindhousePalette H).hasEntry H.toColorContext
        (.Slider, .Bg, .Secondary, .Normal) ∧
      ¬ (p.makeBubbleEraPalette H).hasEntry H.toColorContext
        (.Slider, .Bg, .Secondary, .Normal)) ∧
    (¬ (p.makeLightPalette H).hasEntry H.toColorContext (.Slider, .Bg, .Primary, .Focused) ∧
      (p.makeDarkPalette H).hasEntry H.toColorContext (.Slider, .Bg, .Primary, .Focused) ∧
      (p.makeNoirPalette H).hasEntry H.toColorContext (.Slider, .Bg, .Primary, .Focused) ∧
      (p.makeGrindhousePalette H).hasEntry H.toColorContext (.Slider, .Bg, .Primary, .Focused) ∧
      (p.makeBubbleEraPalette H).hasEntry H.toColorContext (.Slider, .Bg, .Primary, .Focused)) ∧
    (¬ (p.makeLightPalette H).hasEntry H.toColorContext (.Slider, .Bg, .Primary, .Hovered) ∧
      (p.makeDarkPalette H).hasEntry H.toColorContext (.Slider, .Bg, .Primary, .Hovered) ∧
      (p.makeNoirPalette H).hasEntry H.toColorContext (.Slider, .Bg, .Primary, .Hovered) ∧
      (p.makeGrindhousePalette H).hasEntry H.toColorContext (.Slider, .Bg, .Primary, .Hovered) ∧
      (p.makeBubbleEraPalette H).hasEntry H.toColorContext (.Slider, .Bg, .Primary, .Hovered)) := by
  have hD := fun (r : SystemPalette) =>
    SystemPalette.setColors_hasEntry_iff wf (darkWrites H) _ (r.makeDarkPalette_colorMap H)
  have hN := fun (r : SystemPalette) =>
    SystemPalette.setColors_hasEntry_iff wf noirWrites _ (r.makeNoirPalette_colorMap H)
  have hG := fun (r : SystemPalette) =>
    SystemPalette.setColors_hasEntry_iff wf grindhouseWrites _
      (r.makeGrindhousePalette_colorMap H)
  have hB := fun (r : SystemPalette) =>
    SystemPalette.setColors_hasEntry_iff wf bubbleEraWrites _ (r.makeBubbleEraPalette_colorMap H)
  have hL := fun (r : SystemPalette) =>
    SystemPalette.setColors_hasEntry_iff wf (lightWrites H) _ (r.makeLightPalette_colorMap H)
  obtain ⟨e1, e2, e3⟩ := dark_tuples_eq H
  obtain ⟨⟨a1, a2, a3, a4, a5⟩, ⟨b1, b2, b3, b4, b5⟩, ⟨c1, c2, c3, c4, c5⟩⟩ :=
    slider_tuples_mem H
  refine ⟨fun t => ⟨?_, ?_, ?_, ?_⟩, ⟨?_, ?_, ?_, ?_, ?_⟩, ⟨?_, ?_, ?_, ?_, ?_⟩,
    ⟨?_, ?_, ?_, ?_, ?_⟩⟩
  · rw [hD p t, hN q t, e1]
  · rw [hD p t, hG q t, e2]
  · rw [hD p t, hB q t, e3]
  · rw [hL p t, hD q t]
    exact light_tuples_iff H t
  · exact (hL p _).mpr a1
  · exact fun h => a2 ((hD p _).mp h)
  · exact fun h => a3 ((hN p _).mp h)
  · exact fun h => a4 ((hG p _).mp h)
  · exact fun h => a5 ((hB p _).mp h)
  · exact fun h => b1 ((hL p _).mp h)
  · exact (hD p _).mpr b2
  · exact (hN p _).mpr b3
  · exact (hG p _).mpr b4
  · exact (hB p _).mpr b5
  · exact fun h => c1 ((hL p _).mp h)
  · exact (hD p _).mpr c2
  · exact (hN p _).mpr c3
  · exact (hG p _).mpr c4
  · exact (hB p _).mpr c5

/-- Witness of the amended C18 over the sample header: the dark and the noir table
agree on (Slider, Bg, Primary, Hovered), the light table has (Slider, Bg, Secondary,
Normal) and the grindhouse table has not, the bubble-era table has (Slider, Bg,
Primary, Focused) and the light table has not. -/
theorem static_builders_tuples_witness :
    (((emptyPalette .Day).makeDarkPalette sampleHeader).hasEntry sampleHeader.toColorContext
        (.Slider, .Bg, .Primary, .Hovered) ↔
      ((emptyPalette .Night).makeNoirPalette sampleHeader).hasEntry sampleHeader.toColorContext
        (.Slider, .Bg, .Primary, .Hovered)) ∧
    ((emptyPalette .Day).makeLightPalette sampleHeader).hasEntry sampleHeader.toColorContext
        (.Slider, .Bg, .Secondary, .Normal) ∧
    ¬ ((emptyPalette .Day).makeGrindhousePalette sampleHeader).hasEntry
        sampleHeader.toColorContext (.Slider, .Bg, .Secondary, .Normal) ∧
    ((emptyPalette .Day).makeBubbleEraPalette sampleHeader).hasEntry sampleHeader.toColorContext
        (.Slider, .Bg, .Primary, .Focused) ∧
    ¬ ((emptyPalette .Day).makeLightPalette sampleHeader).hasEntry sampleHeader.toColorContext
        (.Slider, .Bg, .Primary, .Focused) :=
  ⟨((static_builders_tuples sampleHeader (by decide) (emptyPalette .Day)
      (emptyPalette .Night)).1 (.Slider, .Bg, .Primary, .Hovered)).1,
   (static_builders_tuples sampleHeader (by decide) (emptyPalette .Day)
      (emptyPalette .Night)).2.1.1,
   (static_builders_tuples sampleHeader (by decide) (emptyPalette .Day)
      (emptyPalette .Night)).2.1.2.2.2.1,
   (static_builders_tuples sampleHeader (by decide) (emptyPalette .Day)
      (emptyPalette .Night)).2.2.1.2.2.2.2,
   (static_builders_tuples sampleHeader (by decide) (emptyPalette .Day)
      (emptyPalette .Night)).2.2.1.1⟩

/-! ## Magenta in the static themes -/

/-- A run of `getColor` that ends on a table entry returns a stored colour. -/
theorem SystemPalette.getColorRun_stored_of_matched (p : SystemPalette) (C : ColorContext)
    (s c n t : Nat) (h : (p.getColorRun C s c n t).matched = true) :
    ∃ k, p.m_colorMap k = some (p.getColorRun C s c n t).color := by
  have hview : (p.getColorRun C (C.set .View) c n t).matched = true →
      ∃ k, p.m_colorMap k = some (p.getColorRun C (C.set .View) c n t).color := by
    rw [SystemPalette.getColorRun_view]
    cases h1 : p.m_colorMap (makeKey (C.set .View) c n t) with
    | some col1 => exact fun _ => ⟨_, h1⟩
    | none =>
      cases h2 : p.m_colorMap (makeKey (C.set .View) c n (C.state .Normal)) with
      | some col2 => exact fun _ => ⟨_, h2⟩
      | none => exact fun hm => absurd hm (by simp)
  by_cases hs : s = C.set .View
  · subst hs
    exact hview h
  · rw [SystemPalette.getColorRun_other p C s c n t hs] at h ⊢
    cases h1 : p.m_colorMap (makeKey s c n t) with
    | some col1 => exact ⟨_, h1⟩
    | none =>
      cases h2 : p.m_colorMap (makeKey s c n (C.state .Normal)) with
      | some col2 => exact ⟨_, h2⟩
      | none =>
        rw [h1, h2] at h
        exact hview h

/-- A colour whose alpha is set through `setColorAlpha` to a value other than 1.0 is not
opaque. -/
theorem setColorAlpha_not_opaqueMagenta (c : QColor) (a : AlphaF) (ha : a.hundredths ≠ 100) :
    (setColorAlpha c a).isOpaqueMagenta = false := by
  simp [QColor.isOpaqueMagenta, setColorAlpha, Alpha.isOpaque, ha]

/-- When no call of a builder stores opaque magenta, its table holds none, and a
magenta result of `getColor` comes from the branch "nothing matches". -/
theorem no_magenta_of_writes (C : ColorContext) (writes : List SetColorCall) (p : SystemPalette)
    (hp : p.m_colorMap = ((emptyPalette .Day).setColors C writes).m_colorMap)
    (hw : ∀ w ∈ writes, w.color.isOpaqueMagenta = false) :
    (∀ k col, p.m_colorMap k = some col → col.isOpaqueMagenta = false) ∧
    (∀ s c n t : Nat, (p.getColor C s c n t).isOpaqueMagenta = true →
      (p.getColorRun C s c n t).matched = false) := by
  have h1 : ∀ k col, p.m_colorMap k = some col → col.isOpaqueMagenta = false := by
    intro k col h
    rw [hp] at h
    rcases SystemPalette.setColors_colorMap_some C writes (emptyPalette .Day) k col h with
      h0 | ⟨w, hmem, -, hc⟩
    · exact absurd h0 (by simp [emptyPalette])
    · rw [← hc]
      exact hw w hmem
  refine ⟨h1, fun s c n t hm => ?_⟩
  cases hmatched : (p.getColorRun C s c n t).matched with
  | false => rfl
  | true =>
    obtain ⟨k, hk⟩ := p.getColorRun_stored_of_matched C s c n t hmatched
    rw [SystemPalette.getColorRun_color] at hk
    rw [h1 k _ hk] at hm
    exact absurd hm (by simp)

/-- No call of the light builder stores opaque magenta, when none of the predefined
colours is opaque magenta. -/
theorem lightWrites_no_magenta (H : Header)
    (hH : ∀ c ∈ H.predefinedColors, c.isOpaqueMagenta = false) :
    ∀ w ∈ lightWrites H, w.color.isOpaqueMagenta = false := by
  simp only [Header.predefinedColors, List.forall_mem_cons, List.not_mem_nil, false_imp_iff,
    implies_true, and_true] at hH
  obtain ⟨h1, h2, h3, h4, h5, h6, h7, h8, h9, h10, h11, h12⟩ := hH
  simp only [lightWrites, List.forall_mem_append, List.forall_mem_cons, List.not_mem_nil,
    false_imp_iff, implies_true, and_true]
  split_ands
  all_goals first
    | assumption
    | decide
    | exact setColorAlpha_not_opaqueMagenta _ _ (by decide)

/-- No call of the dark builder stores opaque magenta, when none of the predefined
colours is opaque magenta. -/
theorem darkWrites_no_magenta (H : Header)
    (hH : ∀ c ∈ H.predefinedColors, c.isOpaqueMagenta = false) :
    ∀ w ∈ darkWrites H, w.color.isOpaqueMagenta = false := by
  simp only [Header.predefinedColors, List.forall_mem_cons, List.not_mem_nil, false_imp_iff,
    implies_true, and_true] at hH
  obtain ⟨h1, h2, h3, h4, h5, h6, h7, h8, h9, h10, h11, h12⟩ := hH
  simp only [darkWrites, List.forall_mem_append, List.forall_mem_cons, List.not_mem_nil,
    false_imp_iff, implies_true, and_true]
  split_ands
  all_goals first
    | assumption
    | decide
    | exact setColorAlpha_not_opaqueMagenta _ _ (by decide)

/-- C19, as stated, fails: the grindhouse table over the sample header stores opaque
magenta (`#FF00FF`) for (View, Decoration, VisualFocus, Focused), so that `getColor`
returns magenta for a tuple that is defined. -/
theorem grindhouse_stores_magenta :
    ¬ (∀ (k : Nat) (col : QColor),
        ((emptyPalette .Day).makeGrindhousePalette sampleHeader).m_colorMap k = some col →
          col.isOpaqueMagenta = false) := by
  intro h
  have h0 := h (makeKey (sampleHeader.set .View) (sampleHeader.section_ .Decoration)
    (sampleHeader.name .VisualFocus) (sampleHeader.state .Focused)) Qt.magenta (by decide)
  exact absurd h0 (by decide)

/-- C19, amended: in the tables written by `makeNoirPalette` and `makeBubbleEraPalette`,
and in those written by `makeLightPalette` and `makeDarkPalette` when none of the
predefined colours of the header is opaque magenta, no entry is opaque magenta, so on
these four themes a magenta result of `getColor` comes from the branch "nothing
matches": the tuple is undefined. `makeGrindhousePalette` stores opaque magenta in ten
of its calls. -/
theorem static_themes_magenta (H : Header) (p : SystemPalette) :
    ((∀ k col, (p.makeNoirPalette H).m_colorMap k = some col → col.isOpaqueMagenta = false) ∧
      (∀ s c n t : Nat,
        ((p.makeNoirPalette H).getColor H.toColorContext s c n t).isOpaqueMagenta = true →
        ((p.makeNoirPalette H).getColorRun H.toColorContext s c n t).matched = false)) ∧
    ((∀ k col, (p.makeBubbleEraPalette H).m_colorMap k = some col →
        col.isOpaqueMagenta = false) ∧
      (∀ s c n t : Nat,
        ((p.makeBubbleEraPalette H).getColor H.toColorContext s c n t).isOpaqueMagenta = true →
        ((p.makeBubbleEraPalette H).getColorRun H.toColorContext s c n t).matched = false)) ∧
    ((∀ c ∈ H.predefinedColors, c.isOpaqueMagenta = false) →
      ((∀ k col, (p.makeLightPalette H).m_colorMap k = some col →
          col.isOpaqueMagenta = false) ∧
        (∀ s c n t : Nat,
          ((p.makeLightPalette H).getColor H.toColorContext s c n t).isOpaqueMagenta = true →
          ((p.makeLightPalette H).getColorRun H.toColorContext s c n t).matched = false)) ∧
      ((∀ k col, (p.makeDarkPalette H).m_colorMap k = some col →
          col.isOpaqueMagenta = false) ∧
        (∀ s c n t : Nat,
          ((p.makeDarkPalette H).getColor H.toColorContext s c n t).isOpaqueMagenta = true →
          ((p.makeDarkPalette H).getColorRun H.toColorContext s c n t).matched = false))) ∧
    (grindhouseWrites.filter (fun w => w.color.isOpaqueMagenta)).length = 10 := by
  have hn : noirWrites.all (fun w => decide (w.color.isOpaqueMagenta = false)) = true := by
    decide
  have hb : bubbleEraWrites.all (fun w => decide (w.color.isOpaqueMagenta = false)) = true := by
    decide
  refine ⟨?_, ?_, fun hH => ⟨?_, ?_⟩, by decide⟩
  · exact no_magenta_of_writes _ noirWrites _ (p.makeNoirPalette_colorMap H)
      (fun w hw => of_decide_eq_true (List.all_eq_true.mp hn w hw))
  · exact no_magenta_of_writes _ bubbleEraWrites _ (p.makeBubbleEraPalette_colorMap H)
      (fun w hw => of_decide_eq_true (List.all_eq_true.mp hb w hw))
  · exact no_magenta_of_writes _ (lightWrites H) _ (p.makeLightPalette_colorMap H)
      (lightWrites_no_magenta H hH)
  · exact no_magenta_of_writes _ (darkWrites H) _ (p.makeDarkPalette_colorMap H)
      (darkWrites_no_magenta H hH)

/-- Witness of the amended C19: in the light theme over the sample header the lookup
of (View, Bg, Highlight, Normal) returns magenta, and its run ends in the branch
"nothing matches". -/
theorem static_themes_magenta_witness :
    (((emptyPalette .Day).makeLightPalette sampleHeader).getColorRun sampleHeader.toColorContext
      (sampleHeader.set .View) (sampleHeader.section_ .Bg) (sampleHeader.name .Highlight)
      (sampleHeader.state .Normal)).matched = false :=
  ((static_themes_magenta sampleHeader (emptyPalette .Day)).2.2.1 (by decide)).1.2
    (sampleHeader.set .View) (sampleHeader.section_ .Bg) (sampleHeader.name .Highlight)
    (sampleHeader.state .Normal)
    (by
      rw [SystemPalette.getColor_tiers,
        makeLightPalette_view_bg_highlight sampleHeader (by decide) (emptyPalette .Day)]
      decide)

/-! ## The colour literals -/

/-- C20 fails on the light builder: the literal `"#lightGrey400"` of its call for
(Slider, Bg, Secondary, Normal) is not `#` followed by six hexadecimal digits, the
colour built from it is invalid and stays invalid under `setColorAlpha`, and with
well-formed enumerator values this invalid colour is the entry the light table holds
for the tuple and the colour `getColor` returns for it. The literals of the noir,
grindhouse and bubble-era builders all give valid colours. -/
theorem light_slider_secondary_invalid :
    isHexColorLiteral "#lightGrey400" = false ∧
    (QColor.fromString "#lightGrey400").valid = false ∧
    (setColorAlpha (QColor.fromString "#lightGrey400") 0.2).valid = false ∧
    (∀ (H : Header) (p : SystemPalette), H.WellFormed →
      (p.makeLightPalette H).m_colorMap
        (makeKey (H.set .Slider) (H.section_ .Bg) (H.name .Secondary) (H.state .Normal)) =
        some (setColorAlpha (QColor.fromString "#lightGrey400") 0.2) ∧
      (p.makeLightPalette H).getColor H.toColorContext
        (H.set .Slider) (H.section_ .Bg) (H.name .Secondary) (H.state .Normal) =
        setColorAlpha (QColor.fromString "#lightGrey400") 0.2) ∧
    noirWrites.all (fun w => w.color.valid) = true ∧
    grindhouseWrites.all (fun w => w.color.valid) = true ∧
    bubbleEraWrites.all (fun w => w.color.valid) = true := by
  refine ⟨by decide, by decide, by decide, fun H p wf => ?_, by decide, by decide, by decide⟩
  have h := SystemPalette.setColors_lookup_of_mem wf (lightWrites H) (lightWrites_nodup H)
    ⟨.Slider, .Bg, .Secondary, .Normal, setColorAlpha (QColor.fromString "#lightGrey400") 0.2⟩
    (by simp [lightWrites])
  simp only [SetColorCall.key] at h
  rw [← SystemPalette.makeLightPalette_colorMap p H] at h
  refine ⟨h, ?_⟩
  rw [SystemPalette.getColor_tiers, h]

/-- Witness of C20 on the sample header: the entry of (Slider, Bg, Secondary, Normal)
in the light table is the invalid colour. -/
theorem light_slider_secondary_invalid_witness :
    ((emptyPalette .Day).makeLightPalette sampleHeader).m_colorMap
        (makeKey (sampleHeader.set .Slider) (sampleHeader.section_ .Bg)
          (sampleHeader.name .Secondary) (sampleHeader.state .Normal)) =
        some (setColorAlpha (QColor.fromString "#lightGrey400") 0.2) ∧
    ((emptyPalette .Day).makeLightPalette sampleHeader).getColor sampleHeader.toColorContext
        (sampleHeader.set .Slider) (sampleHeader.section_ .Bg) (sampleHeader.name .Secondary)
        (sampleHeader.state .Normal) =
        setColorAlpha (QColor.fromString "#lightGrey400") 0.2 :=
  light_slider_secondary_invalid.2.2.2.1 sampleHeader (emptyPalette .Day) (by decide)

/-! ## Darkness flag of the static themes -/

/-- C21: the darkness flag after a static builder is fixed by the builder, whatever it
was before: false after `makeLightPalette` and `makeBubbleEraPalette`, true after
`makeDarkPalette`, `makeNoirPalette` and `makeGrindhousePalette`. -/
theorem static_builders_isDark (H : Header) (p : SystemPalette) :
    (p.makeLightPalette H).m_isDark = false ∧
    (p.makeBubbleEraPalette H).m_isDark = false ∧
    (p.makeDarkPalette H).m_isDark = true ∧
    (p.makeNoirPalette H).m_isDark = true ∧
    (p.makeGrindhousePalette H).m_isDark = true := by
  rw [SystemPalette.makeLightPalette_eq, SystemPalette.makeBubbleEraPalette_eq,
    SystemPalette.makeDarkPalette_eq, SystemPalette.makeNoirPalette_eq,
    SystemPalette.makeGrindhousePalette_eq]
  exact ⟨rfl, rfl, rfl, rfl, rfl⟩

/-! ## Setting the current source or context -/

/-- C22: `setSource` with the current source and `setCtx` with the current context (the
same address, or null when no context is set) return the state they were given: source,
context, colour table, darkness flag, provider and the log of emitted signals are all
unchanged, so no signal is emitted. -/
theorem set_current_value_noop (p : SystemPalette) (H : Header) :
    (∀ source, source = p.m_source →
      p.setSource H source = p ∧ (p.setSource H source).emitted = p.emitted) ∧
    (∀ ctx : Option MainCtx, ctx.map MainCtx.ptr = p.m_ctx.map MainCtx.ptr →
      p.setCtx H ctx = p ∧ (p.setCtx H ctx).emitted = p.emitted) ∧
    p.setCtx H p.m_ctx = p := by
  refine ⟨fun source h => ?_, fun ctx h => ?_, ?_⟩
  · have e : p.setSource H source = p := by
      unfold SystemPalette.setSource
      rw [if_pos h.symm]
    rw [e]
    exact ⟨rfl, rfl⟩
  · have e : p.setCtx H ctx = p := by
      unfold SystemPalette.setCtx
      rw [if_pos h]
    rw [e]
    exact ⟨rfl, rfl⟩
  · unfold SystemPalette.setCtx
    rw [if_pos rfl]

/-- Witness of C22: a palette of source `Day` whose table was changed by `setColor`
calls, and a palette of source `System` with a context. -/
theorem set_current_value_noop_witness :
    (tierPalette.setSource sampleHeader .Day = tierPalette ∧
      (tierPalette.setSource sampleHeader .Day).emitted = tierPalette.emitted) ∧
    (tierPalette.setCtx sampleHeader none = tierPalette ∧
      (tierPalette.setCtx sampleHeader none).emitted = tierPalette.emitted) ∧
    ((systemPalette darkProvider).setCtx sampleHeader
        (some { objectCreate := true, moduleNeed := some darkProvider }) =
        systemPalette darkProvider ∧
      ((systemPalette darkProvider).setCtx sampleHeader
        (some { objectCreate := true, moduleNeed := some darkProvider })).emitted =
        (systemPalette darkProvider).emitted) :=
  ⟨(set_current_value_noop tierPalette sampleHeader).1 .Day rfl,
   (set_current_value_noop tierPalette sampleHeader).2.1 none rfl,
   (set_current_value_noop (systemPalette darkProvider) sampleHeader).2.1 _ rfl⟩

/-! ## Callbacks of the provider -/

/-- C23: a callback that is missing from the provider's table is answered by a fixed
default: `isThemeDark()` is false, `hasCSDImages()` is false, `update()` returns
`VLC_EGENERIC` and leaves the palette alone, `getCSDImage` returns the null image. A
callback that is present decides the result: `isThemeDark()` and `hasCSDImages()` are
its answer (for the image type of the window-decoration buttons), `update()` returns
its status, and `getCSDImage` returns the null image when it returns no picture and an
image over the picture's pixels when it returns one. -/
theorem provider_callbacks (priv : ExternalPaletteImpl) (H : Header) :
    (priv.m_provider.isThemeDark = none → priv.isThemeDark = false) ∧
    (∀ dark, priv.m_provider.isThemeDark = some dark → priv.isThemeDark = dark) ∧
    (priv.m_provider.supportThemeImage = none → priv.hasCSDImages H = false) ∧
    (∀ support, priv.m_provider.supportThemeImage = some support →
      priv.hasCSDImages H = support H.VLC_QT_THEME_IMAGE_TYPE_CSD_BUTTON) ∧
    (priv.m_provider.updatePalette = none →
      ∀ palette, priv.update H palette = (H.VLC_EGENERIC, palette)) ∧
    (∀ u, priv.m_provider.updatePalette = some u →
      ∀ palette, (priv.update H palette).1 = u.ret) ∧
    (priv.m_provider.getThemeImage = none →
      ∀ type state maximized active bannerHeight,
        priv.getCSDImage H type state maximized active bannerHeight = (QImage.null, [])) ∧
    (∀ getThemeImage, priv.m_provider.getThemeImage = some getThemeImage →
      ∀ type state maximized active bannerHeight,
        (getThemeImage H.VLC_QT_THEME_IMAGE_TYPE_CSD_BUTTON
            { windowScaleFactor := priv.m_ctx.devicePixelRatio
              userScaleFacor := priv.m_ctx.getIntfUserScaleFactor
              buttonType := type
              state := state
              maximized := maximized
              active := active
              bannerHeight := bannerHeight } = none →
          priv.getCSDImage H type state maximized active bannerHeight = (QImage.null, [])) ∧
        (∀ pic, getThemeImage H.VLC_QT_THEME_IMAGE_TYPE_CSD_BUTTON
            { windowScaleFactor := priv.m_ctx.devicePixelRatio
              userScaleFacor := priv.m_ctx.getIntfUserScaleFactor
              buttonType := type
              state := state
              maximized := maximized
              active := active
              bannerHeight := bannerHeight } = some pic →
          ∃ width height bytesPerLine format,
            (priv.getCSDImage H type state maximized active bannerHeight).1 =
              QImage.fromData pic.p_pixels width height bytesPerLine format)) := by
  refine ⟨fun h => ?_, fun dark h => ?_, fun h => ?_, fun support h => ?_, fun h palette => ?_,
    fun u h palette => ?_, fun h type state maximized active bannerHeight => ?_,
    fun getThemeImage h type state maximized active bannerHeight => ⟨fun hp => ?_, fun pic hp => ?_⟩⟩
  · simp [ExternalPaletteImpl.isThemeDark, h]
  · simp [ExternalPaletteImpl.isThemeDark, h]
  · simp [ExternalPaletteImpl.hasCSDImages, h]
  · simp [ExternalPaletteImpl.hasCSDImages, h]
  · simp [ExternalPaletteImpl.update, h]
  · simp [ExternalPaletteImpl.update, h]
  · simp [ExternalPaletteImpl.getCSDImage, h]
  · simp [ExternalPaletteImpl.getCSDImage, h, hp]
  · simp only [ExternalPaletteImpl.getCSDImage, h, hp]
    exact ⟨_, _, _, _, rfl⟩

/-- Witness of C23: a provider without callbacks, the provider `darkProvider`, and a
provider whose image callback returns no picture. -/
theorem provider_callbacks_witness :
    ((sampleImpl bareProvider).isThemeDark = false ∧
      (sampleImpl bareProvider).hasCSDImages sampleHeader = false ∧
      (∀ palette, (sampleImpl bareProvider).update sampleHeader palette =
        (sampleHeader.VLC_EGENERIC, palette)) ∧
      (∀ type state maximized active bannerHeight,
        (sampleImpl bareProvider).getCSDImage sampleHeader type state maximized active
          bannerHeight = (QImage.null, []))) ∧
    ((sampleImpl darkProvider).isThemeDark = true ∧
      (sampleImpl darkProvider).hasCSDImages sampleHeader = true ∧
      (∀ palette, ((sampleImpl darkProvider).update sampleHeader palette).1 = 0)) ∧
    (sampleImpl (pictureProvider none)).getCSDImage sampleHeader 0 0 false true 32 =
      (QImage.null, []) :=
  ⟨⟨(provider_callbacks (sampleImpl bareProvider) sampleHeader).1 rfl,
     (provider_callbacks (sampleImpl bareProvider) sampleHeader).2.2.1 rfl,
     (provider_callbacks (sampleImpl bareProvider) sampleHeader).2.2.2.2.1 rfl,
     (provider_callbacks (sampleImpl bareProvider) sampleHeader).2.2.2.2.2.2.1 rfl⟩,
   ⟨(provider_callbacks (sampleImpl darkProvider) sampleHeader).2.1 true rfl,
     (provider_callbacks (sampleImpl darkProvider) sampleHeader).2.2.2.1 _ rfl,
     (provider_callbacks (sampleImpl darkProvider) sampleHeader).2.2.2.2.2.1 _ rfl⟩,
   ((provider_callbacks (sampleImpl (pictureProvider none)) sampleHeader).2.2.2.2.2.2.2 _ rfl
     0 0 false true 32).1 rfl⟩

/-! ## Metrics of the window decoration -/

/-- C24: on a provider with a `getThemeMetrics` callback, `updateMetrics` for the image
type of the window-decoration buttons drops the stored metrics, stores the five values
the callback reported when it returns true and nothing when it returns false, and
emits `CSDMetricsChanged` exactly once; for any other type, and on a provider without
the callback, it returns the object unchanged: same metrics, no signal. -/
theorem updateMetrics_csd_button (priv : ExternalPaletteImpl) (H : Header) :
    (∀ getThemeMetrics, priv.m_provider.getThemeMetrics = some getThemeMetrics →
      ((getThemeMetrics H.VLC_QT_THEME_IMAGE_TYPE_CSD_BUTTON).1 = true →
        (priv.updateMetrics H H.VLC_QT_THEME_IMAGE_TYPE_CSD_BUTTON).getCSDMetrics = some
          { interNavButtonSpacing :=
              (getThemeMetrics H.VLC_QT_THEME_IMAGE_TYPE_CSD_BUTTON).2.interNavButtonSpacing
            csdFrameMarginLeft :=
              (getThemeMetrics H.VLC_QT_THEME_IMAGE_TYPE_CSD_BUTTON).2.csdFrameMarginLeft
            csdFrameMarginRight :=
              (getThemeMetrics H.VLC_QT_THEME_IMAGE_TYPE_CSD_BUTTON).2.csdFrameMarginRight
            csdFrameMarginTop :=
              (getThemeMetrics H.VLC_QT_THEME_IMAGE_TYPE_CSD_BUTTON).2.csdFrameMarginTop
            csdFrameMarginBottom :=
              (getThemeMetrics H.VLC_QT_THEME_IMAGE_TYPE_CSD_BUTTON).2.csdFrameMarginBottom }) ∧
      ((getThemeMetrics H.VLC_QT_THEME_IMAGE_TYPE_CSD_BUTTON).1 = false →
        (priv.updateMetrics H H.VLC_QT_THEME_IMAGE_TYPE_CSD_BUTTON).getCSDMetrics = none) ∧
      (priv.updateMetrics H H.VLC_QT_THEME_IMAGE_TYPE_CSD_BUTTON).emitted =
        priv.emitted ++ [Signal.CSDMetricsChanged] ∧
      (priv.updateMetrics H H.VLC_QT_THEME_IMAGE_TYPE_CSD_BUTTON).m_provider = priv.m_provider) ∧
    (∀ type, type ≠ H.VLC_QT_THEME_IMAGE_TYPE_CSD_BUTTON → priv.updateMetrics H type = priv) ∧
    (priv.m_provider.getThemeMetrics = none → ∀ type, priv.updateMetrics H type = priv) ∧
    (∀ type, MetricsChangedCallback priv H type = priv.updateMetrics H type) := by
  refine ⟨fun getThemeMetrics h => ⟨fun hret => ?_, fun hret => ?_, ?_, ?_⟩, fun type ht => ?_,
    fun h type => ?_, fun type => rfl⟩
  · simp [ExternalPaletteImpl.updateMetrics, h, hret, ExternalPaletteImpl.getCSDMetrics,
      ExternalPaletteImpl.emit]
  · simp [ExternalPaletteImpl.updateMetrics, h, hret, ExternalPaletteImpl.getCSDMetrics,
      ExternalPaletteImpl.emit]
  · cases hret : (getThemeMetrics H.VLC_QT_THEME_IMAGE_TYPE_CSD_BUTTON).1 <;>
      simp [ExternalPaletteImpl.updateMetrics, h, hret, ExternalPaletteImpl.emit]
  · cases hret : (getThemeMetrics H.VLC_QT_THEME_IMAGE_TYPE_CSD_BUTTON).1 <;>
      simp [ExternalPaletteImpl.updateMetrics, h, hret, ExternalPaletteImpl.emit]
  · unfold ExternalPaletteImpl.updateMetrics
    cases priv.m_provider.getThemeMetrics <;> simp [ht]
  · simp [ExternalPaletteImpl.updateMetrics, h]

/-- Witness of C24: a provider whose callback succeeds, one whose callback fails, and a
provider without the callback, each on an object that held old metrics. -/
theorem updateMetrics_csd_button_witness :
    ((sampleImpl metricsProvider).updateMetrics sampleHeader 0).getCSDMetrics = some
        { interNavButtonSpacing := 4, csdFrameMarginLeft := 10, csdFrameMarginRight := 11,
          csdFrameMarginTop := 12, csdFrameMarginBottom := 13 } ∧
    ((sampleImpl noMetricsProvider).updateMetrics sampleHeader 0).getCSDMetrics = none ∧
    ((sampleImpl noMetricsProvider).updateMetrics sampleHeader 0).emitted =
      [Signal.CSDMetricsChanged] ∧
    (sampleImpl metricsProvider).updateMetrics sampleHeader 1 = sampleImpl metricsProvider ∧
    (∀ type, (sampleImpl bareProvider).updateMetrics sampleHeader type = sampleImpl bareProvider) :=
  ⟨((updateMetrics_csd_button (sampleImpl metricsProvider) sampleHeader).1 _ rfl).1 rfl,
   ((updateMetrics_csd_button (sampleImpl noMetricsProvider) sampleHeader).1 _ rfl).2.1 rfl,
   ((updateMetrics_csd_button (sampleImpl noMetricsProvider) sampleHeader).1 _ rfl).2.2.1,
   (updateMetrics_csd_button (sampleImpl metricsProvider) sampleHeader).2.1 1 (by decide),
   (updateMetrics_csd_button (sampleImpl bareProvider) sampleHeader).2.2.1 rfl⟩

/-! ## The image built from a picture -/

/-- The image `getCSDImage` builds from the picture the provider returns. -/
theorem ExternalPaletteImpl.getCSDImage_of_picture (priv : ExternalPaletteImpl) (H : Header)
    (getThemeImage : Nat → vlc_qt_theme_image_setting → Option picture_t)
    (hcb : priv.m_provider.getThemeImage = some getThemeImage)
    (type state : Nat) (maximized active : Bool) (bannerHeight : Int) (pic : picture_t)
    (hpic : getThemeImage H.VLC_QT_THEME_IMAGE_TYPE_CSD_BUTTON
      { windowScaleFactor := priv.m_ctx.devicePixelRatio
        userScaleFacor := priv.m_ctx.getIntfUserScaleFactor
        buttonType := type
        state := state
        maximized := maximized
        active := active
        bannerHeight := bannerHeight } = some pic) :
    priv.getCSDImage H type state maximized active bannerHeight =
      (QImage.fromData pic.p_pixels (wrapInt32 pic.i_visible_width)
        (wrapInt32 pic.i_visible_height) pic.i_pitch
        (if pic.i_chroma = H.VLC_CODEC_ARGB then .Format_ARGB32_Premultiplied
          else if pic.i_chroma = H.VLC_CODEC_RGBA then .Format_RGBA8888_Premultiplied
          else if pic.i_chroma = H.VLC_CODEC_RGB24 then .Format_RGB888
          else .Format_Invalid),
       if pic.i_chroma = H.VLC_CODEC_ARGB ∨ pic.i_chroma = H.VLC_CODEC_RGBA ∨
           pic.i_chroma = H.VLC_CODEC_RGB24 then []
         else ["unexpected image format from theme provider"]) := by
  simp only [ExternalPaletteImpl.getCSDImage, hcb, hpic]
  by_cases h1 : pic.i_chroma = H.VLC_CODEC_ARGB
  · simp [h1]
  · by_cases h2 : pic.i_chroma = H.VLC_CODEC_RGBA
    · simp only [if_neg h1, if_pos h2]
      rw [if_pos (Or.inr (Or.inl h2))]
    · by_cases h3 : pic.i_chroma = H.VLC_CODEC_RGB24
      · simp only [if_neg h1, if_neg h2, if_pos h3]
        rw [if_pos (Or.inr (Or.inr h3))]
      · simp [h1, h2, h3]

/-- C25: for every picture the provider returns, its visible width and height being
below 2^31 as those of every picture whose rows fit its `int` pitch are, `getCSDImage`
builds the image over the picture's pixels with width = the visible width, height =
the visible height, stride = the pitch of plane 0, and the format chosen from the
chroma: ARGB gives ARGB32 premultiplied, RGBA gives RGBA8888 premultiplied, RGB24 gives
RGB888, each with nothing logged, and every other chroma gives the invalid format with
one error logged. -/
theorem getCSDImage_from_picture (priv : ExternalPaletteImpl) (H : Header)
    (hH : H.ChromaDistinct)
    (getThemeImage : Nat → vlc_qt_theme_image_setting → Option picture_t)
    (hcb : priv.m_provider.getThemeImage = some getThemeImage)
    (type state : Nat) (maximized active : Bool) (bannerHeight : Int) (pic : picture_t)
    (hpic : getThemeImage H.VLC_QT_THEME_IMAGE_TYPE_CSD_BUTTON
      { windowScaleFactor := priv.m_ctx.devicePixelRatio
        userScaleFacor := priv.m_ctx.getIntfUserScaleFactor
        buttonType := type
        state := state
        maximized := maximized
        active := active
        bannerHeight := bannerHeight } = some pic)
    (hw : pic.i_visible_width < 2147483648) (hh : pic.i_visible_height < 2147483648) :
    ∃ format errors,
      priv.getCSDImage H type state maximized active bannerHeight =
        (QImage.fromData pic.p_pixels pic.i_visible_width pic.i_visible_height pic.i_pitch
          format, errors) ∧
      (pic.i_chroma = H.VLC_CODEC_ARGB →
        format = .Format_ARGB32_Premultiplied ∧ errors = []) ∧
      (pic.i_chroma = H.VLC_CODEC_RGBA →
        format = .Format_RGBA8888_Premultiplied ∧ errors = []) ∧
      (pic.i_chroma = H.VLC_CODEC_RGB24 → format = .Format_RGB888 ∧ errors = []) ∧
      (pic.i_chroma ≠ H.VLC_CODEC_ARGB → pic.i_chroma ≠ H.VLC_CODEC_RGBA →
        pic.i_chroma ≠ H.VLC_CODEC_RGB24 →
        format = .Format_Invalid ∧
          errors = ["unexpected image format from theme provider"]) := by
  obtain ⟨d1, d2, d3⟩ := hH
  have e := priv.getCSDImage_of_picture H getThemeImage hcb type state maximized active
    bannerHeight pic hpic
  have ew : wrapInt32 (pic.i_visible_width : Int) = pic.i_visible_width := by
    unfold wrapInt32; omega
  have eh : wrapInt32 (pic.i_visible_height : Int) = pic.i_visible_height := by
    unfold wrapInt32; omega
  rw [ew, eh] at e
  refine ⟨_, _, e, fun h => ?_, fun h => ?_, fun h => ?_, fun h1 h2 h3 => ?_⟩
  · simp [h]
  · have h1 : ¬ H.VLC_CODEC_RGBA = H.VLC_CODEC_ARGB := fun x => d1 x.symm
    simp [h, h1]
  · have h1 : ¬ H.VLC_CODEC_RGB24 = H.VLC_CODEC_ARGB := fun x => d2 x.symm
    have h2 : ¬ H.VLC_CODEC_RGB24 = H.VLC_CODEC_RGBA := fun x => d3 x.symm
    simp [h, h1, h2]
  · simp [h1, h2, h3]

/-- Witness of C25: an RGBA picture of 24 by 16 pixels over the sample
header. -/
theorem getCSDImage_from_picture_witness :
    ∃ format errors,
      (sampleImpl (pictureProvider (some (samplePicture 1094862674)))).getCSDImage sampleHeader
          0 0 false true 32 =
        (QImage.fromData 4096 24 16 96 format, errors) ∧
      format = QImage.Format.Format_RGBA8888_Premultiplied ∧ errors = [] := by
  obtain ⟨format, errors, h, -, h2, -⟩ :=
    getCSDImage_from_picture (sampleImpl (pictureProvider (some (samplePicture 1094862674))))
      sampleHeader (by decide) _ rfl 0 0 false true 32 (samplePicture 1094862674) rfl
      (by decide) (by decide)
  exact ⟨format, errors, h, h2 rfl⟩
